import Mathlib

/-! SignalFx Terraform provider: the data link and webhook integration resources.

A shallow embedding of `signalfx/resource_signalfx_data_link.go` and
`signalfx/resource_signalfx_webhook_integration.go`.

* Go strings are Lean `String`s, Go `error` values are their messages.
* `map[string]string` is an association list with distinct keys (`GoMap`), listed in
  the order in which `range` visits it.
* `*schema.Set` is a duplicate-free list (`SchemaSet`), listed in the order of
  `Set.List()`.  Writing a slice into a set field removes duplicates and rearranges the
  elements by hash code; the rearrangement is a parameter (`HashOrder`).
* `regexp` is a small regular-expression matcher over Unicode characters.
-/

namespace SignalFx

/-! ## Regular expressions (the fragment of Go's `regexp` used by the provider) -/

/-- Regular expressions over characters; atoms are character classes. -/
inductive Regex where
  | empty : Regex
  | eps : Regex
  | cls : (Char → Bool) → Regex
  | alt : Regex → Regex → Regex
  | seq : Regex → Regex → Regex
  | star : Regex → Regex

namespace Regex

/-- Does the expression accept the empty word. -/
def nullable : Regex → Bool
  | empty => false
  | eps => true
  | cls _ => false
  | alt r s => r.nullable || s.nullable
  | seq r s => r.nullable && s.nullable
  | star _ => true

/-- Brzozowski derivative with respect to one character. -/
def deriv : Regex → Char → Regex
  | empty, _ => empty
  | eps, _ => empty
  | cls p, c => if p c then eps else empty
  | alt r s, c => alt (r.deriv c) (s.deriv c)
  | seq r s, c => if r.nullable then alt (seq (r.deriv c) s) (s.deriv c) else seq (r.deriv c) s
  | star r, c => seq (r.deriv c) (star r)

/-- Whole-word match. -/
def rmatch : Regex → List Char → Bool
  | r, [] => r.nullable
  | r, c :: cs => (r.deriv c).rmatch cs

/-- Match of some initial segment of the input: the behaviour of `MatchString` for a
pattern that starts with `^` and has no `$`. -/
def matchPrefix : Regex → List Char → Bool
  | r, [] => r.nullable
  | r, c :: cs => r.nullable || (r.deriv c).matchPrefix cs

/-- A literal character. -/
def chr (c : Char) : Regex := cls (fun x => x == c)

/-- A literal word. -/
def lit : List Char → Regex
  | [] => eps
  | c :: cs => seq (chr c) (lit cs)

/-- The operator `r?`. -/
def opt (r : Regex) : Regex := alt r eps

/-- The operator `r+`. -/
def plus (r : Regex) : Regex := seq r (star r)

/-- The declarative meaning of an expression. -/
inductive Matches : Regex → List Char → Prop
  | eps : Matches Regex.eps []
  | cls (p : Char → Bool) (c : Char) : p c = true → Matches (Regex.cls p) [c]
  | altL (r s : Regex) (w : List Char) : Matches r w → Matches (Regex.alt r s) w
  | altR (r s : Regex) (w : List Char) : Matches s w → Matches (Regex.alt r s) w
  | seq (r s : Regex) (u v : List Char) : Matches r u → Matches s v →
      Matches (Regex.seq r s) (u ++ v)
  | starNil (r : Regex) : Matches (Regex.star r) []
  | starCons (r : Regex) (u v : List Char) : Matches r u → Matches (Regex.star r) v →
      Matches (Regex.star r) (u ++ v)

end Regex

/-- The class `[a-zA-Z0-9-]`. -/
def isHostChar (c : Char) : Bool :=
  ('a' ≤ c && c ≤ 'z') || ('A' ≤ c && c ≤ 'Z') || ('0' ≤ c && c ≤ '9') || c == '-'

/-- The class `\d` (ASCII digits). -/
def isDigitChar (c : Char) : Bool := '0' ≤ c && c ≤ '9'

/-- The class `.`: every character except a line feed. -/
def isDotChar (c : Char) : Bool := c != '\n'

/-- The pattern string of `getPayloadDataLink` (the value of the Go string literal). -/
def appdURLPatternRegex : String :=
  "^https?:\\/\\/[a-zA-Z0-9-]+\\.saas\\.appdynamics\\.com\\/.*application=\\d+.*component=\\d+.*"

/-- The compiled form of `appdURLPatternRegex`, without the leading `^`. -/
def appdRegex : Regex :=
  .seq (.lit "http".data) <|
  .seq (.opt (.chr 's')) <|
  .seq (.lit "://".data) <|
  .seq (.plus (.cls isHostChar)) <|
  .seq (.lit ".saas.appdynamics.com/".data) <|
  .seq (.star (.cls isDotChar)) <|
  .seq (.lit "application=".data) <|
  .seq (.plus (.cls isDigitChar)) <|
  .seq (.star (.cls isDotChar)) <|
  .seq (.lit "component=".data) <|
  .seq (.plus (.cls isDigitChar)) <|
  .star (.cls isDotChar)

/-- `re.MatchString(s)` for the compiled AppD pattern. -/
def appdMatchString (s : String) : Bool := appdRegex.matchPrefix s.data

/-! ## Go maps and SDK sets -/

/-- Assignment `m[k] = v` on the entry list of a map: an existing key keeps its place. -/
def kvInsert (k v : String) : List (String × String) → List (String × String)
  | [] => [(k, v)]
  | e :: rest => if e.1 = k then (k, v) :: rest else e :: kvInsert k v rest

/-- A Go `map[string]string`: entries with pairwise distinct keys, in `range` order. -/
structure GoMap where
  entries : List (String × String)
  nodupKeys : (entries.map Prod.fst).Nodup

instance : DecidableEq GoMap := fun a b =>
  match a, b with
  | ⟨ea, _⟩, ⟨eb, _⟩ =>
    if h : ea = eb then isTrue (by subst h; rfl)
    else isFalse (fun h2 => h (congrArg GoMap.entries h2))

namespace GoMap

/-- The map literal `map[string]string{}`. -/
def empty : GoMap := ⟨[], List.nodup_nil⟩

/-- The lookup `m[k]` with its `ok` flag. -/
def lookup (m : GoMap) (k : String) : Option String :=
  (m.entries.find? (fun e => e.1 == k)).map Prod.snd

/-- The key set of a map. -/
def keys (m : GoMap) : List String := m.entries.map Prod.fst

/-- The assignment `m[k] = v`. -/
def insert (m : GoMap) (k v : String) : GoMap :=
  ⟨kvInsert k v m.entries, by
    have key : ∀ l : List (String × String), (l.map Prod.fst).Nodup →
        ((kvInsert k v l).map Prod.fst).Nodup ∧
        ∀ x, x ∈ (kvInsert k v l).map Prod.fst → x = k ∨ x ∈ l.map Prod.fst := by
      intro l
      induction l with
      | nil => intro _; simp [kvInsert]
      | cons e rest ih =>
        intro h
        rw [List.map_cons, List.nodup_cons] at h
        by_cases hk : e.1 = k
        · simp only [kvInsert, hk, if_true, List.map_cons, List.nodup_cons, List.mem_cons]
          refine ⟨⟨hk ▸ h.1, h.2⟩, ?_⟩
          intro x hx
          rcases hx with hx | hx
          · exact Or.inl hx
          · exact Or.inr (Or.inr hx)
        · simp only [kvInsert, hk, if_false, List.map_cons, List.nodup_cons, List.mem_cons]
          obtain ⟨ih1, ih2⟩ := ih h.2
          refine ⟨⟨?_, ih1⟩, ?_⟩
          · intro hmem
            rcases ih2 _ hmem with h3 | h3
            · exact hk h3
            · exact h.1 h3
          · intro x hx
            rcases hx with hx | hx
            · exact Or.inr (Or.inl hx)
            · rcases ih2 _ hx with h3 | h3
              · exact Or.inl h3
              · exact Or.inr (Or.inr h3)
    exact (key m.entries m.nodupKeys).1⟩

/-- The loop `for key, value := range v { pkMap[key] = value }` on a fresh map. -/
def copy (m : GoMap) : GoMap :=
  m.entries.foldl (fun pkMap e => pkMap.insert e.1 e.2) empty

end GoMap

/-- The order in which `Set.List()` returns the elements of a set built from a slice:
the SDK sorts by hash code, which the model leaves open as any rearrangement. -/
structure HashOrder where
  arrange : {α : Type} → List α → List α
  perm : ∀ {α : Type} (l : List α), (arrange l).Perm l

/-- The elements of a `*schema.Set` in `List()` order; a set holds no element twice. -/
structure SchemaSet (α : Type) where
  elems : List α
  nodup : elems.Nodup

namespace SchemaSet

/-- The zero value of a set field. -/
def empty {α : Type} : SchemaSet α := ⟨[], List.nodup_nil⟩

/-- What `d.Set(key, slice)` stores in a set field: the distinct elements of the slice,
rearranged by hash code. -/
def ofSlice {α : Type} [DecidableEq α] (ord : HashOrder) (l : List α) : SchemaSet α :=
  ⟨ord.arrange l.dedup, (ord.perm l.dedup).nodup_iff.mpr (List.nodup_dedup l)⟩

end SchemaSet

/-- The call `d.GetOk(key)` on a string field: `ok` holds for a non-zero value. -/
def getOkString (s : String) : Option String := if s = "" then none else some s

/-- The call `d.GetOk(key)` on a set field followed by `.List()`: `ok` holds for a
non-empty set. -/
def getOkSet {α : Type} (s : SchemaSet α) : Option (List α) :=
  if s.elems.isEmpty then none else some s.elems

/-- The outcome of the calls `d.Set(key, value)`: for each key, the error the SDK
reports for it, if any. -/
abbrev SetErrors := String → Option String

/-- The function `strings.Contains`. -/
def stringsContains (s sub : String) : Bool :=
  s.data.tails.any (fun t => sub.data.isPrefixOf t)

/-! ## The data link resource

The types `Target`, `CreateUpdateDataLinkRequest` and `DataLink` and the link type and
time format constants belong to the client library `signalfx-go/datalink`; they are
string-based there (`type Type string`, `type TimeFormat string`), so a value outside
the listed constants is a well-formed value. -/

/-- The link type `datalink.INTERNAL_LINK`. -/
def INTERNAL_LINK : String := "INTERNAL_LINK"
/-- The link type `datalink.EXTERNAL_LINK`. -/
def EXTERNAL_LINK : String := "EXTERNAL_LINK"
/-- The link type `datalink.SPLUNK_LINK`. -/
def SPLUNK_LINK : String := "SPLUNK_LINK"
/-- The link type `datalink.APPD_LINK`. -/
def APPD_LINK : String := "APPD_LINK"

/-- The time format `datalink.ISO8601`. -/
def ISO8601 : String := "ISO8601"
/-- The time format `datalink.Epoch`. -/
def Epoch : String := "Epoch"
/-- The time format `datalink.EpochSeconds`. -/
def EpochSeconds : String := "EpochSeconds"

/-- The struct `datalink.Target`; `Type_` is its field `Type`, a nil map is `none`. -/
structure Target where
  DashboardGroupId : String := ""
  DashboardGroupName : String := ""
  DashboardId : String := ""
  DashboardName : String := ""
  IsDefault : Bool := false
  MinimumTimeWindow : String := ""
  Name : String := ""
  PropertyKeyMapping : Option GoMap := none
  TimeFormat : String := ""
  Type_ : String := ""
  URL : String := ""
deriving DecidableEq

/-- The struct `datalink.CreateUpdateDataLinkRequest`. -/
structure CreateUpdateDataLinkRequest where
  ContextId : String := ""
  PropertyName : String := ""
  PropertyValue : String := ""
  Targets : List Target := []
deriving DecidableEq

/-- The struct `datalink.DataLink`, the API's answer. -/
structure DataLink where
  ContextId : String := ""
  Id : String := ""
  PropertyName : String := ""
  PropertyValue : String := ""
  Targets : List Target := []
deriving DecidableEq

/-- An element of the set `target_signalfx_dashboard`. -/
structure SfxDashboardElem where
  dashboard_group_id : String
  dashboard_id : String
  is_default : Bool
  name : String
deriving DecidableEq

/-- An element of the set `target_external_url`. -/
structure ExternalURLElem where
  name : String
  time_format : String
  url : String
  property_key_mapping : GoMap
  minimum_time_window : String
deriving DecidableEq

/-- An element of the set `target_splunk`. -/
structure SplunkElem where
  name : String
  property_key_mapping : GoMap
deriving DecidableEq

/-- An element of the set `target_appd_url`. -/
structure AppdURLElem where
  name : String
  url : String
deriving DecidableEq

/-- The element map of `target_signalfx_dashboard` holds exactly the keys of the element
schema, so the lookups of `dashboard_group_name` and `dashboard_name` find nothing. -/
def SfxDashboardElem.lookupOther (_tfLink : SfxDashboardElem) (_key : String) :
    Option String := none

/-- The `*schema.ResourceData` of a data link. -/
structure DataLinkResourceData where
  property_name : String := ""
  property_value : String := ""
  context_dashboard_id : String := ""
  target_signalfx_dashboard : SchemaSet SfxDashboardElem := SchemaSet.empty
  target_external_url : SchemaSet ExternalURLElem := SchemaSet.empty
  target_splunk : SchemaSet SplunkElem := SchemaSet.empty
  target_appd_url : SchemaSet AppdURLElem := SchemaSet.empty

/-- Error of `getPayloadDataLink`: a property value without a property name. -/
def errPropertyValue : String := "Must supply a property_name when supplying a property_value"

/-- Error of `getPayloadDataLink`: a dashboard target without a property name. -/
def errSfxDashboard : String :=
  "Must supply a property_name when using target_signalfx_dashboard"

/-- Error of `getPayloadDataLink`: an AppD URL that does not match the pattern. -/
def errAppdLink : String :=
  "enter a valid AppD Link. The link needs to include the contoller URL, application ID, and Application component"

/-- Error of `getPayloadDataLink`: no target at all. -/
def errNoTargets : String :=
  "You must provide one or more of `target_signalfx_dashboard`, `target_external_url`, `target_appd_url` or `target_splunk`"

/-- The target built from one `target_signalfx_dashboard` element. -/
def sfxDashboardTarget (tfLink : SfxDashboardElem) : Target :=
  let dl : Target :=
    { DashboardGroupId := tfLink.dashboard_group_id
      DashboardId := tfLink.dashboard_id
      Name := tfLink.name
      IsDefault := tfLink.is_default
      Type_ := INTERNAL_LINK }
  let dl := match tfLink.lookupOther "dashboard_group_name" with
    | some val => { dl with DashboardGroupName := val }
    | none => dl
  match tfLink.lookupOther "dashboard_name" with
  | some val => { dl with DashboardName := val }
  | none => dl

/-- The target built from one `target_splunk` element. -/
def splunkTarget (tfLink : SplunkElem) : Target :=
  { Name := tfLink.name
    Type_ := SPLUNK_LINK
    PropertyKeyMapping := some tfLink.property_key_mapping.copy }

/-- The target built from one `target_appd_url` element, before the URL check. -/
def appdTarget (tfLink : AppdURLElem) : Target :=
  { Name := tfLink.name, URL := tfLink.url, Type_ := APPD_LINK }

/-- The `switch` on `time_format` of an external URL element. -/
def externalTimeFormat (time_format : String) : String :=
  if time_format = "Epoch" then Epoch
  else if time_format = "EpochSeconds" then EpochSeconds
  else ISO8601

/-- The target built from one `target_external_url` element with a non-empty name. -/
def externalTarget (tfLink : ExternalURLElem) : Target :=
  { Name := tfLink.name
    MinimumTimeWindow := tfLink.minimum_time_window
    URL := tfLink.url
    Type_ := EXTERNAL_LINK
    TimeFormat := externalTimeFormat tfLink.time_format
    PropertyKeyMapping := some tfLink.property_key_mapping.copy }

/-- The loop over `target_appd_url`: it stops with an error at the first URL that the
pattern rejects. -/
def appdLoop : List AppdURLElem → List Target → Except String (List Target)
  | [], targets => .ok targets
  | tfLink :: rest, targets =>
    let dl := appdTarget tfLink
    if !appdMatchString dl.URL then .error errAppdLink
    else appdLoop rest (targets ++ [dl])

/-- The loop over `target_external_url`: elements with an empty name are skipped. -/
def externalLoop (exURLs : List ExternalURLElem) (targets : List Target) : List Target :=
  exURLs.foldl
    (fun acc tfLink => if tfLink.name = "" then acc else acc ++ [externalTarget tfLink])
    targets

/-- Lines 165-167 of `getPayloadDataLink`: the property name. -/
def readPropertyName (d : DataLinkResourceData) (dataLink : CreateUpdateDataLinkRequest) :
    CreateUpdateDataLinkRequest :=
  match getOkString d.property_name with
  | some name => { dataLink with PropertyName := name }
  | none => dataLink

/-- Lines 169-174 of `getPayloadDataLink`: the property value, which needs a name. -/
def readPropertyValue (d : DataLinkResourceData) (dataLink : CreateUpdateDataLinkRequest) :
    Except String CreateUpdateDataLinkRequest :=
  match getOkString d.property_value with
  | some val =>
    if dataLink.PropertyName = "" then Except.error errPropertyValue
    else Except.ok { dataLink with PropertyValue := val }
  | none => Except.ok dataLink

/-- Lines 176-178 of `getPayloadDataLink`: the context dashboard. -/
def readContextId (d : DataLinkResourceData) (dataLink : CreateUpdateDataLinkRequest) :
    CreateUpdateDataLinkRequest :=
  match getOkString d.context_dashboard_id with
  | some val => { dataLink with ContextId := val }
  | none => dataLink

/-- Lines 180-204 of `getPayloadDataLink`: the dashboard targets, which need a name. -/
def readSfxDashboards (d : DataLinkResourceData) (dataLink : CreateUpdateDataLinkRequest) :
    Except String CreateUpdateDataLinkRequest :=
  match getOkSet d.target_signalfx_dashboard with
  | some sfxDashes =>
    if dataLink.PropertyName = "" then Except.error errSfxDashboard
    else Except.ok { dataLink with
      Targets := sfxDashes.foldl (fun acc tfLink => acc ++ [sfxDashboardTarget tfLink])
        dataLink.Targets }
  | none => Except.ok dataLink

/-- Lines 206-225 of `getPayloadDataLink`: the Splunk targets. -/
def readSplunk (d : DataLinkResourceData) (dataLink : CreateUpdateDataLinkRequest) :
    CreateUpdateDataLinkRequest :=
  match getOkSet d.target_splunk with
  | some splkDashes => { dataLink with
      Targets := splkDashes.foldl (fun acc tfLink => acc ++ [splunkTarget tfLink])
        dataLink.Targets }
  | none => dataLink

/-- Lines 227-252 of `getPayloadDataLink`: the AppD targets.  The pattern is a constant
that compiles, so `regexp.Compile` returns no error. -/
def readAppdURLs (d : DataLinkResourceData) (dataLink : CreateUpdateDataLinkRequest) :
    Except String CreateUpdateDataLinkRequest :=
  match getOkSet d.target_appd_url with
  | some appdURLs =>
    match appdLoop appdURLs dataLink.Targets with
    | .error err => Except.error err
    | .ok targets => Except.ok { dataLink with Targets := targets }
  | none => Except.ok dataLink

/-- Lines 254-294 of `getPayloadDataLink`: the external URL targets. -/
def readExternalURLs (d : DataLinkResourceData) (dataLink : CreateUpdateDataLinkRequest) :
    CreateUpdateDataLinkRequest :=
  match getOkSet d.target_external_url with
  | some exURLs => { dataLink with Targets := externalLoop exURLs dataLink.Targets }
  | none => dataLink

/-- The function `getPayloadDataLink`: the payload, or the error it returns. -/
def getPayloadDataLink (d : DataLinkResourceData) :
    Except String CreateUpdateDataLinkRequest := do
  let dataLink : CreateUpdateDataLinkRequest := {}
  let dataLink := readPropertyName d dataLink
  let dataLink ← readPropertyValue d dataLink
  let dataLink := readContextId d dataLink
  let dataLink ← readSfxDashboards d dataLink
  let dataLink := readSplunk d dataLink
  let dataLink ← readAppdURLs d dataLink
  let dataLink := readExternalURLs d dataLink
  if dataLink.Targets.length < 1 then Except.error errNoTargets
  else Except.ok dataLink

/-- The four slices that `dataLinkAPIToTF` collects from the targets. -/
structure LinkSlices where
  internalLinks : List SfxDashboardElem := []
  externalLinks : List ExternalURLElem := []
  splunkLinks : List SplunkElem := []
  appdLinks : List AppdURLElem := []

/-- The value the SDK stores for a `map[string]string` written into a map field: a nil
map is stored as the empty map. -/
def mapFieldValue (m : Option GoMap) : GoMap := m.getD GoMap.empty

/-- The loop over `dl.Targets` in `dataLinkAPIToTF`, with its `switch` on the type. -/
def classifyTargets : List Target → LinkSlices → Except String LinkSlices
  | [], acc => .ok acc
  | t :: rest, acc =>
    if t.Type_ = INTERNAL_LINK then
      classifyTargets rest { acc with internalLinks := acc.internalLinks ++
        [{ name := t.Name, dashboard_group_id := t.DashboardGroupId,
           dashboard_id := t.DashboardId, is_default := t.IsDefault }] }
    else if t.Type_ = EXTERNAL_LINK then
      classifyTargets rest { acc with externalLinks := acc.externalLinks ++
        [{ name := t.Name, minimum_time_window := t.MinimumTimeWindow,
           time_format := t.TimeFormat, url := t.URL,
           property_key_mapping := mapFieldValue t.PropertyKeyMapping }] }
    else if t.Type_ = SPLUNK_LINK then
      classifyTargets rest { acc with splunkLinks := acc.splunkLinks ++
        [{ name := t.Name, property_key_mapping := mapFieldValue t.PropertyKeyMapping }] }
    else if t.Type_ = APPD_LINK then
      classifyTargets rest { acc with appdLinks := acc.appdLinks ++
        [{ name := t.Name, url := t.URL }] }
    else .error ("Unknown link type: " ++ t.Type_)

/-- The function `dataLinkAPIToTF`: the state it leaves behind and the error it returns
(`none` for nil). -/
def dataLinkAPIToTF (ord : HashOrder) (setErr : SetErrors) (d : DataLinkResourceData)
    (dl : DataLink) : DataLinkResourceData × Option String :=
  match setErr "property_value" with
  | some err => (d, some err)
  | none =>
  let d := { d with property_value := dl.PropertyValue }
  match setErr "property_name" with
  | some err => (d, some err)
  | none =>
  let d := { d with property_name := dl.PropertyName }
  match setErr "context_dashboard_id" with
  | some err => (d, some err)
  | none =>
  let d := { d with context_dashboard_id := dl.ContextId }
  match classifyTargets dl.Targets {} with
  | .error err => (d, some err)
  | .ok links =>
  match (if links.internalLinks.length > 0 then
      match setErr "target_signalfx_dashboard" with
      | some err => Except.error (d, err)
      | none => Except.ok { d with
          target_signalfx_dashboard := SchemaSet.ofSlice ord links.internalLinks }
    else Except.ok d) with
  | .error (d, err) => (d, some err)
  | .ok d =>
  match (if links.externalLinks.length > 0 then
      match setErr "target_external_url" with
      | some err => Except.error (d, err)
      | none => Except.ok { d with
          target_external_url := SchemaSet.ofSlice ord links.externalLinks }
    else Except.ok d) with
  | .error (d, err) => (d, some err)
  | .ok d =>
  match (if links.splunkLinks.length > 0 then
      match setErr "target_splunk" with
      | some err => Except.error (d, err)
      | none => Except.ok { d with target_splunk := SchemaSet.ofSlice ord links.splunkLinks }
    else Except.ok d) with
  | .error (d, err) => (d, some err)
  | .ok d =>
  match (if links.appdLinks.length > 0 then
      match setErr "target_appd_url" with
      | some err => Except.error (d, err)
      | none => Except.ok { d with target_appd_url := SchemaSet.ofSlice ord links.appdLinks }
    else Except.ok d) with
  | .error (d, err) => (d, some err)
  | .ok d => (d, none)

/-- The data link the API answers with for a request: it carries the request's
property name, property value, context id and targets. -/
def dataLinkOfRequest (id : String) (p : CreateUpdateDataLinkRequest) : DataLink :=
  { Id := id, ContextId := p.ContextId, PropertyName := p.PropertyName,
    PropertyValue := p.PropertyValue, Targets := p.Targets }

/-! ## The webhook integration resource -/

/-- The struct `integration.WebhookIntegration`; `Type_` is its field `Type`, a nil
`Headers` map is `none`, and header values are strings. -/
structure WebhookIntegration where
  Enabled : Bool := false
  Id : String := ""
  Name : String := ""
  Type_ : String := ""
  Url : String := ""
  SharedSecret : String := ""
  Headers : Option GoMap := none
  Method : String := ""
  PayloadTemplate : String := ""
deriving DecidableEq

/-- An element of the set `headers`. -/
structure HeaderElem where
  header_key : String
  header_value : String
deriving DecidableEq

/-- The `*schema.ResourceData` of a webhook integration, with the resource id. -/
structure WebhookResourceData where
  id : String := ""
  name : String := ""
  enabled : Bool := false
  url : String := ""
  shared_secret : String := ""
  headers : SchemaSet HeaderElem := SchemaSet.empty
  method : String := ""
  payload_template : String := ""

/-- The function `getWebhookPayloadIntegration`. -/
def getWebhookPayloadIntegration (d : WebhookResourceData) : WebhookIntegration :=
  let webhook : WebhookIntegration :=
    { Type_ := "Webhook"
      Name := d.name
      Enabled := d.enabled
      Url := d.url
      Method := d.method
      PayloadTemplate := d.payload_template }
  let webhook : WebhookIntegration := match getOkString d.shared_secret with
    | some val => { webhook with SharedSecret := val }
    | none => webhook
  match getOkSet d.headers with
  | some hs =>
    let headers := hs.foldl (fun headers v => headers.insert v.header_key v.header_value)
      GoMap.empty
    { webhook with Headers := some headers }
  | none => webhook

/-- The slice of header elements that `webhookIntegrationAPIToTF` builds by ranging over
`og.Headers`. -/
def headerSlice (m : GoMap) : List HeaderElem :=
  m.entries.map (fun e => { header_key := e.1, header_value := e.2 })

/-- The length `len(og.Headers)`; a nil map has length zero. -/
def headersLen (h : Option GoMap) : Nat :=
  match h with
  | some m => m.entries.length
  | none => 0

/-- The function `webhookIntegrationAPIToTF`: the state it leaves behind and the error
it returns (`none` for nil). -/
def webhookIntegrationAPIToTF (ord : HashOrder) (setErr : SetErrors)
    (d : WebhookResourceData) (og : WebhookIntegration) :
    WebhookResourceData × Option String :=
  match setErr "name" with
  | some err => (d, some err)
  | none =>
  let d := { d with name := og.Name }
  match setErr "enabled" with
  | some err => (d, some err)
  | none =>
  let d := { d with enabled := og.Enabled }
  match setErr "url" with
  | some err => (d, some err)
  | none =>
  let d := { d with url := og.Url }
  match setErr "shared_secret" with
  | some err => (d, some err)
  | none =>
  let d := { d with shared_secret := og.SharedSecret }
  match setErr "method" with
  | some err => (d, some err)
  | none =>
  let d := { d with method := og.Method }
  match setErr "payload_template" with
  | some err => (d, some err)
  | none =>
  let d := { d with payload_template := og.PayloadTemplate }
  if headersLen og.Headers > 0 then
    let headers := headerSlice (og.Headers.getD GoMap.empty)
    match setErr "headers" with
    | some err => (d, some err)
    | none => ({ d with headers := SchemaSet.ofSlice ord headers }, none)
  else (d, none)

/-- The calls of the API client that the webhook resource makes: each answers with an
integration or with an error. -/
structure WebhookClient where
  CreateWebhookIntegration : WebhookIntegration → Except String WebhookIntegration
  UpdateWebhookIntegration : String → WebhookIntegration → Except String WebhookIntegration

/-- The hint appended to client errors whose message contains `40`. -/
def adminTokenHint : String :=
  "\nPlease verify you are using an admin token when working with integrations"

/-- The function `integrationWebhookCreate`. -/
def integrationWebhookCreate (ord : HashOrder) (setErr : SetErrors) (client : WebhookClient)
    (d : WebhookResourceData) : WebhookResourceData × Option String :=
  let payload := getWebhookPayloadIntegration d
  match client.CreateWebhookIntegration payload with
  | .error err =>
    let err := if stringsContains err "40" then err ++ adminTokenHint else err
    (d, some err)
  | .ok int =>
    let d := { d with id := int.Id }
    webhookIntegrationAPIToTF ord setErr d int

/-- The function `integrationWebhookUpdate`. -/
def integrationWebhookUpdate (ord : HashOrder) (setErr : SetErrors) (client : WebhookClient)
    (d : WebhookResourceData) : WebhookResourceData × Option String :=
  let payload := getWebhookPayloadIntegration d
  match client.UpdateWebhookIntegration d.id payload with
  | .error err =>
    let err := if stringsContains err "40" then err ++ adminTokenHint else err
    (d, some err)
  | .ok int =>
    let d := { d with id := int.Id }
    webhookIntegrationAPIToTF ord setErr d int

/-! ## Words of the specification -/

/-- The words accepted by `appdMatchString`, spelled out: the scheme, a non-empty host
label, the AppDynamics domain, `application=` with at least one digit and, after it,
`component=` with at least one digit; no line feed before `component=`. -/
def AppdLinkForm (u : List Char) : Prop :=
  ∃ (scheme host a ds1 b ds2 rest : List Char),
    (scheme = "http://".data ∨ scheme = "https://".data) ∧
    host ≠ [] ∧ (∀ x ∈ host, isHostChar x = true) ∧
    (∀ x ∈ a, isDotChar x = true) ∧
    ds1 ≠ [] ∧ (∀ x ∈ ds1, isDigitChar x = true) ∧
    (∀ x ∈ b, isDotChar x = true) ∧
    ds2 ≠ [] ∧ (∀ x ∈ ds2, isDigitChar x = true) ∧
    u = scheme ++ host ++ ".saas.appdynamics.com/".data ++ a ++ "application=".data ++
      ds1 ++ b ++ "component=".data ++ ds2 ++ rest

/-- The shape of an AppD link in words: `http://` or `https://`, one or more characters
of `[a-zA-Z0-9-]`, `.saas.appdynamics.com/`, later `application=` and a digit, later
`component=` and a digit. -/
def AppdLinkShape (u : List Char) : Prop :=
  ∃ (scheme host a b c : List Char) (d1 d2 : Char),
    (scheme = "http://".data ∨ scheme = "https://".data) ∧
    host ≠ [] ∧ (∀ x ∈ host, isHostChar x = true) ∧
    isDigitChar d1 = true ∧ isDigitChar d2 = true ∧
    u = scheme ++ host ++ ".saas.appdynamics.com/".data ++ a ++ "application=".data ++
      [d1] ++ b ++ "component=".data ++ [d2] ++ c

/-- The targets of a state in payload order: dashboards, Splunk links, AppD links, then
the external URLs that have a name. -/
def payloadTargets (d : DataLinkResourceData) : List Target :=
  d.target_signalfx_dashboard.elems.map sfxDashboardTarget ++
  d.target_splunk.elems.map splunkTarget ++
  d.target_appd_url.elems.map appdTarget ++
  (d.target_external_url.elems.filter (fun tfLink => tfLink.name ≠ "")).map externalTarget

/-- The state passes the two `property_name` checks of `getPayloadDataLink`. -/
def passesPropertyNameChecks (d : DataLinkResourceData) : Prop :=
  (d.property_value ≠ "" → d.property_name ≠ "") ∧
  (d.target_signalfx_dashboard.elems ≠ [] → d.property_name ≠ "")

/-- The schema's `ValidateFunc` of `time_format`: one of the three listed formats. -/
def validTimeFormat (time_format : String) : Bool :=
  [ISO8601, Epoch, EpochSeconds].contains time_format

/-- The shape of an accepted AppD link as the documentation suggests it: an `https://`
address of a host under `.saas.appdynamics.com/` that contains `application=` with
digits and `component=` with digits somewhere after the host, in either order. -/
def AppdLinkEitherOrder (u : List Char) : Prop :=
  ∃ (host rest : List Char),
    host ≠ [] ∧ (∀ x ∈ host, isHostChar x = true) ∧
    u = "https://".data ++ host ++ ".saas.appdynamics.com/".data ++ rest ∧
    (∃ (x ds y : List Char), ds ≠ [] ∧ (∀ c ∈ ds, isDigitChar c = true) ∧
      rest = x ++ "application=".data ++ ds ++ y) ∧
    (∃ (x ds y : List Char), ds ≠ [] ∧ (∀ c ∈ ds, isDigitChar c = true) ∧
      rest = x ++ "component=".data ++ ds ++ y)

/-- The four link types that `dataLinkAPIToTF` knows. -/
def knownLinkType (t : String) : Bool :=
  t = INTERNAL_LINK || t = EXTERNAL_LINK || t = SPLUNK_LINK || t = APPD_LINK

/-- The SDK accepts every write: the keys are schema keys and the values have the
schema's types. -/
def noSetErrors : SetErrors := fun _ => none

/-- A `Set.List()` order that keeps the order of the slice. -/
def sliceOrder : HashOrder := ⟨fun l => l, fun l => List.Perm.refl l⟩

/-- A `Set.List()` order that reverses the slice. -/
def reverseOrder : HashOrder := ⟨fun l => l.reverse, fun l => List.reverse_perm l⟩

/-- The external URL element that `dataLinkAPIToTF` writes back for the target built
from an element: the time format is the one the payload carries. -/
def storedExternalElem (tfLink : ExternalURLElem) : ExternalURLElem :=
  { tfLink with time_format := externalTimeFormat tfLink.time_format }

/-- The state's named external URL elements pass the schema's `time_format` check. -/
def timeFormatsValid (d : DataLinkResourceData) : Prop :=
  ∀ tfLink ∈ d.target_external_url.elems, tfLink.name ≠ "" →
    validTimeFormat tfLink.time_format = true

/-- The targets built from the named external URL elements of a set. -/
def namedExternalTargets (s : SchemaSet ExternalURLElem) : List Target :=
  (s.elems.filter (fun tfLink => tfLink.name ≠ "")).map externalTarget

/-- The state holds no target of a kind that the payload has none of: `dataLinkAPIToTF`
writes a target set only for a kind with at least one target, so such targets would
stay.  External URL elements without a name do not count, they yield no target. -/
def noStaleTargets (d0 : DataLinkResourceData) (p : CreateUpdateDataLinkRequest) : Prop :=
  ((∀ t ∈ p.Targets, t.Type_ ≠ INTERNAL_LINK) → d0.target_signalfx_dashboard.elems = []) ∧
  ((∀ t ∈ p.Targets, t.Type_ ≠ SPLUNK_LINK) → d0.target_splunk.elems = []) ∧
  ((∀ t ∈ p.Targets, t.Type_ ≠ APPD_LINK) → d0.target_appd_url.elems = []) ∧
  ((∀ t ∈ p.Targets, t.Type_ ≠ EXTERNAL_LINK) →
    ∀ tfLink ∈ d0.target_external_url.elems, tfLink.name = "")

/-! ## Sample states -/

/-- A Splunk element named `logs`. -/
def sampleSplunkElem : SplunkElem := { name := "logs", property_key_mapping := GoMap.empty }

/-- An external URL element with all values empty. -/
def sampleEmptyExternalElem : ExternalURLElem :=
  { name := "", time_format := "", url := "", property_key_mapping := GoMap.empty,
    minimum_time_window := "" }

/-- An external URL element named `wiki`. -/
def sampleWikiElem : ExternalURLElem :=
  { name := "wiki", time_format := "Epoch", url := "https://example.com",
    property_key_mapping := GoMap.empty, minimum_time_window := "6000" }

/-- A dashboard element named `dash`. -/
def sampleDashElem : SfxDashboardElem :=
  { dashboard_group_id := "g1", dashboard_id := "d1", is_default := true, name := "dash" }

/-- A state with a property value and a Splunk target, but no property name. -/
def sampleValueWithoutName : DataLinkResourceData :=
  { property_value := "prod", target_splunk := ⟨[sampleSplunkElem], by simp⟩ }

/-- A state with a dashboard target and neither property name nor value. -/
def sampleDashboardWithoutName : DataLinkResourceData :=
  { target_signalfx_dashboard := ⟨[sampleDashElem], by simp⟩ }

/-- A state with a Splunk target only. -/
def sampleSplunkOnly : DataLinkResourceData :=
  { target_splunk := ⟨[sampleSplunkElem], by simp⟩ }

/-- A state whose only target is an external URL element without a name. -/
def sampleUnnamedExternal : DataLinkResourceData :=
  { property_name := "host", target_external_url := ⟨[sampleEmptyExternalElem], by simp⟩ }

/-- A state with a well-formed AppD link. -/
def sampleAppd : DataLinkResourceData :=
  { target_appd_url :=
      ⟨[⟨"appd", "https://a.saas.appdynamics.com/c?application=1&component=2"⟩], by simp⟩ }

/-- A state whose AppD link names the component before the application. -/
def sampleAppdComponentFirst : DataLinkResourceData :=
  { target_appd_url :=
      ⟨[⟨"appd", "https://a.saas.appdynamics.com/c?component=2&application=1"⟩], by simp⟩ }

/-- A state without a scheme in its AppD link. -/
def sampleAppdNoScheme : DataLinkResourceData :=
  { target_appd_url :=
      ⟨[⟨"appd", "a.saas.appdynamics.com/c?application=1&component=2"⟩], by simp⟩ }

/-- A state with a named and an unnamed external URL element and a Splunk target. -/
def sampleMixedExternal : DataLinkResourceData :=
  { property_name := "host"
    target_splunk := ⟨[sampleSplunkElem], by simp⟩
    target_external_url := ⟨[sampleEmptyExternalElem, sampleWikiElem], by decide⟩ }

/-- The payload of `sampleMixedExternal`. -/
def sampleMixedPayload : CreateUpdateDataLinkRequest :=
  { PropertyName := "host"
    Targets := [splunkTarget sampleSplunkElem, externalTarget sampleWikiElem] }

/-- An external URL element like `sampleWikiElem` with a time format outside the list. -/
def sampleWikiElemOther : ExternalURLElem :=
  { name := "wiki", time_format := "", url := "https://example.com",
    property_key_mapping := GoMap.empty, minimum_time_window := "6000" }

/-- A state with two named external URL elements that differ in an unlisted time
format only. -/
def sampleUnlistedFormats : DataLinkResourceData :=
  { target_external_url :=
      ⟨[sampleWikiElemOther, { sampleWikiElemOther with time_format := "ISO8601" }],
        by decide⟩ }

/-- A webhook state with two headers. -/
def sampleWebhookState : WebhookResourceData :=
  { id := "w1", name := "hook", enabled := true, url := "https://example.com/hook"
    headers := ⟨[⟨"X-Token", "abc"⟩, ⟨"X-Env", "prod"⟩], by decide⟩ }

/-- A webhook integration as the API returns it, with two headers. -/
def sampleWebhook : WebhookIntegration :=
  { Id := "w2", Name := "hook", Type_ := "Webhook", Enabled := true
    Url := "https://example.com/hook", SharedSecret := "s3"
    Headers := some ((GoMap.empty.insert "X-Token" "abc").insert "X-Env" "prod") }

/-- A client whose calls fail with a 401 message. -/
def sampleClient401 : WebhookClient :=
  { CreateWebhookIntegration := fun _ => .error "Bad status 401: unauthorized"
    UpdateWebhookIntegration := fun _ _ => .error "Bad status 401: unauthorized" }

/-- A client whose calls fail with a message without `40`. -/
def sampleClient500 : WebhookClient :=
  { CreateWebhookIntegration := fun _ => .error "Bad status 500: internal"
    UpdateWebhookIntegration := fun _ _ => .error "Bad status 500: internal" }

/-! ## The time chart resource

Go `int` values are integers of 64 bits; conversions to `int32` and `int64` keep the low
bits.  Floating point values are carried as bit patterns: the code only compares them
with constants and converts them, and the conversions are parameters. -/

/-- Conversion to `int32`: the low 32 bits, read as a signed number. -/
def wrapInt32 (x : Int) : Int := (x + 2147483648) % 4294967296 - 2147483648

/-- Arithmetic on `int` and conversion to `int64`: the low 64 bits, read as a signed
number. -/
def wrapInt64 (x : Int) : Int :=
  (x + 9223372036854775808) % 18446744073709551616 - 9223372036854775808

/-- A `float64` as its IEEE 754 bit pattern. -/
structure GoFloat64 where
  bits : Nat
deriving DecidableEq

/-- A `float32` as its IEEE 754 bit pattern. -/
structure GoFloat32 where
  bits : Nat
deriving DecidableEq

/-- The constant `math.MaxFloat64`. -/
def maxFloat64 : GoFloat64 := ⟨0x7FEFFFFFFFFFFFFF⟩

/-- The constant `-math.MaxFloat64`. -/
def negMaxFloat64 : GoFloat64 := ⟨0xFFEFFFFFFFFFFFFF⟩

/-- The comparison `x != c` of a `float64` with one of the two constants above: they are
neither zero nor NaN, so the values differ exactly when the bit patterns do. -/
def GoFloat64.neConst (x c : GoFloat64) : Bool := x.bits != c.bits

/-- The comparison `x == 0` of a `float32`: true for both zeros, false for NaN. -/
def GoFloat32.isZero (x : GoFloat32) : Bool := x.bits == 0 || x.bits == 0x80000000

/-- The map `PaletteColors`. -/
def PaletteColors : List (String × Int) :=
  [("gray", 0), ("blue", 1), ("azure", 2), ("navy", 3), ("brown", 4), ("orange", 5),
   ("yellow", 6), ("magenta", 7), ("purple", 8), ("pink", 9), ("violet", 10),
   ("lilac", 11), ("iris", 12), ("emerald", 13), ("green", 14), ("aquamarine", 15)]

/-- The map `FullPaletteColors`. -/
def FullPaletteColors : List (String × Int) :=
  [("gray", 0), ("blue", 1), ("azure", 2), ("navy", 3), ("brown", 4), ("orange", 5),
   ("yellow", 6), ("magenta", 7), ("purple", 8), ("pink", 9), ("violet", 10),
   ("lilac", 11), ("iris", 12), ("emerald", 13), ("green", 14), ("aquamarine", 15),
   ("red", 16), ("gold", 17), ("greenyellow", 18), ("chartreuse", 19), ("jade", 20)]

/-- The struct `chart.GeneralOptions`. -/
structure GeneralOptions where
  DisableSampling : Bool := false
  MaxDelay : Int := 0
  MinimumResolution : Int := 0
deriving DecidableEq

/-- The struct `chart.TimeDisplayOptions`; `Type_` is its field `Type`. -/
structure TimeDisplayOptions where
  End : Int := 0
  Range : Int := 0
  Start : Int := 0
  Type_ : String := ""
deriving DecidableEq

/-- The struct `chart.AreaChartOptions`. -/
structure AreaChartOptions where
  ShowDataMarkers : Bool := false
deriving DecidableEq

/-- The struct `chart.LineChartOptions`. -/
structure LineChartOptions where
  ShowDataMarkers : Bool := false
deriving DecidableEq

/-- The struct `chart.HistogramChartOptions`. -/
structure HistogramChartOptions where
  ColorThemeIndex : Int := 0
deriving DecidableEq

/-- The struct `chart.Axes`. -/
structure Axes where
  HighWatermark : GoFloat32 := ⟨0⟩
  HighWatermarkLabel : String := ""
  Label : String := ""
  LowWatermark : GoFloat32 := ⟨0⟩
  LowWatermarkLabel : String := ""
  Max : GoFloat32 := ⟨0⟩
  Min : GoFloat32 := ⟨0⟩
deriving DecidableEq

/-- The struct `chart.DataTableOptionsField`. -/
structure DataTableOptionsField where
  Enabled : Bool := false
  Property : String := ""
deriving DecidableEq

/-- The struct `chart.DataTableOptions`. -/
structure DataTableOptions where
  Fields : List DataTableOptionsField := []
deriving DecidableEq

/-- The struct `chart.LegendOptions`. -/
structure LegendOptions where
  DimensionInLegend : String := ""
  ShowLegend : Bool := false
deriving DecidableEq

/-- The struct `chart.PublishLabelOptions`. -/
structure PublishLabelOptions where
  Label : String := ""
  PaletteIndex : Int := 0
  PlotType : String := ""
  ValuePrefix : String := ""
  ValueSuffix : String := ""
  ValueUnit : String := ""
  YAxis : Int := 0
deriving DecidableEq

/-- The struct `chart.Options`; `Type_` is its field `Type`, a nil pointer or slice is
`none`. -/
structure Options where
  AreaChartOptions : Option AreaChartOptions := none
  Axes : Option (List (Option Axes)) := none
  AxisPrecision : Int := 0
  ColorBy : String := ""
  DefaultPlotType : String := ""
  HistogramChartOptions : Option HistogramChartOptions := none
  IncludeZero : Bool := false
  LegendOptions : Option DataTableOptions := none
  LineChartOptions : Option LineChartOptions := none
  OnChartLegendOptions : Option SignalFx.LegendOptions := none
  ProgramOptions : Option GeneralOptions := none
  PublishLabelOptions : Option (List PublishLabelOptions) := none
  ShowEventLines : Bool := false
  Stacked : Bool := false
  Time : Option TimeDisplayOptions := none
  Type_ : String := ""
  UnitPrefix : String := ""
deriving DecidableEq

/-- The struct `chart.CreateUpdateChartRequest`; a nil `Tags` slice is `none`. -/
structure CreateUpdateChartRequest where
  Description : String := ""
  Name : String := ""
  Options : Options := {}
  ProgramText : String := ""
  Tags : Option (List String) := none
deriving DecidableEq

/-- The struct `chart.Chart`, the API's answer. -/
structure Chart where
  Description : String := ""
  Id : String := ""
  Name : String := ""
  Options : Options := {}
  ProgramText : String := ""
  Tags : Option (List String) := none
deriving DecidableEq

/-- An element of the set `watermarks` of an axis. -/
structure WatermarkElem where
  value : GoFloat64
  label : String
deriving DecidableEq

/-- An element of the sets `axis_right` and `axis_left`. -/
structure AxisElem where
  min_value : GoFloat64
  max_value : GoFloat64
  label : String
  high_watermark : GoFloat64
  high_watermark_label : String
  low_watermark : GoFloat64
  low_watermark_label : String
  watermarks : List WatermarkElem
deriving DecidableEq

/-- An element of the list `legend_options_fields`. -/
structure LegendFieldElem where
  property : String
  enabled : Bool
deriving DecidableEq

/-- An element of the set `histogram_options`. -/
structure HistogramElem where
  color_theme : String
deriving DecidableEq

/-- An element of the set `viz_options`. -/
structure VizElem where
  label : String
  color : String
  axis : String
  plot_type : String
  value_unit : String
  value_prefix : String
  value_suffix : String
deriving DecidableEq

/-- The `*schema.ResourceData` of a time chart. -/
structure TimeChartResourceData where
  name : String := ""
  program_text : String := ""
  description : String := ""
  unit_prefix : String := ""
  color_by : String := ""
  minimum_resolution : Int := 0
  max_delay : Int := 0
  disable_sampling : Bool := false
  time_range : Int := 0
  start_time : Int := 0
  end_time : Int := 0
  axis_right : SchemaSet AxisElem := SchemaSet.empty
  axis_left : SchemaSet AxisElem := SchemaSet.empty
  axes_precision : Int := 0
  axes_include_zero : Bool := false
  on_chart_legend_dimension : String := ""
  legend_fields_to_hide : SchemaSet String := SchemaSet.empty
  legend_options_fields : List LegendFieldElem := []
  show_event_lines : Bool := false
  show_data_markers : Bool := false
  stacked : Bool := false
  tags : List String := []
  plot_type : String := ""
  histogram_options : SchemaSet HistogramElem := SchemaSet.empty
  viz_options : SchemaSet VizElem := SchemaSet.empty
  url : String := ""

/-- What the time chart code takes from outside this file: the floating point
conversions `float32(x)` and the widening of a `float32` stored into a float field, and
the package functions `getLegendOptions`, `getLegendFieldOptions` and
`getNameFromPaletteColorsByIndex`, which are not among the sources. -/
structure ChartHelpers where
  float32 : GoFloat64 → GoFloat32
  float64 : GoFloat32 → GoFloat64
  getLegendOptions : TimeChartResourceData → Option DataTableOptions
  getLegendFieldOptions : TimeChartResourceData → Option DataTableOptions
  getNameFromPaletteColorsByIndex : Int → Except String String

/-- The call `d.GetOk(key)` on an int field: `ok` holds for a non-zero value. -/
def getOkInt (v : Int) : Option Int := if v = 0 then none else some v

/-- The call `d.GetOk(key)` on a bool field: `ok` holds for `true`. -/
def getOkBool (v : Bool) : Option Bool := if v then some true else none

/-- The call `d.GetOk(key)` on a list field: `ok` holds for a non-empty list. -/
def getOkList {α : Type} (l : List α) : Option (List α) :=
  if l.isEmpty then none else some l

/-- The loop of `getPayloadTimeChart` over the configured tags: the final value of the
variable `tags` that the `if` block declares. -/
def collectTags (val : List String) : List String :=
  val.foldl (fun tags tag => tags ++ [tag]) []

/-- The element of `vizList` built from one `viz_options` element. -/
def perSignalVizOption (v : VizElem) : PublishLabelOptions :=
  let item : PublishLabelOptions := { Label := v.label }
  let item : PublishLabelOptions := match PaletteColors.lookup v.color with
    | some elem => { item with PaletteIndex := wrapInt32 elem }
    | none => item
  let item : PublishLabelOptions :=
    if v.plot_type ≠ "" then { item with PlotType := v.plot_type } else item
  let item : PublishLabelOptions :=
    if v.axis ≠ "" then
      if v.axis = "right" then { item with YAxis := 1 } else { item with YAxis := 0 }
    else item
  let item : PublishLabelOptions :=
    if v.value_unit ≠ "" then { item with ValueUnit := v.value_unit } else item
  let item : PublishLabelOptions :=
    if v.value_suffix ≠ "" then { item with ValueSuffix := v.value_suffix } else item
  if v.value_prefix ≠ "" then { item with ValuePrefix := v.value_prefix } else item

/-- The function `getPerSignalVizOptions`. -/
def getPerSignalVizOptions (d : TimeChartResourceData) : List PublishLabelOptions :=
  d.viz_options.elems.map perSignalVizOption

/-- The function `getSingleAxisOptions`; the element map holds every key of the axis
schema, so each lookup finds its key. -/
def getSingleAxisOptions (h : ChartHelpers) (axisOpt : AxisElem) : Option Axes :=
  let axis : Option Axes := none
  let axis : Option Axes :=
    if axisOpt.min_value.neConst negMaxFloat64 then
      some { (axis.getD {}) with Min := h.float32 axisOpt.min_value }
    else axis
  let axis : Option Axes :=
    if axisOpt.max_value.neConst maxFloat64 then
      some { (axis.getD {}) with Max := h.float32 axisOpt.max_value }
    else axis
  let axis : Option Axes := some { (axis.getD {}) with Label := axisOpt.label }
  let axis : Option Axes :=
    if axisOpt.high_watermark.neConst maxFloat64 then
      some { (axis.getD {}) with HighWatermark := h.float32 axisOpt.high_watermark }
    else some (axis.getD {})
  let axis : Option Axes :=
    some { (axis.getD {}) with HighWatermarkLabel := axisOpt.high_watermark_label }
  let axis : Option Axes :=
    if axisOpt.low_watermark.neConst negMaxFloat64 then
      some { (axis.getD {}) with LowWatermark := h.float32 axisOpt.low_watermark }
    else some (axis.getD {})
  some { (axis.getD {}) with LowWatermarkLabel := axisOpt.low_watermark_label }

/-- One slot of `getAxesOptions`: the options of the first element of the set, or an
empty `chart.Axes` when the set is empty. -/
def axisSlot (h : ChartHelpers) (s : SchemaSet AxisElem) : Option Axes :=
  match getOkSet s with
  | some (tfOpt :: _) => getSingleAxisOptions h tfOpt
  | _ => some {}

/-- The function `getAxesOptions`: slot 0 is the left axis, slot 1 the right axis. -/
def getAxesOptions (h : ChartHelpers) (d : TimeChartResourceData) : List (Option Axes) :=
  [axisSlot h d.axis_left, axisSlot h d.axis_right]

/-- Lines 647-666 of `getTimeChartOptions`: the program options. -/
def programOptionsOf (d : TimeChartResourceData) : Option GeneralOptions :=
  let programOptions : Option GeneralOptions := none
  let programOptions : Option GeneralOptions := match getOkInt d.minimum_resolution with
    | some val => some { (programOptions.getD {}) with
        MinimumResolution := wrapInt32 (wrapInt64 (val * 1000)) }
    | none => programOptions
  let programOptions : Option GeneralOptions := match getOkInt d.max_delay with
    | some val => some { (programOptions.getD {}) with
        MaxDelay := wrapInt32 (wrapInt64 (val * 1000)) }
    | none => programOptions
  match getOkBool d.disable_sampling with
  | some val => some { (programOptions.getD {}) with DisableSampling := val }
  | none => programOptions

/-- Lines 668-684 of `getTimeChartOptions`: the time window. -/
def timeOptionsOf (d : TimeChartResourceData) : Option TimeDisplayOptions :=
  let timeOptions : Option TimeDisplayOptions := match getOkInt d.time_range with
    | some val => some { Range := wrapInt64 (wrapInt64 (val * 1000)), Type_ := "relative" }
    | none => none
  match getOkInt d.start_time with
  | some val =>
    let timeOptions : TimeDisplayOptions :=
      { Start := wrapInt64 (wrapInt64 (val * 1000)), Type_ := "absolute" }
    match getOkInt d.end_time with
    | some val => some { timeOptions with End := wrapInt64 (wrapInt64 (val * 1000)) }
    | none => some timeOptions
  | none => timeOptions

/-- Lines 686-713 of `getTimeChartOptions`: the options of the plot type. -/
def plotTypeOptionsOf (d : TimeChartResourceData) (options : Options) : Options :=
  let showDataMarkers := d.show_data_markers
  match getOkString d.plot_type with
  | some chartType =>
    if chartType = "AreaChart" then
      { options with AreaChartOptions := some { ShowDataMarkers := showDataMarkers } }
    else if chartType = "Histogram" then
      match getOkSet d.histogram_options with
      | some (hOptions :: _) =>
        match FullPaletteColors.lookup hOptions.color_theme with
        | some elem =>
          { options with HistogramChartOptions := some { ColorThemeIndex := wrapInt32 elem } }
        | none => options
      | _ => options
    else
      { options with LineChartOptions := some { ShowDataMarkers := showDataMarkers } }
  | none => options

/-- Lines 623-645 of `getTimeChartOptions`: the plain options. -/
def baseOptionsOf (d : TimeChartResourceData) : Options :=
  let options : Options := { Stacked := d.stacked, Type_ := "TimeSeriesChart" }
  let options : Options := match getOkString d.unit_prefix with
    | some val => { options with UnitPrefix := val }
    | none => options
  let options : Options := match getOkString d.color_by with
    | some val => { options with ColorBy := val }
    | none => options
  let options : Options := match getOkBool d.show_event_lines with
    | some val => { options with ShowEventLines := val }
    | none => options
  let options : Options := match getOkString d.plot_type with
    | some val => { options with DefaultPlotType := val }
    | none => options
  let options : Options := match getOkInt d.axes_precision with
    | some val => { options with AxisPrecision := wrapInt32 val }
    | none => options
  match getOkBool d.axes_include_zero with
  | some val => { options with IncludeZero := val }
  | none => options

/-- The function `getTimeChartOptions`. -/
def getTimeChartOptions (d : TimeChartResourceData) : Options :=
  let options : Options := baseOptionsOf d
  let options : Options := { options with ProgramOptions := programOptionsOf d }
  let options : Options := { options with Time := timeOptionsOf d }
  plotTypeOptionsOf d options

/-- Lines 486-496 of `getPayloadTimeChart`: the on-chart legend. -/
def onChartLegendOf (d : TimeChartResourceData) (viz : Options) : Options :=
  match getOkString d.on_chart_legend_dimension with
  | some onChartLegendDim =>
    let onChartLegendDim :=
      if onChartLegendDim = "metric" then "sf_originatingMetric"
      else if onChartLegendDim = "plot_label" then "sf_metric"
      else onChartLegendDim
    let legend : LegendOptions := { ShowLegend := true, DimensionInLegend := onChartLegendDim }
    { viz with OnChartLegendOptions := some legend }
  | none => viz

/-- The function `getPayloadTimeChart`.  The `if` block on `tags` declares a variable
`tags` of its own (`tags := []string{}`) and fills that one; the outer `tags`, which the
payload takes, is never assigned. -/
def getPayloadTimeChart (h : ChartHelpers) (d : TimeChartResourceData) :
    CreateUpdateChartRequest :=
  let tags : Option (List String) := none
  let _blockTags : Option (List String) := (getOkList d.tags).map collectTags
  let payload : CreateUpdateChartRequest :=
    { Name := d.name, Description := d.description, ProgramText := d.program_text,
      Tags := tags }
  let viz : Options := getTimeChartOptions d
  let axesOptions := getAxesOptions h d
  let viz : Options :=
    if axesOptions.length > 0 then { viz with Axes := some axesOptions } else viz
  let viz : Options := match h.getLegendOptions d with
    | some legendOptions => { viz with LegendOptions := some legendOptions }
    | none =>
      match h.getLegendFieldOptions d with
      | some legendOptions => { viz with LegendOptions := some legendOptions }
      | none => viz
  let vizOptions := getPerSignalVizOptions d
  let viz : Options :=
    if vizOptions.length > 0 then { viz with PublishLabelOptions := some vizOptions }
    else viz
  let viz : Options := onChartLegendOf d viz
  { payload with Options := viz }

/-- The payload that `getPayloadTimeChart` would build if the `if` block on `tags`
assigned the outer variable: the reading of the schema's `Tags associated with the
chart`. -/
def tagsOfConfiguration (d : TimeChartResourceData) : Option (List String) :=
  (getOkList d.tags).map collectTags

/-- The statement `if err := d.Set(key, value); err != nil { return err }`: `written` is
the state after the write. -/
def setField {σ : Type} (setErr : SetErrors) (key : String) (d written : σ) :
    σ × Option String :=
  match setErr key with
  | some err => (d, some err)
  | none => (written, none)

/-- Sequencing of two parts of a function that returns an error: the rest runs on the
state of the first part unless that part returned an error. -/
def andThen {σ : Type} (r : σ × Option String) (rest : σ → σ × Option String) :
    σ × Option String :=
  match r.2 with
  | some err => (r.1, some err)
  | none => rest r.1

/-- The function `axisToMap`, as the one-element slice of axis elements it stands for. -/
def axisToMap (h : ChartHelpers) (axis : Option Axes) : List AxisElem :=
  match axis with
  | some axis =>
    [{ high_watermark := h.float64 axis.HighWatermark
       high_watermark_label := axis.HighWatermarkLabel
       label := axis.Label
       low_watermark := h.float64 axis.LowWatermark
       low_watermark_label := axis.LowWatermarkLabel
       max_value := h.float64 axis.Max
       min_value := h.float64 axis.Min
       watermarks := [] }]
  | none => []

/-- The function `publishLabelOptionsToMap`, with the map as a `viz_options` element. -/
def publishLabelOptionsToMap (h : ChartHelpers) (options : PublishLabelOptions) :
    Except String VizElem :=
  match h.getNameFromPaletteColorsByIndex options.PaletteIndex with
  | .error err => .error err
  | .ok color =>
    let axis := if options.YAxis = 1 then "right" else "left"
    .ok { label := options.Label, color := color, axis := axis,
          plot_type := options.PlotType, value_unit := options.ValueUnit,
          value_suffix := options.ValueSuffix, value_prefix := options.ValuePrefix }

/-- The comparison `*axis == chart.Axes{}`. -/
def axesIsZero (a : Axes) : Bool :=
  a.HighWatermark.isZero && a.HighWatermarkLabel = "" && a.Label = "" &&
  a.LowWatermark.isZero && a.LowWatermarkLabel = "" && a.Max.isZero && a.Min.isZero

/-- The test `axis == nil || *axis == chart.Axes{}` of `timechartAPIToTF`. -/
def axisNilOrZero (axis : Option Axes) : Bool :=
  match axis with
  | none => true
  | some a => axesIsZero a

/-- The loop of `timechartAPIToTF` over the publish label options. -/
def plosLoop (h : ChartHelpers) : List PublishLabelOptions → Except String (List VizElem)
  | [] => .ok []
  | plo :: rest =>
    match publishLabelOptionsToMap h plo with
    | .error err => .error err
    | .ok no =>
      match plosLoop h rest with
      | .error err => .error err
      | .ok plos => .ok (no :: plos)

/-- Lines 757-788 of `timechartAPIToTF`: the plain fields. -/
def writePlainFields (setErr : SetErrors) (d : TimeChartResourceData) (c : Chart) :
    TimeChartResourceData × Option String :=
  let options := c.Options
  andThen (setField setErr "name" d { d with name := c.Name }) fun d =>
  andThen (setField setErr "description" d { d with description := c.Description }) fun d =>
  andThen (setField setErr "program_text" d { d with program_text := c.ProgramText }) fun d =>
  andThen (setField setErr "tags" d { d with tags := c.Tags.getD [] }) fun d =>
  andThen (setField setErr "axes_include_zero" d
    { d with axes_include_zero := options.IncludeZero }) fun d =>
  andThen (setField setErr "color_by" d { d with color_by := options.ColorBy }) fun d =>
  andThen (setField setErr "plot_type" d
    { d with plot_type := options.DefaultPlotType }) fun d =>
  andThen (setField setErr "show_event_lines" d
    { d with show_event_lines := options.ShowEventLines }) fun d =>
  andThen (setField setErr "stacked" d { d with stacked := options.Stacked }) fun d =>
  setField setErr "unit_prefix" d { d with unit_prefix := options.UnitPrefix }

/-- Lines 790-811 of `timechartAPIToTF`: the options of the plot type.  For histogram
options with a known colour the code passes a `map[string]interface{}` to `d.Set` for
the field `histogram_options`, which is a set; the SDK's writer of set fields takes a
slice or a `*schema.Set` and panics on a map, so the function does not go on: the panic
is reported here like an error, with the state as it was before the call. -/
def writePlotTypeOptions (h : ChartHelpers) (setErr : SetErrors)
    (d : TimeChartResourceData) (options : Options) :
    TimeChartResourceData × Option String :=
  andThen (match options.AreaChartOptions with
    | some area => setField setErr "show_data_markers" d
        { d with show_data_markers := area.ShowDataMarkers }
    | none => (d, none)) fun d =>
  andThen (match options.LineChartOptions with
    | some line => setField setErr "show_data_markers" d
        { d with show_data_markers := line.ShowDataMarkers }
    | none => (d, none)) fun d =>
  match options.HistogramChartOptions with
  | some histogram =>
    match h.getNameFromPaletteColorsByIndex histogram.ColorThemeIndex with
    | .error err => (d, some err)
    | .ok _color =>
      (d, some ("panic: interface conversion: interface {} is map[string]interface {}, " ++
        "not *schema.Set"))
  | none => (d, none)

/-- Lines 813-833 of `timechartAPIToTF`: the axes.  Indexing a slice of length one at 1
makes the program panic, which is reported here like an error. -/
def writeAxes (h : ChartHelpers) (ord : HashOrder) (setErr : SetErrors)
    (d : TimeChartResourceData) (options : Options) :
    TimeChartResourceData × Option String :=
  match options.Axes.getD [] with
  | [] => (d, none)
  | axisLeft :: rest =>
    andThen (if axisNilOrZero axisLeft then (d, none)
      else setField setErr "axis_left" d
        { d with axis_left := SchemaSet.ofSlice ord (axisToMap h axisLeft) }) fun d =>
    match rest with
    | [] => (d, some "panic: runtime error: index out of range [1] with length 1")
    | axisRight :: _ =>
      if axisNilOrZero axisRight then (d, none)
      else setField setErr "axis_right" d
        { d with axis_right := SchemaSet.ofSlice ord (axisToMap h axisRight) }

/-- Lines 835-845 of `timechartAPIToTF`: the program options, in seconds. -/
def writeProgramOptions (setErr : SetErrors) (d : TimeChartResourceData)
    (options : Options) : TimeChartResourceData × Option String :=
  match options.ProgramOptions with
  | some programOptions =>
    andThen (setField setErr "minimum_resolution" d
      { d with minimum_resolution := Int.tdiv programOptions.MinimumResolution 1000 })
      fun d =>
    andThen (setField setErr "max_delay" d
      { d with max_delay := Int.tdiv programOptions.MaxDelay 1000 }) fun d =>
    setField setErr "disable_sampling" d
      { d with disable_sampling := programOptions.DisableSampling }
  | none => (d, none)

/-- Lines 847-860 of `timechartAPIToTF`: the time window, in seconds. -/
def writeTime (setErr : SetErrors) (d : TimeChartResourceData) (options : Options) :
    TimeChartResourceData × Option String :=
  match options.Time with
  | some time =>
    if time.Type_ = "relative" then
      setField setErr "time_range" d { d with time_range := Int.tdiv time.Range 1000 }
    else
      andThen (setField setErr "start_time" d
        { d with start_time := Int.tdiv time.Start 1000 }) fun d =>
      setField setErr "end_time" d { d with end_time := Int.tdiv time.End 1000 }
  | none => (d, none)

/-- Lines 862-893 of `timechartAPIToTF`: plot options and legends. -/
def writeLabelsAndLegends (h : ChartHelpers) (ord : HashOrder) (setErr : SetErrors)
    (d : TimeChartResourceData) (options : Options) :
    TimeChartResourceData × Option String :=
  andThen (match options.PublishLabelOptions.getD [] with
    | [] => (d, none)
    | plo :: rest =>
      match plosLoop h (plo :: rest) with
      | .error err => (d, some err)
      | .ok plos => setField setErr "viz_options" d
          { d with viz_options := SchemaSet.ofSlice ord plos }) fun d =>
  andThen (match options.LegendOptions with
    | some legend =>
      if legend.Fields.length > 0 then
        let fields : List LegendFieldElem :=
          legend.Fields.map (fun lo => { property := lo.Property, enabled := lo.Enabled })
        setField setErr "legend_options_fields" d { d with legend_options_fields := fields }
      else (d, none)
    | none => (d, none)) fun d =>
  match options.OnChartLegendOptions with
  | some onChart => setField setErr "on_chart_legend_dimension" d
      { d with on_chart_legend_dimension := onChart.DimensionInLegend }
  | none => (d, none)

/-- The function `timechartAPIToTF`: the state it leaves behind and the error it returns
(`none` for nil). -/
def timechartAPIToTF (h : ChartHelpers) (ord : HashOrder) (setErr : SetErrors)
    (d : TimeChartResourceData) (c : Chart) : TimeChartResourceData × Option String :=
  let options := c.Options
  andThen (writePlainFields setErr d c) fun d =>
  andThen (writePlotTypeOptions h setErr d options) fun d =>
  andThen (writeAxes h ord setErr d options) fun d =>
  andThen (writeProgramOptions setErr d options) fun d =>
  andThen (writeTime setErr d options) fun d =>
  writeLabelsAndLegends h ord setErr d options

/-- The function `validatePlotTypeTimeChart`: the warnings and the errors it returns. -/
def validatePlotTypeTimeChart (v : String) (_k : String) : List String × List String :=
  let value := v
  if value ≠ "LineChart" ∧ value ≠ "AreaChart" ∧ value ≠ "ColumnChart" ∧
      value ≠ "Histogram" then
    ([], [] ++ [value ++
      " not allowed; Must be \"LineChart\", \"AreaChart\", \"ColumnChart\", or \"Histogram\""])
  else ([], [])

/-- The function `validateAxisTimeChart`: the warnings and the errors it returns. -/
def validateAxisTimeChart (v : String) (_k : String) : List String × List String :=
  let value := v
  if value ≠ "right" ∧ value ≠ "left" then
    ([], [] ++ [value ++ " not allowed; must be either right or left"])
  else ([], [])

/-- The slice `allowedWords` of `validateUnitTimeChart`. -/
def allowedWords : List String :=
  ["Bit", "Kilobit", "Megabit", "Gigabit", "Terabit", "Petabit", "Exabit", "Zettabit",
   "Yottabit", "Byte", "Kibibyte", "Mebibyte", "Gigibyte", "Tebibyte", "Pebibyte",
   "Exbibyte", "Zebibyte", "Yobibyte", "Nanosecond", "Microsecond", "Millisecond",
   "Second", "Minute", "Hour", "Day", "Week"]

/-- The loop of `validateUnitTimeChart`: does it return at some word. -/
def wordLoop (value : String) : List String → Bool
  | [] => false
  | word :: rest => if value = word then true else wordLoop value rest

/-- The function `strings.Join`. -/
def stringsJoin (elems : List String) (sep : String) : String := sep.intercalate elems

/-- The function `validateUnitTimeChart`: the warnings and the errors it returns. -/
def validateUnitTimeChart (v : String) (_k : String) : List String × List String :=
  let value := v
  if wordLoop value allowedWords then ([], [])
  else ([], [] ++ [value ++ " not allowed; must be one of: " ++
    stringsJoin allowedWords ", "])

/-- A client library that keeps the two legend functions silent and knows the sixteen
palette colours by index. -/
def sampleHelpers : ChartHelpers :=
  { float32 := fun x => ⟨x.bits⟩
    float64 := fun x => ⟨x.bits⟩
    getLegendOptions := fun _ => none
    getLegendFieldOptions := fun _ => none
    getNameFromPaletteColorsByIndex := fun i =>
      match PaletteColors.find? (fun e => e.2 == i) with
      | some e => .ok e.1
      | none => .error "Unknown color index" }

/-- A time chart state with two tags. -/
def sampleTaggedChart : TimeChartResourceData :=
  { name := "cpu", program_text := "data('cpu.utilization').publish()"
    tags := ["prod", "team-a"] }

/-- A time chart state with a minimum resolution of 30 s and a maximum delay of 15 s. -/
def sampleResolutionChart : TimeChartResourceData :=
  { name := "cpu", minimum_resolution := 30, max_delay := 15, plot_type := "LineChart" }

/-- A time chart state with a minimum resolution of 2147484 s. -/
def sampleLongResolutionChart : TimeChartResourceData :=
  { name := "cpu", minimum_resolution := 2147484 }

/-- A time chart state with a time range of 9223372036854776 s. -/
def sampleLongRangeChart : TimeChartResourceData :=
  { name := "cpu", time_range := 9223372036854776 }

/-- A time chart state with a start and an end time. -/
def sampleAbsoluteChart : TimeChartResourceData :=
  { name := "cpu", time_range := 3600, start_time := 1700000000, end_time := 1700003600 }

/-- A time chart state with a time range only. -/
def sampleRelativeChart : TimeChartResourceData :=
  { name := "cpu", time_range := 3600, end_time := 1700003600 }

/-- A time chart state with the on-chart legend on the plot label. -/
def sampleLegendChart : TimeChartResourceData :=
  { name := "cpu", on_chart_legend_dimension := "plot_label" }

/-- A time chart state with an end time and no start time. -/
def sampleEndOnlyChart : TimeChartResourceData :=
  { name := "cpu", end_time := 1700003600 }

/-- A time chart state with a start time and an end time of 9223372036854776 s. -/
def sampleLongEndChart : TimeChartResourceData :=
  { name := "cpu", start_time := 1700000000, end_time := 9223372036854776 }

/-- A `viz_options` element for the plot `A` on the right axis. -/
def sampleVizElem : VizElem :=
  { label := "A", color := "blue", axis := "right", plot_type := "AreaChart",
    value_unit := "Byte", value_prefix := "~", value_suffix := "/s" }

/-- A `viz_options` element for the plot `B` on the left axis. -/
def sampleVizElemLeft : VizElem :=
  { label := "B", color := "", axis := "left", plot_type := "",
    value_unit := "", value_prefix := "", value_suffix := "" }

/-- A time chart state with two `viz_options` elements. -/
def sampleVizChart : TimeChartResourceData :=
  { name := "cpu", viz_options := ⟨[sampleVizElem, sampleVizElemLeft], by decide⟩ }

/-- A time chart state for an area chart with data markers. -/
def sampleAreaChart : TimeChartResourceData :=
  { name := "cpu", plot_type := "AreaChart", show_data_markers := true }

/-- A time chart state for a column chart with data markers. -/
def sampleColumnChart : TimeChartResourceData :=
  { name := "cpu", plot_type := "ColumnChart", show_data_markers := true }

/-- A time chart state for a histogram in the colour theme `red`. -/
def sampleHistogramChart : TimeChartResourceData :=
  { name := "cpu", plot_type := "Histogram"
    histogram_options := ⟨[{ color_theme := "red" }], by decide⟩ }

/-- The values whose product with 1000 fits a 64-bit integer. -/
def inMillisRange (v : Int) : Prop := -9223372036854775 ≤ v ∧ v ≤ 9223372036854775

/-- The seconds whose milliseconds fit an `int32`. -/
def inInt32Millis (v : Int) : Prop := 0 < v ∧ v ≤ 2147483

/-- A time chart state for a histogram in the colour theme `blue` with a minimum
resolution of 30 s. -/
def sampleHistogramResolutionChart : TimeChartResourceData :=
  { name := "cpu", plot_type := "Histogram", minimum_resolution := 30
    histogram_options := ⟨[{ color_theme := "blue" }], by decide⟩ }

/-! ## Provider configuration

The file `provider.go` is not among the sources; `provider_test.go` is, and its tests fix
what the loader answers in nine situations. -/

/-- The settings that one source can supply; an empty string is a setting that the
source does not supply. -/
structure ProviderSettings where
  auth_token : String := ""
  api_url : String := ""
  custom_app_url : String := ""
deriving DecidableEq

/-- What a run of the provider's `Configure` finds: the provider block of the Terraform
configuration, the variables `SFX_AUTH_TOKEN`, `SFX_API_URL` and `SFX_CUSTOM_APP_URL`,
the home and the system config file (`none` for a missing file), and the password that
`.netrc` holds for the machine `api.signalfx.com` (`none` without such an entry). -/
structure ProviderSources where
  terraform : ProviderSettings := {}
  environment : ProviderSettings := {}
  homeFile : Option ProviderSettings := none
  systemFile : Option ProviderSettings := none
  netrc : Option String := none

/-- The struct `signalfxConfig`, with the fields that the tests read. -/
structure signalfxConfig where
  AuthToken : String := ""
  APIURL : String := ""
  CustomAppURL : String := ""
deriving DecidableEq

/-- The severity of a diagnostic of the SDK (`diag.Error`, `diag.Warning`). -/
inductive Severity where
  | Error
  | Warning
deriving DecidableEq

/-- The struct `diag.Diagnostic` of the SDK. -/
structure Diagnostic where
  Severity : Severity
  Summary : String
  Detail : String := ""
deriving DecidableEq

/-- The type `diag.Diagnostics` of the SDK; nil is the empty list. -/
abbrev Diagnostics := List Diagnostic

/-- The first supplied value of a list of candidates, highest precedence first. -/
def firstSupplied : List String → String
  | [] => ""
  | v :: rest => if v = "" then firstSupplied rest else v

/-- A source laid over the configuration read so far: the settings it supplies replace
the earlier ones. -/
def overlaySettings (config : signalfxConfig) (s : ProviderSettings) : signalfxConfig :=
  { AuthToken := if s.auth_token = "" then config.AuthToken else s.auth_token
    APIURL := if s.api_url = "" then config.APIURL else s.api_url
    CustomAppURL := if s.custom_app_url = "" then config.CustomAppURL else s.custom_app_url }

/-- The `.netrc` password laid over the configuration read so far. -/
def overlayNetrc (config : signalfxConfig) (password : Option String) : signalfxConfig :=
  overlaySettings config { auth_token := password.getD "" }

/-- The API URL that the tests find when no source supplies one. -/
def defaultAPIURL : String := "https://api.signalfx.com"

/-- The custom app URL that the tests find when no source supplies one. -/
def defaultCustomAppURL : String := "https://app.signalfx.com"

/-- The summary that `TestProviderConfigureFromNothing` looks for. -/
def missingAuthSummary : String := "missing auth token or email and password"

/-- Modelled from the spec: the provider's `Configure` (file `provider.go`, which is not
among the sources).  The sources are read from the lowest precedence to the highest,
each replacing the settings it supplies.  The order is the one the spec lists, Terraform
provider block, environment variables, home config file, system config file, `.netrc`
credentials, with one change: `TestSignalFxConfigureFromNetrcFile` asserts the `.netrc`
token for a run whose system config file supplies another token, so `.netrc` is read
after the system file and before the home file, which keeps every other pair of
sources in the spec's order.  Without a token the run fails with the summary that
`TestProviderConfigureFromNothing` asserts; the URLs fall back to the values that the
tests assert. -/
def Configure (src : ProviderSources) : Option signalfxConfig × Diagnostics :=
  let config : signalfxConfig := {}
  let config := overlaySettings config (src.systemFile.getD {})
  let config := overlayNetrc config src.netrc
  let config := overlaySettings config (src.homeFile.getD {})
  let config := overlaySettings config src.environment
  let config := overlaySettings config src.terraform
  let config := overlaySettings
    { AuthToken := "", APIURL := defaultAPIURL, CustomAppURL := defaultCustomAppURL }
    { auth_token := config.AuthToken, api_url := config.APIURL,
      custom_app_url := config.CustomAppURL }
  if config.AuthToken = "" then
    (none, [{ Severity := Severity.Error, Summary := missingAuthSummary }])
  else (some config, [])

/-- Modelled from the spec: the auth token by the precedence that the spec lists,
highest first: Terraform provider block, environment variable, home config file, system
config file, `.netrc` credentials. -/
def specOrderToken (src : ProviderSources) : String :=
  firstSupplied [src.terraform.auth_token, src.environment.auth_token,
    (src.homeFile.getD {}).auth_token, (src.systemFile.getD {}).auth_token,
    src.netrc.getD ""]

/-- The run of `TestProviderConfigureFromTerraform`. -/
def testFromTerraform : ProviderSources :=
  { systemFile := some { auth_token := "ZZZ" }
    environment := { auth_token := "YYY", api_url := "https://api.signalfx.com",
                     custom_app_url := "https://mydomain.signalfx.com" }
    terraform := { auth_token := "XXX", api_url := "https://api.eu0.signalfx.com",
                   custom_app_url := "https://myotherdomain.signalfx.com" } }

/-- The run of `TestProviderConfigureFromEnvironment`. -/
def testFromEnvironment : ProviderSources :=
  { systemFile := some { auth_token := "ZZZ" }
    environment := { auth_token := "YYY", api_url := "https://api.eu0.signalfx.com",
                     custom_app_url := "https://mydomain.signalfx.com" } }

/-- The run of `TestSignalFxConfigureFromHomeFile`. -/
def testFromHomeFile : ProviderSources :=
  { systemFile := some { auth_token := "ZZZ" }, homeFile := some { auth_token := "WWW" } }

/-- The run of `TestSignalFxConfigureFromNetrcFile`: the system config file supplies the
token `ZZZ`, `.netrc` the password `WWW`; the test asserts the token `WWW`. -/
def testFromNetrcFile : ProviderSources :=
  { systemFile := some { auth_token := "ZZZ" }, netrc := some "WWW" }

/-- The run of `TestSignalFxConfigureFromSystemFileOnly`. -/
def testFromSystemFileOnly : ProviderSources :=
  { systemFile := some { auth_token := "ZZZ" } }

/-- A run with a token in every source below the environment: home config file `HHH`,
`.netrc` password `NNN`, system config file `ZZZ`. -/
def sampleHomeAndNetrc : ProviderSources :=
  { systemFile := some { auth_token := "ZZZ" }, homeFile := some { auth_token := "HHH" },
    netrc := some "NNN" }

/-- A run with a token in `.netrc` and in the system config file, and a URL in the
system config file and in the environment. -/
def sampleNetrcAndSystem : ProviderSources :=
  { systemFile := some { auth_token := "ZZZ", api_url := "https://api.us1.signalfx.com" }
    netrc := some "NNN"
    environment := { custom_app_url := "https://mydomain.signalfx.com" } }

/-! ## The AWS CloudWatch integration

The file with `decodeTerraform` is not among the sources; its table test
`TestIntegrationDecode` is. -/

/-- The auth methods `integration.EXTERNAL_ID` and `integration.SECURITY_TOKEN`. -/
inductive AwsAuthMethod where
  | EXTERNAL_ID
  | SECURITY_TOKEN
deriving DecidableEq

/-- The struct `integration.AwsCloudWatchIntegration`, with the fields that the decode
test sets from plain values; `Type_` is its field `Type`. -/
structure AwsCloudWatchIntegration where
  Type_ : String := ""
  AuthMethod : AwsAuthMethod
  ExternalId : String := ""
  RoleArn : String := ""
  Token : String := ""
  Key : String := ""
  Regions : List String := []
  PollRate : Int := 0
  NamedToken : String := ""
  MetricStreamsSyncState : String := ""
deriving DecidableEq

/-- The `*schema.ResourceData` of the AWS integration, with the keys that the decode test
uses; an unset `poll_rate` reads as the schema default of 300 seconds. -/
structure AwsIntegrationResourceData where
  external_id : String := ""
  role_arn : String := ""
  token : String := ""
  key : String := ""
  regions : List String := []
  poll_rate : Int := 300
  named_token : String := ""
  use_metric_streams_sync : Bool := false

/-- The error of `decodeTerraform` for a configuration without an auth method. -/
def errAwsAuth : String := "requires either `external_id` or `token` and `key`"

/-- Modelled from the spec: the function `decodeTerraform` of the package
`awsintegration` (its file is not among the sources).  The integration has the type
`AWSCloudWatch`; with an `external_id` it authenticates by external id and takes the
role, with `token` and `key` by security token, and without either the function returns
nil and the error of the test's first row.  No row of `TestIntegrationDecode` sets both
auth methods, so which one wins then is the parameter `externalFirst`.  The other fields
are as the rows expect them: the regions, the poll rate in milliseconds, the named
token, and the metric streams state. -/
def decodeTerraform (externalFirst : Bool) (d : AwsIntegrationResourceData) :
    Except String AwsCloudWatchIntegration :=
  let state := if d.use_metric_streams_sync then "ENABLED" else ""
  let byExternalId : AwsCloudWatchIntegration :=
    { Type_ := "AWSCloudWatch", AuthMethod := AwsAuthMethod.EXTERNAL_ID,
      ExternalId := d.external_id, RoleArn := d.role_arn, Regions := d.regions,
      PollRate := wrapInt64 (d.poll_rate * 1000), NamedToken := d.named_token,
      MetricStreamsSyncState := state }
  let byToken : AwsCloudWatchIntegration :=
    { Type_ := "AWSCloudWatch", AuthMethod := AwsAuthMethod.SECURITY_TOKEN,
      Token := d.token, Key := d.key, Regions := d.regions,
      PollRate := wrapInt64 (d.poll_rate * 1000), NamedToken := d.named_token,
      MetricStreamsSyncState := state }
  if d.external_id ≠ "" ∧ d.token ≠ "" ∧ d.key ≠ "" then
    .ok (if externalFirst then byExternalId else byToken)
  else if d.external_id ≠ "" then .ok byExternalId
  else if d.token ≠ "" ∧ d.key ≠ "" then .ok byToken
  else .error errAwsAuth

/-- The rows of `TestIntegrationDecode` (without `metric_stats_to_sync` and
`enable_log_sync`, which the expected values of the kept fields do not depend on). -/
def decodeTestData : List AwsIntegrationResourceData :=
  [ {},
    { external_id := "my-id", role_arn := "...." },
    { token := "my-token", key := "my-key" },
    { token := "my-token", key := "my-key", regions := ["us-east-1"] },
    { token := "my-token", key := "my-key", regions := ["us-east-1"],
      use_metric_streams_sync := true, poll_rate := 10000,
      named_token := "my-awesome-token" } ]

/-- The values that the rows of `decodeTestData` expect. -/
def decodeTestExpect : List (Except String AwsCloudWatchIntegration) :=
  [ .error "requires either `external_id` or `token` and `key`",
    .ok { Type_ := "AWSCloudWatch", AuthMethod := AwsAuthMethod.EXTERNAL_ID,
          ExternalId := "my-id", RoleArn := "....", PollRate := 300000 },
    .ok { Type_ := "AWSCloudWatch", AuthMethod := AwsAuthMethod.SECURITY_TOKEN,
          Token := "my-token", Key := "my-key", PollRate := 300000 },
    .ok { Type_ := "AWSCloudWatch", AuthMethod := AwsAuthMethod.SECURITY_TOKEN,
          Token := "my-token", Key := "my-key", Regions := ["us-east-1"],
          PollRate := 300000 },
    .ok { Type_ := "AWSCloudWatch", AuthMethod := AwsAuthMethod.SECURITY_TOKEN,
          Token := "my-token", Key := "my-key", Regions := ["us-east-1"],
          PollRate := 10000000, NamedToken := "my-awesome-token",
          MetricStreamsSyncState := "ENABLED" } ]

/-! ## The test harness for resource operations

The file with `ResourceOperationTestCase` is not among the sources; its tests in
`resource_test.go` are. -/

/-- The four operations of a resource. -/
inductive Operation where
  | create
  | read
  | update
  | delete
deriving DecidableEq

/-- The word for an operation in the harness's message. -/
def Operation.word : Operation → String
  | .create => "create"
  | .read => "read"
  | .update => "update"
  | .delete => "delete"

/-- The operation fields of a `schema.Resource`: for each operation the legacy function,
which returns an error, and the context and without-timeout functions, which return
diagnostics; `none` is a field that is not set.  `ρ` is the resource data, `μ` the meta
value. -/
structure SchemaResource (ρ μ : Type) where
  Create : Option (ρ → μ → Option String) := none
  CreateContext : Option (ρ → μ → Diagnostics) := none
  CreateWithoutTimeout : Option (ρ → μ → Diagnostics) := none
  Read : Option (ρ → μ → Option String) := none
  ReadContext : Option (ρ → μ → Diagnostics) := none
  ReadWithoutTimeout : Option (ρ → μ → Diagnostics) := none
  Update : Option (ρ → μ → Option String) := none
  UpdateContext : Option (ρ → μ → Diagnostics) := none
  UpdateWithoutTimeout : Option (ρ → μ → Diagnostics) := none
  Delete : Option (ρ → μ → Option String) := none
  DeleteContext : Option (ρ → μ → Diagnostics) := none
  DeleteWithoutTimeout : Option (ρ → μ → Diagnostics) := none

/-- The legacy variant of an operation. -/
def SchemaResource.legacy {ρ μ : Type} (r : SchemaResource ρ μ) :
    Operation → Option (ρ → μ → Option String)
  | .create => r.Create
  | .read => r.Read
  | .update => r.Update
  | .delete => r.Delete

/-- The context variant of an operation. -/
def SchemaResource.context {ρ μ : Type} (r : SchemaResource ρ μ) :
    Operation → Option (ρ → μ → Diagnostics)
  | .create => r.CreateContext
  | .read => r.ReadContext
  | .update => r.UpdateContext
  | .delete => r.DeleteContext

/-- The without-timeout variant of an operation. -/
def SchemaResource.withoutTimeout {ρ μ : Type} (r : SchemaResource ρ μ) :
    Operation → Option (ρ → μ → Diagnostics)
  | .create => r.CreateWithoutTimeout
  | .read => r.ReadWithoutTimeout
  | .update => r.UpdateWithoutTimeout
  | .delete => r.DeleteWithoutTimeout

/-- The function `diag.FromErr` of the SDK: nil for nil, else one error diagnostic with
the error's message. -/
def diagFromErr (err : Option String) : Diagnostics :=
  match err with
  | some e => [{ Severity := Severity.Error, Summary := e }]
  | none => []

/-- Modelled from the spec: the operation that the methods `TestCreate`, `TestRead`,
`TestUpdate` and `TestDelete` of `ResourceOperationTestCase` run (package `tftest`; its
file is not among the sources) and whose diagnostics they compare with `Issues`.  The
legacy variant is taken first and its error turned into a diagnostic, then the context
variant, then the without-timeout variant; a resource with none of them yields the
diagnostic `no <op> operation defined`. -/
def runOperation {ρ μ : Type} (op : Operation) (r : SchemaResource ρ μ) (rd : ρ) (m : μ) :
    Diagnostics :=
  match r.legacy op with
  | some f => diagFromErr (f rd m)
  | none =>
    match r.context op with
    | some g => g rd m
    | none =>
      match r.withoutTimeout op with
      | some g => g rd m
      | none => [{ Severity := Severity.Error,
                   Summary := "no " ++ op.word ++ " operation defined" }]

/-- The resources of the rows of `TestResourceOperationTestCaseCreate`, in order. -/
def createTestResources : List (SchemaResource Unit Unit) :=
  [ {},
    { Create := some (fun _ _ => none) },
    { Create := some (fun _ _ => some "failed") },
    { CreateContext := some (fun _ _ => []) },
    { CreateContext := some (fun _ _ => [{ Severity := Severity.Warning, Summary := "warn" }]) },
    { CreateWithoutTimeout := some (fun _ _ => []) },
    { CreateWithoutTimeout :=
        some (fun _ _ => [{ Severity := Severity.Error, Summary := "failed" }]) } ]

/-- The resources of the rows of `TestResourceOperationTestCaseDelete`, in order. -/
def deleteTestResources : List (SchemaResource Unit Unit) :=
  [ {},
    { Delete := some (fun _ _ => none) },
    { Delete := some (fun _ _ => some "failed") },
    { DeleteContext := some (fun _ _ => []) },
    { DeleteContext := some (fun _ _ => [{ Severity := Severity.Warning, Summary := "warn" }]) },
    { DeleteWithoutTimeout := some (fun _ _ => []) },
    { DeleteWithoutTimeout :=
        some (fun _ _ => [{ Severity := Severity.Error, Summary := "failed" }]) } ]

/-- The diagnostics that the rows of the create test expect, in order. -/
def expectedCreateIssues : List Diagnostics :=
  [ [{ Severity := Severity.Error, Summary := "no create operation defined" }],
    [], [{ Severity := Severity.Error, Summary := "failed" }], [],
    [{ Severity := Severity.Warning, Summary := "warn" }], [],
    [{ Severity := Severity.Error, Summary := "failed" }] ]

/-- The diagnostics that the rows of the delete test expect, in order. -/
def expectedDeleteIssues : List Diagnostics :=
  [ [{ Severity := Severity.Error, Summary := "no delete operation defined" }],
    [], [{ Severity := Severity.Error, Summary := "failed" }], [],
    [{ Severity := Severity.Warning, Summary := "warn" }], [],
    [{ Severity := Severity.Error, Summary := "failed" }] ]

/-! ## Correctness of the matcher -/

namespace Regex

theorem not_matches_empty (w : List Char) : ¬ Matches empty w := by
  intro h; cases h

theorem matches_eps_iff (w : List Char) : Matches eps w ↔ w = [] := by
  constructor
  · intro h; cases h; rfl
  · rintro rfl; exact Matches.eps

theorem matches_cls_iff (p : Char → Bool) (w : List Char) :
    Matches (cls p) w ↔ ∃ c, w = [c] ∧ p c = true := by
  constructor
  · intro h; cases h with | cls _ c hc => exact ⟨c, rfl, hc⟩
  · rintro ⟨c, rfl, hc⟩; exact Matches.cls p c hc

theorem matches_alt_iff (r s : Regex) (w : List Char) :
    Matches (alt r s) w ↔ Matches r w ∨ Matches s w := by
  constructor
  · intro h
    cases h with
    | altL _ _ _ h => exact Or.inl h
    | altR _ _ _ h => exact Or.inr h
  · rintro (h | h)
    · exact Matches.altL r s w h
    · exact Matches.altR r s w h

theorem matches_seq_iff (r s : Regex) (w : List Char) :
    Matches (seq r s) w ↔ ∃ u v, w = u ++ v ∧ Matches r u ∧ Matches s v := by
  constructor
  · intro h; cases h with | seq _ _ u v hu hv => exact ⟨u, v, rfl, hu, hv⟩
  · rintro ⟨u, v, rfl, hu, hv⟩; exact Matches.seq r s u v hu hv

theorem matches_chr_iff (c : Char) (w : List Char) : Matches (chr c) w ↔ w = [c] := by
  unfold chr
  rw [matches_cls_iff]
  constructor
  · rintro ⟨x, rfl, hx⟩
    have : x = c := by simpa using hx
    rw [this]
  · rintro rfl; exact ⟨c, rfl, by simp⟩

theorem matches_lit_iff (l w : List Char) : Matches (lit l) w ↔ w = l := by
  induction l generalizing w with
  | nil => simpa [lit] using matches_eps_iff w
  | cons c cs ih =>
    simp only [lit, matches_seq_iff, matches_chr_iff, ih]
    constructor
    · rintro ⟨u, v, rfl, rfl, rfl⟩; rfl
    · rintro rfl; exact ⟨[c], cs, rfl, rfl, rfl⟩

theorem star_cons_inv (r : Regex) {q : Regex} {x : List Char} (h : Matches q x) :
    q = star r → x ≠ [] →
    ∃ a u v, x = a :: u ++ v ∧ Matches r (a :: u) ∧ Matches (star r) v := by
  induction h with
  | eps => intro hq; cases hq
  | cls p c _ => intro hq; cases hq
  | altL _ _ _ _ _ => intro hq; cases hq
  | altR _ _ _ _ _ => intro hq; cases hq
  | seq _ _ _ _ _ _ _ _ => intro hq; cases hq
  | starNil _ => intro _ hx; exact absurd rfl hx
  | starCons r0 u v hu hv _ ihv =>
    intro hq hx
    cases hq
    cases u with
    | nil => exact ihv rfl (by simpa using hx)
    | cons a u1 => exact ⟨a, u1, v, rfl, hu, hv⟩

theorem star_cls_forall (p : Char → Bool) {q : Regex} {x : List Char} (h : Matches q x) :
    q = star (cls p) → ∀ c ∈ x, p c = true := by
  induction h with
  | eps => intro hq; cases hq
  | cls _ _ _ => intro hq; cases hq
  | altL _ _ _ _ _ => intro hq; cases hq
  | altR _ _ _ _ _ => intro hq; cases hq
  | seq _ _ _ _ _ _ _ _ => intro hq; cases hq
  | starNil _ => intro _ c hc; cases hc
  | starCons r0 u v hu _ _ ihv =>
    intro hq
    cases hq
    rw [matches_cls_iff] at hu
    obtain ⟨a, rfl, ha⟩ := hu
    intro c hc
    simp only [List.singleton_append, List.mem_cons] at hc
    rcases hc with rfl | hc
    · exact ha
    · exact ihv rfl c hc

theorem matches_star_cls_iff (p : Char → Bool) (w : List Char) :
    Matches (star (cls p)) w ↔ ∀ c ∈ w, p c = true := by
  constructor
  · intro h; exact star_cls_forall p h rfl
  · intro h
    induction w with
    | nil => exact Matches.starNil _
    | cons c cs ih =>
      have h1 : Matches (cls p) [c] := Matches.cls p c (h c (List.mem_cons_self c cs))
      have h2 := ih (fun x hx => h x (List.mem_cons_of_mem c hx))
      exact Matches.starCons _ [c] cs h1 h2

theorem nullable_iff (r : Regex) : r.nullable = true ↔ Matches r [] := by
  induction r with
  | empty => simp [nullable, not_matches_empty]
  | eps => simp [nullable, matches_eps_iff]
  | cls p => simp [nullable, matches_cls_iff]
  | alt r s ihr ihs => simp [nullable, matches_alt_iff, ihr, ihs]
  | seq r s ihr ihs =>
    simp only [nullable, Bool.and_eq_true, ihr, ihs, matches_seq_iff]
    constructor
    · rintro ⟨h1, h2⟩; exact ⟨[], [], rfl, h1, h2⟩
    · rintro ⟨u, v, huv, h1, h2⟩
      obtain ⟨hu, hv⟩ := List.append_eq_nil.mp huv.symm
      subst hu; subst hv; exact ⟨h1, h2⟩
  | star r _ => simp only [nullable, true_iff]; exact Matches.starNil r

theorem deriv_iff (r : Regex) (c : Char) (w : List Char) :
    Matches (r.deriv c) w ↔ Matches r (c :: w) := by
  induction r generalizing w with
  | empty => simp [deriv, not_matches_empty]
  | eps => simp [deriv, not_matches_empty, matches_eps_iff]
  | cls p =>
    by_cases hp : p c = true
    · simp only [deriv, hp, if_true, matches_eps_iff, matches_cls_iff]
      constructor
      · rintro rfl; exact ⟨c, rfl, hp⟩
      · rintro ⟨x, hx, _⟩; simpa using (List.cons.inj hx).2
    · simp only [deriv, hp, matches_cls_iff]
      constructor
      · intro h; exact absurd h (by simpa using not_matches_empty w)
      · rintro ⟨x, hx, hpx⟩
        have : c = x := (List.cons.inj hx).1
        subst this; exact absurd hpx hp
  | alt r s ihr ihs => simp [deriv, matches_alt_iff, ihr, ihs]
  | seq r s ihr ihs =>
    have key : Matches (seq r s) (c :: w) ↔
        (Matches (seq (r.deriv c) s) w ∨ (r.nullable = true ∧ Matches (s.deriv c) w)) := by
      simp only [matches_seq_iff, ihr, ihs, nullable_iff]
      constructor
      · rintro ⟨u, v, huv, hu, hv⟩
        cases u with
        | nil =>
          simp only [List.nil_append] at huv
          subst huv
          exact Or.inr ⟨hu, hv⟩
        | cons a u1 =>
          simp only [List.cons_append, List.cons.injEq] at huv
          obtain ⟨rfl, rfl⟩ := huv
          exact Or.inl ⟨u1, v, rfl, hu, hv⟩
      · rintro (⟨u, v, rfl, hu, hv⟩ | ⟨hn, hs⟩)
        · exact ⟨c :: u, v, rfl, hu, hv⟩
        · exact ⟨[], c :: w, rfl, hn, hs⟩
    rw [key]
    by_cases hn : r.nullable = true
    · simp [deriv, hn, matches_alt_iff]
    · simp [deriv, hn]
  | star r ih =>
    simp only [deriv, matches_seq_iff, ih]
    constructor
    · rintro ⟨u, v, rfl, hu, hv⟩
      exact Matches.starCons r (c :: u) v hu hv
    · intro h
      obtain ⟨a, u, v, huv, hu, hv⟩ := star_cons_inv r h rfl (by simp)
      simp only [List.cons_append, List.cons.injEq] at huv
      obtain ⟨rfl, rfl⟩ := huv
      exact ⟨u, v, rfl, hu, hv⟩

theorem rmatch_iff (r : Regex) (w : List Char) : r.rmatch w = true ↔ Matches r w := by
  induction w generalizing r with
  | nil => simpa [rmatch] using nullable_iff r
  | cons c cs ih => simp only [rmatch, ih, deriv_iff]

theorem matchPrefix_iff (r : Regex) (w : List Char) :
    r.matchPrefix w = true ↔ ∃ u v, w = u ++ v ∧ Matches r u := by
  induction w generalizing r with
  | nil =>
    simp only [matchPrefix, nullable_iff]
    constructor
    · intro h; exact ⟨[], [], rfl, h⟩
    · rintro ⟨u, v, huv, hu⟩
      have : u = [] := (List.append_eq_nil.mp huv.symm).1
      subst this; exact hu
  | cons c cs ih =>
    simp only [matchPrefix, Bool.or_eq_true, ih, nullable_iff, deriv_iff]
    constructor
    · rintro (h | ⟨u, v, rfl, hu⟩)
      · exact ⟨[], c :: cs, rfl, h⟩
      · exact ⟨c :: u, v, rfl, hu⟩
    · rintro ⟨u, v, huv, hu⟩
      cases u with
      | nil => exact Or.inl hu
      | cons a u1 =>
        simp only [List.cons_append, List.cons.injEq] at huv
        obtain ⟨rfl, rfl⟩ := huv
        exact Or.inr ⟨u1, v, rfl, hu⟩

end Regex

theorem Regex.matches_plus_cls_iff (p : Char → Bool) (w : List Char) :
    Regex.Matches (Regex.plus (Regex.cls p)) w ↔ w ≠ [] ∧ ∀ c ∈ w, p c = true := by
  simp only [Regex.plus, Regex.matches_seq_iff, Regex.matches_cls_iff,
    Regex.matches_star_cls_iff]
  constructor
  · rintro ⟨u, v, rfl, ⟨c, rfl, hc⟩, hv⟩
    refine ⟨by simp, ?_⟩
    intro x hx
    simp only [List.singleton_append, List.mem_cons] at hx
    rcases hx with rfl | hx
    · exact hc
    · exact hv x hx
  · rintro ⟨hne, hall⟩
    cases w with
    | nil => exact absurd rfl hne
    | cons c cs =>
      exact ⟨[c], cs, rfl, ⟨c, rfl, hall c (List.mem_cons_self c cs)⟩,
        fun x hx => hall x (List.mem_cons_of_mem c hx)⟩

theorem appdMatch_iff_form (u : List Char) :
    appdRegex.matchPrefix u = true ↔ AppdLinkForm u := by
  rw [Regex.matchPrefix_iff]
  unfold appdRegex AppdLinkForm
  simp only [Regex.matches_seq_iff, Regex.matches_lit_iff, Regex.opt, Regex.matches_alt_iff,
    Regex.matches_eps_iff, Regex.matches_chr_iff, Regex.matches_plus_cls_iff,
    Regex.matches_star_cls_iff]
  constructor
  · rintro ⟨w, rest, rfl, _, _, rfl, rfl, _, _, rfl, hs, _, _, rfl, rfl, host, _, rfl,
      ⟨hne, hhost⟩, _, _, rfl, rfl, a, _, rfl, ha, _, _, rfl, rfl, ds1, _, rfl, ⟨hd1, hds1⟩,
      b, _, rfl, hb, _, _, rfl, rfl, ds2, c, rfl, ⟨hd2, hds2⟩, hc⟩
    rcases hs with rfl | rfl
    · exact ⟨"https://".data, host, a, ds1, b, ds2, c ++ rest, Or.inr rfl, hne, hhost, ha,
        hd1, hds1, hb, hd2, hds2, by simp [List.append_assoc]⟩
    · exact ⟨"http://".data, host, a, ds1, b, ds2, c ++ rest, Or.inl rfl, hne, hhost, ha,
        hd1, hds1, hb, hd2, hds2, by simp [List.append_assoc]⟩
  · rintro ⟨scheme, host, a, ds1, b, ds2, rest, hs, hne, hhost, ha, hd1, hds1, hb, hd2,
      hds2, rfl⟩
    refine ⟨"http".data ++ ((if scheme = "https://".data then ['s'] else []) ++
      ("://".data ++ (host ++ (".saas.appdynamics.com/".data ++ (a ++ ("application=".data ++
      (ds1 ++ (b ++ ("component=".data ++ (ds2 ++ [])))))))))), rest, ?_, _, _, rfl, rfl,
      _, _, rfl, ?_, _, _, rfl, rfl, _, _, rfl, ⟨hne, hhost⟩, _, _, rfl, rfl, _, _, rfl,
      ha, _, _, rfl, rfl, _, _, rfl, ⟨hd1, hds1⟩, _, _, rfl, hb, _, _, rfl, rfl, _, _, rfl,
      ⟨hd2, hds2⟩, ?_⟩
    · rcases hs with rfl | rfl <;> simp [List.append_assoc]
    · rcases hs with rfl | rfl
      · right; decide
      · left; decide
    · intro x hx; cases hx

/-! ## Loops as list operations -/

theorem foldl_append_singleton {α β : Type} (f : α → β) (l : List α) (init : List β) :
    l.foldl (fun acc x => acc ++ [f x]) init = init ++ l.map f := by
  induction l generalizing init with
  | nil => simp
  | cons x xs ih => simp [ih]

theorem kvInsert_append_new (k v : String) (l : List (String × String))
    (h : k ∉ l.map Prod.fst) : kvInsert k v l = l ++ [(k, v)] := by
  induction l with
  | nil => rfl
  | cons e rest ih =>
    simp only [List.map_cons, List.mem_cons, not_or] at h
    have hne : ¬ e.1 = k := fun h1 => h.1 h1.symm
    simp [kvInsert, hne, ih h.2]

theorem GoMap.ext_entries {m n : GoMap} (h : m.entries = n.entries) : m = n := by
  cases m; cases n; cases h; rfl

theorem GoMap.foldl_insert_entries (l : List (String × String)) (m : GoMap)
    (h : (m.entries ++ l).map Prod.fst |>.Nodup) :
    (l.foldl (fun pkMap e => pkMap.insert e.1 e.2) m).entries = m.entries ++ l := by
  induction l generalizing m with
  | nil => simp
  | cons e rest ih =>
    have hnew : e.1 ∉ m.entries.map Prod.fst := by
      intro hmem
      rw [List.map_append, List.nodup_append] at h
      exact h.2.2 hmem (by simp)
    have hstep : (m.insert e.1 e.2).entries = m.entries ++ [e] := by
      show kvInsert e.1 e.2 m.entries = _
      rw [kvInsert_append_new _ _ _ hnew]
    rw [List.foldl_cons, ih]
    · rw [hstep]; simp
    · rw [hstep]; simpa using h

theorem GoMap.copy_eq (m : GoMap) : m.copy = m := by
  apply GoMap.ext_entries
  unfold GoMap.copy
  rw [GoMap.foldl_insert_entries]
  · rfl
  · simpa [GoMap.empty] using m.nodupKeys

theorem appdLoop_eq (l : List AppdURLElem) (init : List Target) :
    appdLoop l init =
      if l.all (fun tfLink => appdMatchString tfLink.url) then
        Except.ok (init ++ l.map appdTarget)
      else Except.error errAppdLink := by
  induction l generalizing init with
  | nil => simp [appdLoop]
  | cons e rest ih =>
    by_cases h : appdMatchString e.url = true
    · simp [appdLoop, appdTarget, h, ih]
    · simp [appdLoop, appdTarget, h]

theorem externalLoop_eq (l : List ExternalURLElem) (init : List Target) :
    externalLoop l init =
      init ++ (l.filter (fun tfLink => tfLink.name ≠ "")).map externalTarget := by
  unfold externalLoop
  induction l generalizing init with
  | nil => simp
  | cons e rest ih =>
    by_cases h : e.name = ""
    · simp [h, ih]
    · simp [h, ih]

theorem getOkString_eq (s : String) : getOkString s = if s = "" then none else some s := rfl

theorem readPropertyName_eq (d : DataLinkResourceData)
    (dataLink : CreateUpdateDataLinkRequest) (h : dataLink.PropertyName = "") :
    readPropertyName d dataLink = { dataLink with PropertyName := d.property_name } := by
  unfold readPropertyName getOkString
  by_cases hn : d.property_name = ""
  · simp only [hn, if_true]; cases dataLink; simp_all
  · simp [hn]

theorem readPropertyValue_eq (d : DataLinkResourceData)
    (dataLink : CreateUpdateDataLinkRequest) (h : dataLink.PropertyValue = "") :
    readPropertyValue d dataLink =
      if d.property_value ≠ "" ∧ dataLink.PropertyName = "" then
        Except.error errPropertyValue
      else Except.ok { dataLink with PropertyValue := d.property_value } := by
  unfold readPropertyValue getOkString
  by_cases hv : d.property_value = ""
  · simp only [hv, if_true, ne_eq, not_true_eq_false, false_and, if_false]
    cases dataLink; simp_all
  · by_cases hn : dataLink.PropertyName = "" <;> simp [hv, hn]

theorem readContextId_eq (d : DataLinkResourceData)
    (dataLink : CreateUpdateDataLinkRequest) (h : dataLink.ContextId = "") :
    readContextId d dataLink = { dataLink with ContextId := d.context_dashboard_id } := by
  unfold readContextId getOkString
  by_cases hn : d.context_dashboard_id = ""
  · simp only [hn, if_true]; cases dataLink; simp_all
  · simp [hn]

theorem readSfxDashboards_eq (d : DataLinkResourceData)
    (dataLink : CreateUpdateDataLinkRequest) :
    readSfxDashboards d dataLink =
      if d.target_signalfx_dashboard.elems ≠ [] ∧ dataLink.PropertyName = "" then
        Except.error errSfxDashboard
      else Except.ok { dataLink with
        Targets := (dataLink.Targets ++
          d.target_signalfx_dashboard.elems.map sfxDashboardTarget) } := by
  unfold readSfxDashboards getOkSet
  cases h : d.target_signalfx_dashboard.elems with
  | nil => simp
  | cons x xs =>
    by_cases hn : dataLink.PropertyName = "" <;> simp [hn, foldl_append_singleton]

theorem readSplunk_eq (d : DataLinkResourceData) (dataLink : CreateUpdateDataLinkRequest) :
    readSplunk d dataLink = { dataLink with
      Targets := (dataLink.Targets ++ d.target_splunk.elems.map splunkTarget) } := by
  unfold readSplunk getOkSet
  cases h : d.target_splunk.elems with
  | nil => simp
  | cons x xs => simp [foldl_append_singleton]

theorem readAppdURLs_eq (d : DataLinkResourceData) (dataLink : CreateUpdateDataLinkRequest) :
    readAppdURLs d dataLink =
      if d.target_appd_url.elems.all (fun tfLink => appdMatchString tfLink.url) then
        Except.ok { dataLink with
          Targets := (dataLink.Targets ++ d.target_appd_url.elems.map appdTarget) }
      else Except.error errAppdLink := by
  unfold readAppdURLs getOkSet
  cases h : d.target_appd_url.elems with
  | nil => simp
  | cons x xs =>
    simp only [List.isEmpty_cons, Bool.false_eq_true, if_false]
    rw [appdLoop_eq]
    by_cases hall : (x :: xs).all (fun tfLink => appdMatchString tfLink.url) = true
    · rw [if_pos hall, if_pos hall]
    · rw [if_neg hall, if_neg hall]

theorem readExternalURLs_eq (d : DataLinkResourceData)
    (dataLink : CreateUpdateDataLinkRequest) :
    readExternalURLs d dataLink = { dataLink with
      Targets := (dataLink.Targets ++
        (d.target_external_url.elems.filter (fun tfLink => tfLink.name ≠ "")).map
          externalTarget) } := by
  unfold readExternalURLs getOkSet
  cases h : d.target_external_url.elems with
  | nil => simp
  | cons x xs => simp [externalLoop_eq]

/-- The function `getPayloadDataLink` in closed form: the checks in the order in which
the code makes them, then the payload. -/
theorem getPayloadDataLink_eq (d : DataLinkResourceData) :
    getPayloadDataLink d =
      if d.property_value ≠ "" ∧ d.property_name = "" then Except.error errPropertyValue
      else if d.target_signalfx_dashboard.elems ≠ [] ∧ d.property_name = "" then
        Except.error errSfxDashboard
      else if ¬ d.target_appd_url.elems.all (fun tfLink => appdMatchString tfLink.url) then
        Except.error errAppdLink
      else if payloadTargets d = [] then Except.error errNoTargets
      else Except.ok
        { ContextId := d.context_dashboard_id, PropertyName := d.property_name,
          PropertyValue := d.property_value, Targets := payloadTargets d } := by
  unfold getPayloadDataLink
  simp only [bind, Except.bind]
  rw [readPropertyName_eq d _ rfl, readPropertyValue_eq d _ rfl]
  by_cases h1 : d.property_value ≠ "" ∧ d.property_name = ""
  · rw [if_pos h1, if_pos h1]
  · rw [if_neg h1, if_neg h1]
    simp only []
    rw [readContextId_eq d _ rfl, readSfxDashboards_eq]
    by_cases h2 : d.target_signalfx_dashboard.elems ≠ [] ∧ d.property_name = ""
    · rw [if_pos h2, if_pos h2]
    · rw [if_neg h2, if_neg h2]
      simp only []
      rw [readSplunk_eq, readAppdURLs_eq]
      by_cases h3 : d.target_appd_url.elems.all (fun tfLink => appdMatchString tfLink.url)
      · rw [if_pos h3, if_neg (not_not.mpr h3)]
        simp only []
        rw [readExternalURLs_eq]
        have ht : payloadTargets d = [] ++ d.target_signalfx_dashboard.elems.map
            sfxDashboardTarget ++ d.target_splunk.elems.map splunkTarget ++
            d.target_appd_url.elems.map appdTarget ++
            (d.target_external_url.elems.filter (fun tfLink => tfLink.name ≠ "")).map
              externalTarget := by
          simp [payloadTargets]
        simp only [← ht]
        by_cases h4 : payloadTargets d = []
        · simp [h4]
        · have : ¬ (payloadTargets d).length < 1 := by
            have := List.length_pos.mpr h4
            omega
          simp [h4, this]
      · rw [if_neg h3, if_pos h3]

theorem getPayloadDataLink_ok {d : DataLinkResourceData} {p : CreateUpdateDataLinkRequest}
    (h : getPayloadDataLink d = Except.ok p) :
    ¬ (d.property_value ≠ "" ∧ d.property_name = "") ∧
    ¬ (d.target_signalfx_dashboard.elems ≠ [] ∧ d.property_name = "") ∧
    d.target_appd_url.elems.all (fun tfLink => appdMatchString tfLink.url) = true ∧
    payloadTargets d ≠ [] ∧
    p = { ContextId := d.context_dashboard_id, PropertyName := d.property_name,
          PropertyValue := d.property_value, Targets := payloadTargets d } := by
  rw [getPayloadDataLink_eq] at h
  split_ifs at h with h1 h2 h3 h4
  · exact ⟨h1, h2, h3, h4, (Except.ok.inj h).symm⟩

theorem appdLinkForm_shape {u : List Char} (h : AppdLinkForm u) : AppdLinkShape u := by
  obtain ⟨scheme, host, a, ds1, b, ds2, rest, hs, hne, hhost, _, hd1, hds1, _, hd2, hds2,
    rfl⟩ := h
  cases ds1 with
  | nil => exact absurd rfl hd1
  | cons x1 t1 =>
    cases ds2 with
    | nil => exact absurd rfl hd2
    | cons x2 t2 =>
      exact ⟨scheme, host, a, t1 ++ b, t2 ++ rest, x1, x2, hs, hne, hhost,
        hds1 x1 (List.mem_cons_self _ _), hds2 x2 (List.mem_cons_self _ _),
        by simp [List.append_assoc]⟩

theorem appdMatchString_shape {s : String} (h : appdMatchString s = true) :
    AppdLinkShape s.data :=
  appdLinkForm_shape ((appdMatch_iff_form s.data).mp h)

theorem mem_payloadTargets_appd {d : DataLinkResourceData} {t : Target}
    (ht : t ∈ payloadTargets d) (hty : t.Type_ = APPD_LINK) :
    ∃ tfLink ∈ d.target_appd_url.elems, t = appdTarget tfLink := by
  simp only [payloadTargets, List.mem_append, List.mem_map, List.mem_filter] at ht
  rcases ht with ((⟨e, _, rfl⟩ | ⟨e, _, rfl⟩) | ⟨e, he, rfl⟩) | ⟨e, _, rfl⟩
  · exact absurd hty (by simp [sfxDashboardTarget, SfxDashboardElem.lookupOther,
      INTERNAL_LINK, APPD_LINK])
  · exact absurd hty (by simp [splunkTarget, SPLUNK_LINK, APPD_LINK])
  · exact ⟨e, he, rfl⟩
  · exact absurd hty (by simp [externalTarget, EXTERNAL_LINK, APPD_LINK])

/-! ## Claims about `getPayloadDataLink` -/

/-- C1: with an empty `property_name`, a non-empty `property_value` makes
`getPayloadDataLink` fail with the property-value message; with both empty, a non-empty
`target_signalfx_dashboard` makes it fail with the dashboard message; and with both empty
and no dashboard target the outcome is decided by the other target kinds alone: the AppD
check, the no-target check, or success. -/
theorem getPayloadDataLink_property_name_required (d : DataLinkResourceData) :
    (d.property_name = "" → d.property_value ≠ "" →
      getPayloadDataLink d =
        Except.error "Must supply a property_name when supplying a property_value") ∧
    (d.property_name = "" → d.property_value = "" →
      d.target_signalfx_dashboard.elems ≠ [] →
      getPayloadDataLink d =
        Except.error "Must supply a property_name when using target_signalfx_dashboard") ∧
    (d.property_name = "" → d.property_value = "" →
      d.target_signalfx_dashboard.elems = [] →
      getPayloadDataLink d =
        if ¬ d.target_appd_url.elems.all (fun tfLink => appdMatchString tfLink.url) then
          Except.error errAppdLink
        else if payloadTargets d = [] then Except.error errNoTargets
        else Except.ok
          { ContextId := d.context_dashboard_id, PropertyName := "", PropertyValue := "",
            Targets := payloadTargets d }) := by
  refine ⟨?_, ?_, ?_⟩
  · intro hn hv
    rw [getPayloadDataLink_eq, if_pos ⟨hv, hn⟩]
    rfl
  · intro hn hv hs
    rw [getPayloadDataLink_eq, if_neg (fun h => h.1 hv), if_pos ⟨hs, hn⟩]
    rfl
  · intro hn hv hs
    rw [getPayloadDataLink_eq, if_neg (fun h => h.1 hv), if_neg (fun h => h.1 hs), hn, hv]

theorem getPayloadDataLink_property_name_required_witness :
    getPayloadDataLink sampleValueWithoutName =
      Except.error "Must supply a property_name when supplying a property_value" ∧
    getPayloadDataLink sampleDashboardWithoutName =
      Except.error "Must supply a property_name when using target_signalfx_dashboard" ∧
    getPayloadDataLink sampleSplunkOnly =
      Except.ok { Targets := [splunkTarget sampleSplunkElem] } :=
  ⟨(getPayloadDataLink_property_name_required sampleValueWithoutName).1 rfl (by decide),
   (getPayloadDataLink_property_name_required sampleDashboardWithoutName).2.1 rfl rfl
     (by decide),
   ((getPayloadDataLink_property_name_required sampleSplunkOnly).2.2 rfl rfl rfl).trans
     (by rfl)⟩

/-- C2: a payload that `getPayloadDataLink` returns without error has at least one
target; and when the property checks pass and nothing is collected (no dashboard, Splunk
or AppD element, and only unnamed external URL elements) the no-target error is
returned. -/
theorem getPayloadDataLink_needs_target (d : DataLinkResourceData) :
    (∀ p, getPayloadDataLink d = Except.ok p → p.Targets ≠ []) ∧
    ((d.property_value ≠ "" → d.property_name ≠ "") →
      d.target_signalfx_dashboard.elems = [] → d.target_splunk.elems = [] →
      d.target_appd_url.elems = [] →
      (∀ tfLink ∈ d.target_external_url.elems, tfLink.name = "") →
      getPayloadDataLink d = Except.error
        "You must provide one or more of `target_signalfx_dashboard`, `target_external_url`, `target_appd_url` or `target_splunk`") := by
  constructor
  · intro p h
    obtain ⟨_, _, _, hne, rfl⟩ := getPayloadDataLink_ok h
    exact hne
  · intro hv hs hsp ha he
    have hfilter : d.target_external_url.elems.filter (fun tfLink => tfLink.name ≠ "") = [] := by
      simpa [List.filter_eq_nil_iff] using he
    have hT : payloadTargets d = [] := by
      unfold payloadTargets
      rw [hs, hsp, ha, hfilter]
      rfl
    rw [getPayloadDataLink_eq, if_neg (fun h => hv h.1 h.2), if_neg (fun h => h.1 hs),
      if_neg (by simp [ha]), if_pos hT]
    rfl

theorem getPayloadDataLink_needs_target_witness :
    (splunkTarget sampleSplunkElem :: []) ≠ [] ∧
    getPayloadDataLink sampleUnnamedExternal = Except.error
      "You must provide one or more of `target_signalfx_dashboard`, `target_external_url`, `target_appd_url` or `target_splunk`" :=
  ⟨(getPayloadDataLink_needs_target sampleSplunkOnly).1
      { Targets := [splunkTarget sampleSplunkElem] } (by rfl),
   (getPayloadDataLink_needs_target sampleUnnamedExternal).2 (by decide) rfl rfl rfl
      (by decide)⟩

/-- C5: when the property checks pass and some `target_appd_url` element has a URL that
the pattern rejects (in particular one that lacks the shape scheme, host label, AppD
domain, `application=` digit, `component=` digit), `getPayloadDataLink` returns the
AppD error; and in a payload returned without error every `APPD_LINK` target has a URL
that the pattern accepts and that has this shape. -/
theorem getPayloadDataLink_appd_validation (d : DataLinkResourceData) :
    (passesPropertyNameChecks d →
      (∃ tfLink ∈ d.target_appd_url.elems,
        appdMatchString tfLink.url = false ∨ ¬ AppdLinkShape tfLink.url.data) →
      getPayloadDataLink d = Except.error
        "enter a valid AppD Link. The link needs to include the contoller URL, application ID, and Application component") ∧
    (∀ p, getPayloadDataLink d = Except.ok p →
      ∀ t ∈ p.Targets, t.Type_ = APPD_LINK →
        appdMatchString t.URL = true ∧ AppdLinkShape t.URL.data) := by
  constructor
  · rintro ⟨hv, hs⟩ ⟨e, hmem, hbad⟩
    have hrej : appdMatchString e.url = false := by
      rcases hbad with h | h
      · exact h
      · cases hm : appdMatchString e.url with
        | false => rfl
        | true => exact absurd (appdMatchString_shape hm) h
    have hall : ¬ d.target_appd_url.elems.all (fun tfLink => appdMatchString tfLink.url)
        = true := by
      rw [List.all_eq_true]
      intro h
      have := h e hmem
      rw [hrej] at this
      cases this
    rw [getPayloadDataLink_eq, if_neg (fun h => hv h.1 h.2), if_neg (fun h => hs h.1 h.2),
      if_pos hall]
    rfl
  · intro p h t ht hty
    obtain ⟨_, _, hall, _, rfl⟩ := getPayloadDataLink_ok h
    obtain ⟨e, hmem, rfl⟩ := mem_payloadTargets_appd ht hty
    have hm : appdMatchString e.url = true := (List.all_eq_true.mp hall) e hmem
    exact ⟨hm, appdMatchString_shape hm⟩

theorem getPayloadDataLink_appd_validation_witness :
    getPayloadDataLink sampleAppdNoScheme = Except.error
      "enter a valid AppD Link. The link needs to include the contoller URL, application ID, and Application component" ∧
    (appdMatchString "https://a.saas.appdynamics.com/c?application=1&component=2" = true ∧
      AppdLinkShape "https://a.saas.appdynamics.com/c?application=1&component=2".data) :=
  ⟨(getPayloadDataLink_appd_validation sampleAppdNoScheme).1 ⟨by decide, by decide⟩
      ⟨⟨"appd", "a.saas.appdynamics.com/c?application=1&component=2"⟩,
        List.mem_singleton.mpr rfl, Or.inl (by decide)⟩,
   (getPayloadDataLink_appd_validation sampleAppd).2
      { Targets := [appdTarget
          ⟨"appd", "https://a.saas.appdynamics.com/c?application=1&component=2"⟩] }
      (by rfl) _ (List.mem_singleton.mpr rfl) rfl⟩

/-- C6, as stated, fails: a link with the host and with both `application=` and
`component=` digits, the component first, is rejected with the AppD error. -/
theorem appd_link_component_first_rejected :
    AppdLinkEitherOrder "https://a.saas.appdynamics.com/c?component=2&application=1".data ∧
    getPayloadDataLink sampleAppdComponentFirst = Except.error errAppdLink := by
  refine ⟨⟨"a".data, "c?component=2&application=1".data, by decide, by decide, by decide,
    ⟨"c?component=2&".data, "1".data, [], by decide, by decide, by decide⟩,
    ⟨"c?".data, "2".data, "&application=1".data, by decide, by decide, by decide⟩⟩, ?_⟩
  rfl

/-- C6, amended: when every `target_appd_url` element has a URL made of the scheme
`http://` or `https://`, a non-empty host label over `[a-zA-Z0-9-]`, the domain
`.saas.appdynamics.com/`, then `application=` with digits and after it `component=` with
digits, with no line feed before `component=`, then `getPayloadDataLink` does not return
the AppD error, and if the property checks pass and there is such an element it succeeds
with one AppD target for each element. -/
theorem getPayloadDataLink_accepts_appd_form (d : DataLinkResourceData)
    (h : ∀ tfLink ∈ d.target_appd_url.elems, AppdLinkForm tfLink.url.data) :
    getPayloadDataLink d ≠ Except.error errAppdLink ∧
    (passesPropertyNameChecks d → d.target_appd_url.elems ≠ [] →
      ∃ p, getPayloadDataLink d = Except.ok p ∧
        p.Targets.filter (fun t => t.Type_ = APPD_LINK) =
          d.target_appd_url.elems.map appdTarget) := by
  have hall : d.target_appd_url.elems.all (fun tfLink => appdMatchString tfLink.url)
      = true := by
    rw [List.all_eq_true]
    intro e hmem
    exact (appdMatch_iff_form e.url.data).mpr (h e hmem)
  constructor
  · rw [getPayloadDataLink_eq]
    split_ifs with h1 h2 h3
    · intro hc; exact absurd (Except.error.inj hc) (by decide)
    · intro hc; exact absurd (Except.error.inj hc) (by decide)
    · intro hc; exact absurd (Except.error.inj hc) (by decide)
    · intro hc; cases hc
  · rintro ⟨hv, hs⟩ hne
    have hT : payloadTargets d ≠ [] := by
      intro hnil
      simp only [payloadTargets, List.append_eq_nil, List.map_eq_nil_iff] at hnil
      exact hne hnil.1.2
    refine ⟨⟨d.context_dashboard_id, d.property_name, d.property_value, payloadTargets d⟩,
      ?_, ?_⟩
    · rw [getPayloadDataLink_eq, if_neg (fun h => hv h.1 h.2),
        if_neg (fun h => hs h.1 h.2), if_neg (not_not.mpr hall), if_neg hT]
    · simp only [payloadTargets, List.filter_append, List.filter_map]
      have e1 : (d.target_signalfx_dashboard.elems.filter
          ((fun t => decide (t.Type_ = APPD_LINK)) ∘ sfxDashboardTarget)) = [] := by
        rw [List.filter_eq_nil_iff]; intro e _; simp [sfxDashboardTarget,
          SfxDashboardElem.lookupOther, INTERNAL_LINK, APPD_LINK]
      have e2 : (d.target_splunk.elems.filter
          ((fun t => decide (t.Type_ = APPD_LINK)) ∘ splunkTarget)) = [] := by
        rw [List.filter_eq_nil_iff]; intro e _; simp [splunkTarget, SPLUNK_LINK, APPD_LINK]
      have e3 : (d.target_appd_url.elems.filter
          ((fun t => decide (t.Type_ = APPD_LINK)) ∘ appdTarget)) =
          d.target_appd_url.elems := by
        rw [List.filter_eq_self]; intro e _; simp [appdTarget]
      have e4 : ((d.target_external_url.elems.filter (fun tfLink => tfLink.name ≠ "")).filter
          ((fun t => decide (t.Type_ = APPD_LINK)) ∘ externalTarget)) = [] := by
        rw [List.filter_eq_nil_iff]; intro e _; simp [externalTarget, EXTERNAL_LINK, APPD_LINK]
      rw [e1, e2, e3, e4]
      simp

theorem getPayloadDataLink_accepts_appd_form_witness :
    getPayloadDataLink sampleAppd ≠ Except.error errAppdLink ∧
    ∃ p, getPayloadDataLink sampleAppd = Except.ok p ∧
      p.Targets.filter (fun t => t.Type_ = APPD_LINK) =
        sampleAppd.target_appd_url.elems.map appdTarget :=
  have hform : ∀ tfLink ∈ sampleAppd.target_appd_url.elems, AppdLinkForm tfLink.url.data :=
    fun tfLink hmem => by
      rw [List.mem_singleton.mp hmem]
      exact (appdMatch_iff_form _).mp (by decide)
  ⟨(getPayloadDataLink_accepts_appd_form sampleAppd hform).1,
   (getPayloadDataLink_accepts_appd_form sampleAppd hform).2 ⟨by decide, by decide⟩
     (by decide)⟩

/-- C7: a payload returned by `getPayloadDataLink` has no `EXTERNAL_LINK` target with an
empty name, and its `EXTERNAL_LINK` targets are, one for one and in order, the targets
built from the `target_external_url` elements that have a name. -/
theorem getPayloadDataLink_external_targets (d : DataLinkResourceData)
    (p : CreateUpdateDataLinkRequest) (h : getPayloadDataLink d = Except.ok p) :
    (∀ t ∈ p.Targets, t.Type_ = EXTERNAL_LINK → t.Name ≠ "") ∧
    p.Targets.filter (fun t => t.Type_ = EXTERNAL_LINK) =
      (d.target_external_url.elems.filter (fun tfLink => tfLink.name ≠ "")).map
        externalTarget := by
  obtain ⟨_, _, _, _, rfl⟩ := getPayloadDataLink_ok h
  constructor
  · intro t ht hty
    simp only [payloadTargets, List.mem_append, List.mem_map, List.mem_filter] at ht
    rcases ht with ((⟨e, _, rfl⟩ | ⟨e, _, rfl⟩) | ⟨e, he, rfl⟩) | ⟨e, he, rfl⟩
    · exact absurd hty (by simp [sfxDashboardTarget, SfxDashboardElem.lookupOther,
        INTERNAL_LINK, EXTERNAL_LINK])
    · exact absurd hty (by simp [splunkTarget, SPLUNK_LINK, EXTERNAL_LINK])
    · exact absurd hty (by simp [appdTarget, APPD_LINK, EXTERNAL_LINK])
    · simpa [externalTarget] using he.2
  · simp only [payloadTargets, List.filter_append, List.filter_map]
    have e1 : (d.target_signalfx_dashboard.elems.filter
        ((fun t => decide (t.Type_ = EXTERNAL_LINK)) ∘ sfxDashboardTarget)) = [] := by
      rw [List.filter_eq_nil_iff]; intro e _; simp [sfxDashboardTarget,
        SfxDashboardElem.lookupOther, INTERNAL_LINK, EXTERNAL_LINK]
    have e2 : (d.target_splunk.elems.filter
        ((fun t => decide (t.Type_ = EXTERNAL_LINK)) ∘ splunkTarget)) = [] := by
      rw [List.filter_eq_nil_iff]; intro e _; simp [splunkTarget, SPLUNK_LINK, EXTERNAL_LINK]
    have e3 : (d.target_appd_url.elems.filter
        ((fun t => decide (t.Type_ = EXTERNAL_LINK)) ∘ appdTarget)) = [] := by
      rw [List.filter_eq_nil_iff]; intro e _; simp [appdTarget, APPD_LINK, EXTERNAL_LINK]
    have e4 : ((d.target_external_url.elems.filter (fun tfLink => tfLink.name ≠ "")).filter
        ((fun t => decide (t.Type_ = EXTERNAL_LINK)) ∘ externalTarget)) =
        d.target_external_url.elems.filter (fun tfLink => tfLink.name ≠ "") := by
      rw [List.filter_eq_self]; intro e _; simp [externalTarget]
    rw [e1, e2, e3, e4]
    simp

theorem getPayloadDataLink_external_targets_witness :
    (∀ t ∈ [splunkTarget sampleSplunkElem, externalTarget sampleWikiElem],
      t.Type_ = EXTERNAL_LINK → t.Name ≠ "") ∧
    [splunkTarget sampleSplunkElem, externalTarget sampleWikiElem].filter
      (fun t => t.Type_ = EXTERNAL_LINK) =
      (sampleMixedExternal.target_external_url.elems.filter
        (fun tfLink => tfLink.name ≠ "")).map externalTarget :=
  getPayloadDataLink_external_targets sampleMixedExternal
    { PropertyName := "host",
      Targets := [splunkTarget sampleSplunkElem, externalTarget sampleWikiElem] } (by rfl)

/-! ## Claims about `dataLinkAPIToTF` -/

theorem classifyTargets_append (l1 l2 : List Target) (acc : LinkSlices) :
    classifyTargets (l1 ++ l2) acc =
      match classifyTargets l1 acc with
      | .error err => .error err
      | .ok links => classifyTargets l2 links := by
  induction l1 generalizing acc with
  | nil => simp [classifyTargets]
  | cons t rest ih =>
    simp only [List.cons_append, classifyTargets]
    split_ifs <;> first | exact ih _ | rfl

theorem classifyTargets_sfx (l : List SfxDashboardElem) (acc : LinkSlices) :
    classifyTargets (l.map sfxDashboardTarget) acc =
      .ok { acc with internalLinks := acc.internalLinks ++ l } := by
  induction l generalizing acc with
  | nil => simp [classifyTargets]
  | cons e rest ih =>
    simp only [List.map_cons, classifyTargets]
    rw [if_pos (by simp [sfxDashboardTarget, SfxDashboardElem.lookupOther])]
    rw [ih]
    simp [sfxDashboardTarget, SfxDashboardElem.lookupOther]

theorem classifyTargets_splunk (l : List SplunkElem) (acc : LinkSlices) :
    classifyTargets (l.map splunkTarget) acc =
      .ok { acc with splunkLinks := acc.splunkLinks ++ l } := by
  induction l generalizing acc with
  | nil => simp [classifyTargets]
  | cons e rest ih =>
    simp only [List.map_cons, classifyTargets]
    rw [if_neg (by simp [splunkTarget, SPLUNK_LINK, INTERNAL_LINK]),
      if_neg (by simp [splunkTarget, SPLUNK_LINK, EXTERNAL_LINK]),
      if_pos (by simp [splunkTarget])]
    rw [ih]
    simp [splunkTarget, mapFieldValue, GoMap.copy_eq]

theorem classifyTargets_appd (l : List AppdURLElem) (acc : LinkSlices) :
    classifyTargets (l.map appdTarget) acc =
      .ok { acc with appdLinks := acc.appdLinks ++ l } := by
  induction l generalizing acc with
  | nil => simp [classifyTargets]
  | cons e rest ih =>
    simp only [List.map_cons, classifyTargets]
    rw [if_neg (by simp [appdTarget, APPD_LINK, INTERNAL_LINK]),
      if_neg (by simp [appdTarget, APPD_LINK, EXTERNAL_LINK]),
      if_neg (by simp [appdTarget, APPD_LINK, SPLUNK_LINK]),
      if_pos (by simp [appdTarget])]
    rw [ih]
    simp [appdTarget]

theorem classifyTargets_external (l : List ExternalURLElem) (acc : LinkSlices) :
    classifyTargets (l.map externalTarget) acc =
      .ok { acc with externalLinks := acc.externalLinks ++ l.map storedExternalElem } := by
  induction l generalizing acc with
  | nil => simp [classifyTargets]
  | cons e rest ih =>
    simp only [List.map_cons, classifyTargets]
    rw [if_neg (by simp [externalTarget, EXTERNAL_LINK, INTERNAL_LINK]),
      if_pos (by simp [externalTarget])]
    rw [ih]
    simp [externalTarget, storedExternalElem, mapFieldValue, GoMap.copy_eq]

theorem classifyTargets_known (l : List Target) (acc : LinkSlices)
    (h : ∀ t ∈ l, knownLinkType t.Type_ = true) :
    ∃ links, classifyTargets l acc = .ok links := by
  induction l generalizing acc with
  | nil => exact ⟨acc, rfl⟩
  | cons t rest ih =>
    have ht := h t (List.mem_cons_self t rest)
    have hrest : ∀ u ∈ rest, knownLinkType u.Type_ = true :=
      fun u hu => h u (List.mem_cons_of_mem t hu)
    simp only [knownLinkType, Bool.or_eq_true, decide_eq_true_eq] at ht
    simp only [classifyTargets]
    split_ifs with h1 h2 h3 h4
    · exact ih _ hrest
    · exact ih _ hrest
    · exact ih _ hrest
    · exact ih _ hrest
    · rcases ht with ((ht | ht) | ht) | ht
      · exact absurd ht h1
      · exact absurd ht h2
      · exact absurd ht h3
      · exact absurd ht h4

theorem classifyTargets_unknown (l : List Target) (acc : LinkSlices)
    (h : ∃ t ∈ l, knownLinkType t.Type_ = false) :
    ∃ u ∈ l, knownLinkType u.Type_ = false ∧
      classifyTargets l acc = .error ("Unknown link type: " ++ u.Type_) := by
  induction l generalizing acc with
  | nil => obtain ⟨t, ht, _⟩ := h; cases ht
  | cons t rest ih =>
    by_cases hk : knownLinkType t.Type_ = true
    · have hex : ∃ u ∈ rest, knownLinkType u.Type_ = false := by
        obtain ⟨u, hu, hun⟩ := h
        rcases List.mem_cons.mp hu with rfl | hu
        · rw [hk] at hun; cases hun
        · exact ⟨u, hu, hun⟩
      have step : ∀ acc, ∃ acc2, classifyTargets (t :: rest) acc = classifyTargets rest acc2 := by
        intro acc
        have hk2 := hk
        simp only [knownLinkType, Bool.or_eq_true, decide_eq_true_eq] at hk2
        simp only [classifyTargets]
        split_ifs with h1 h2 h3 h4
        · exact ⟨_, rfl⟩
        · exact ⟨_, rfl⟩
        · exact ⟨_, rfl⟩
        · exact ⟨_, rfl⟩
        · rcases hk2 with ((ht | ht) | ht) | ht
          · exact absurd ht h1
          · exact absurd ht h2
          · exact absurd ht h3
          · exact absurd ht h4
      obtain ⟨acc2, hacc2⟩ := step acc
      obtain ⟨u, hu, hun, hres⟩ := ih acc2 hex
      exact ⟨u, List.mem_cons_of_mem t hu, hun, hacc2.trans hres⟩
    · have hk2 : knownLinkType t.Type_ = false := by
        cases hb : knownLinkType t.Type_ with
        | false => rfl
        | true => exact absurd hb hk
      refine ⟨t, List.mem_cons_self t rest, hk2, ?_⟩
      simp only [knownLinkType, Bool.or_eq_false_iff, decide_eq_false_iff_not] at hk2
      simp only [classifyTargets]
      rw [if_neg hk2.1.1.1, if_neg hk2.1.1.2, if_neg hk2.1.2, if_neg hk2.2]

/-- The state that `dataLinkAPIToTF` leaves behind when no write fails and the targets
are classified into `links`. -/
theorem dataLinkAPIToTF_eq (ord : HashOrder) (setErr : SetErrors) (d : DataLinkResourceData)
    (dl : DataLink) (links : LinkSlices) (hset : ∀ key, setErr key = none)
    (hcl : classifyTargets dl.Targets {} = .ok links) :
    dataLinkAPIToTF ord setErr d dl =
      ({ property_name := dl.PropertyName
         property_value := dl.PropertyValue
         context_dashboard_id := dl.ContextId
         target_signalfx_dashboard :=
           if links.internalLinks.length > 0 then SchemaSet.ofSlice ord links.internalLinks
           else d.target_signalfx_dashboard
         target_external_url :=
           if links.externalLinks.length > 0 then SchemaSet.ofSlice ord links.externalLinks
           else d.target_external_url
         target_splunk :=
           if links.splunkLinks.length > 0 then SchemaSet.ofSlice ord links.splunkLinks
           else d.target_splunk
         target_appd_url :=
           if links.appdLinks.length > 0 then SchemaSet.ofSlice ord links.appdLinks
           else d.target_appd_url }, none) := by
  unfold dataLinkAPIToTF
  simp only [hset, hcl]
  split_ifs <;> rfl

/-- C4, as stated, fails: for a data link with a target of a type other than the four
known ones `dataLinkAPIToTF` returns an error although every write succeeds. -/
theorem dataLinkAPIToTF_unknown_type_error :
    (dataLinkAPIToTF sliceOrder noSetErrors {}
      { Targets := [{ Name := "pager", Type_ := "PAGERDUTY_LINK" }] }).2 =
      some "Unknown link type: PAGERDUTY_LINK" := by
  rfl

/-- C4, amended: when every write succeeds, `dataLinkAPIToTF` returns nil for every data
link whose targets all have one of the four known link types, and for a data link with a
target of another type it returns the error `Unknown link type: ` followed by the type
of such a target. -/
theorem dataLinkAPIToTF_no_error (ord : HashOrder) (setErr : SetErrors)
    (d : DataLinkResourceData) (dl : DataLink) (hset : ∀ key, setErr key = none) :
    ((∀ t ∈ dl.Targets, knownLinkType t.Type_ = true) →
      (dataLinkAPIToTF ord setErr d dl).2 = none) ∧
    ((∃ t ∈ dl.Targets, knownLinkType t.Type_ = false) →
      ∃ u ∈ dl.Targets, knownLinkType u.Type_ = false ∧
        (dataLinkAPIToTF ord setErr d dl).2 = some ("Unknown link type: " ++ u.Type_)) := by
  constructor
  · intro hk
    obtain ⟨links, hcl⟩ := classifyTargets_known dl.Targets {} hk
    rw [dataLinkAPIToTF_eq ord setErr d dl links hset hcl]
  · intro hu
    obtain ⟨u, hu, hun, hres⟩ := classifyTargets_unknown dl.Targets {} hu
    refine ⟨u, hu, hun, ?_⟩
    unfold dataLinkAPIToTF
    simp only [hset, hres]

theorem dataLinkAPIToTF_no_error_witness :
    (dataLinkAPIToTF reverseOrder noSetErrors sampleSplunkOnly
      { Targets := [externalTarget sampleWikiElem, splunkTarget sampleSplunkElem] }).2 =
      none :=
  (dataLinkAPIToTF_no_error reverseOrder noSetErrors sampleSplunkOnly
    { Targets := [externalTarget sampleWikiElem, splunkTarget sampleSplunkElem] }
    (fun _ => rfl)).1 (by decide)

theorem storedSet_perm {α : Type} [DecidableEq α] (ord : HashOrder) (s : SchemaSet α) :
    (if s.elems.length > 0 then SchemaSet.ofSlice ord s.elems else s).elems.Perm s.elems := by
  split_ifs
  · show (ord.arrange s.elems.dedup).Perm s.elems
    have hd : s.elems.dedup = s.elems := List.dedup_eq_self.mpr s.nodup
    rw [hd]
    exact ord.perm s.elems
  · exact List.Perm.refl _

theorem externalTimeFormat_idem (f : String) :
    externalTimeFormat (externalTimeFormat f) = externalTimeFormat f := by
  unfold externalTimeFormat
  split_ifs <;> first | rfl | simp_all [Epoch, EpochSeconds, ISO8601]

theorem externalTimeFormat_valid {f : String} (h : validTimeFormat f = true) :
    externalTimeFormat f = f := by
  simp only [validTimeFormat, List.contains_cons, List.contains_nil, Bool.or_false,
    Bool.or_eq_true, beq_iff_eq] at h
  unfold externalTimeFormat
  rcases h with h | h | h
  · subst h; decide
  · subst h; decide
  · subst h; decide

theorem externalTarget_stored (e : ExternalURLElem) :
    externalTarget (storedExternalElem e) = externalTarget e := by
  simp [externalTarget, storedExternalElem, externalTimeFormat_idem]

theorem storedExternalElem_valid {e : ExternalURLElem}
    (h : validTimeFormat e.time_format = true) : storedExternalElem e = e := by
  cases e
  simp only [storedExternalElem] at *
  rw [externalTimeFormat_valid h]

theorem storedExternal_targets (ord : HashOrder) (s : SchemaSet ExternalURLElem) :
    let named := s.elems.filter (fun tfLink => tfLink.name ≠ "")
    let slice := named.map storedExternalElem
    let s2 := if slice.length > 0 then SchemaSet.ofSlice ord slice else s
    (∀ t, t ∈ namedExternalTargets s2 ↔ t ∈ namedExternalTargets s) ∧
    ((∀ tfLink ∈ s.elems, tfLink.name ≠ "" → validTimeFormat tfLink.time_format = true) →
      (namedExternalTargets s2).Perm (namedExternalTargets s)) := by
  intro named slice s2
  by_cases hlen : slice.length > 0
  · have hs2 : s2.elems = ord.arrange slice.dedup := by
      show (if slice.length > 0 then SchemaSet.ofSlice ord slice else s).elems = _
      rw [if_pos hlen]; rfl
    have hmem : ∀ x, x ∈ s2.elems ↔ x ∈ slice := by
      intro x
      rw [hs2, (ord.perm slice.dedup).mem_iff, List.mem_dedup]
    have hnamed : ∀ x ∈ s2.elems, x.name ≠ "" := by
      intro x hx
      rw [hmem] at hx
      obtain ⟨e, he, rfl⟩ := List.mem_map.mp hx
      have := (List.mem_filter.mp he).2
      simpa [storedExternalElem] using this
    have hfilter : s2.elems.filter (fun tfLink => tfLink.name ≠ "") = s2.elems := by
      rw [List.filter_eq_self]
      intro x hx
      simpa using hnamed x hx
    constructor
    · intro t
      unfold namedExternalTargets
      rw [hfilter]
      simp only [List.mem_map]
      constructor
      · rintro ⟨x, hx, rfl⟩
        rw [hmem] at hx
        obtain ⟨e, he, rfl⟩ := List.mem_map.mp hx
        exact ⟨e, he, (externalTarget_stored e).symm⟩
      · rintro ⟨e, he, rfl⟩
        exact ⟨storedExternalElem e, (hmem _).mpr (List.mem_map.mpr ⟨e, he, rfl⟩),
          externalTarget_stored e⟩
    · intro hvalid
      have hslice : slice = named := by
        show named.map storedExternalElem = named
        conv_rhs => rw [← List.map_id named]
        apply List.map_congr_left
        intro e he
        have h2 := List.mem_filter.mp he
        exact storedExternalElem_valid (hvalid e h2.1 (by simpa using h2.2))
      have hnodup : named.Nodup := s.nodup.filter _
      unfold namedExternalTargets
      rw [hfilter, hs2, hslice, List.dedup_eq_self.mpr hnodup]
      exact (ord.perm named).map externalTarget
  · have hs2 : s2 = s := by
      show (if slice.length > 0 then SchemaSet.ofSlice ord slice else s) = s
      rw [if_neg hlen]
    rw [hs2]
    exact ⟨fun _ => Iff.rfl, fun _ => List.Perm.refl _⟩

theorem payloadTargets_eq (d : DataLinkResourceData) :
    payloadTargets d =
      d.target_signalfx_dashboard.elems.map sfxDashboardTarget ++
      d.target_splunk.elems.map splunkTarget ++
      d.target_appd_url.elems.map appdTarget ++
      namedExternalTargets d.target_external_url := rfl

theorem classifyTargets_payload (d : DataLinkResourceData) :
    classifyTargets (payloadTargets d) {} = .ok
      { internalLinks := d.target_signalfx_dashboard.elems
        externalLinks := (d.target_external_url.elems.filter
          (fun tfLink => tfLink.name ≠ "")).map storedExternalElem
        splunkLinks := d.target_splunk.elems
        appdLinks := d.target_appd_url.elems } := by
  unfold payloadTargets
  rw [classifyTargets_append, classifyTargets_append, classifyTargets_append,
    classifyTargets_sfx]
  simp only []
  rw [classifyTargets_splunk]
  simp only []
  rw [classifyTargets_appd]
  simp only []
  rw [classifyTargets_external]
  simp

/-- The payload of a state related to `d` as the written-back state is: same strings,
rearranged sets, and external URL elements with the same named targets. -/
theorem getPayloadDataLink_related (d d2 : DataLinkResourceData)
    (p : CreateUpdateDataLinkRequest) (h : getPayloadDataLink d = Except.ok p)
    (hpn : d2.property_name = d.property_name)
    (hpv : d2.property_value = d.property_value)
    (hctx : d2.context_dashboard_id = d.context_dashboard_id)
    (hsfx : d2.target_signalfx_dashboard.elems.Perm d.target_signalfx_dashboard.elems)
    (hspl : d2.target_splunk.elems.Perm d.target_splunk.elems)
    (happd : d2.target_appd_url.elems.Perm d.target_appd_url.elems)
    (hmem : ∀ t, t ∈ namedExternalTargets d2.target_external_url ↔
      t ∈ namedExternalTargets d.target_external_url) :
    ∃ p2, getPayloadDataLink d2 = Except.ok p2 ∧
      p2.PropertyName = p.PropertyName ∧ p2.PropertyValue = p.PropertyValue ∧
      p2.ContextId = p.ContextId ∧
      (∀ t, t ∈ p2.Targets ↔ t ∈ p.Targets) ∧
      ((namedExternalTargets d2.target_external_url).Perm
          (namedExternalTargets d.target_external_url) →
        p2.Targets.Perm p.Targets) := by
  obtain ⟨h1, h2, hall, hne, rfl⟩ := getPayloadDataLink_ok h
  have hT : ∀ t, t ∈ payloadTargets d2 ↔ t ∈ payloadTargets d := by
    intro t
    rw [payloadTargets_eq, payloadTargets_eq]
    simp only [List.mem_append, hmem t, (hsfx.map sfxDashboardTarget).mem_iff,
      (hspl.map splunkTarget).mem_iff, (happd.map appdTarget).mem_iff]
  have c1 : ¬ (d2.property_value ≠ "" ∧ d2.property_name = "") := by
    rw [hpn, hpv]; exact h1
  have c2 : ¬ (d2.target_signalfx_dashboard.elems ≠ [] ∧ d2.property_name = "") := by
    rw [hpn]
    rintro ⟨hx, hy⟩
    refine h2 ⟨?_, hy⟩
    intro hnil
    rw [hnil] at hsfx
    exact hx hsfx.eq_nil
  have c3 : d2.target_appd_url.elems.all (fun tfLink => appdMatchString tfLink.url) = true := by
    rw [List.all_eq_true] at hall ⊢
    intro x hx
    exact hall x (happd.mem_iff.mp hx)
  have c4 : payloadTargets d2 ≠ [] := by
    obtain ⟨t, ht⟩ := List.exists_mem_of_ne_nil _ hne
    exact List.ne_nil_of_mem ((hT t).mpr ht)
  refine ⟨⟨d2.context_dashboard_id, d2.property_name, d2.property_value, payloadTargets d2⟩,
    ?_, hpn, hpv, hctx, hT, ?_⟩
  · rw [getPayloadDataLink_eq, if_neg c1, if_neg c2, if_neg (not_not.mpr c3), if_neg c4]
  · intro hperm
    show (payloadTargets d2).Perm (payloadTargets d)
    rw [payloadTargets_eq, payloadTargets_eq]
    exact (((hsfx.map _).append (hspl.map _)).append (happd.map _)).append hperm

/-- The external URL elements that `dataLinkAPIToTF` stores build the targets of the
named elements they come from, once each, when these targets are pairwise different. -/
theorem storedExternal_perm (ord : HashOrder) (s : SchemaSet ExternalURLElem)
    (hdistinct : (namedExternalTargets s).Nodup) :
    (namedExternalTargets (SchemaSet.ofSlice ord
      ((s.elems.filter (fun tfLink => tfLink.name ≠ "")).map storedExternalElem))).Perm
      (namedExternalTargets s) := by
  have hmap : ((s.elems.filter (fun tfLink => tfLink.name ≠ "")).map
      storedExternalElem).map externalTarget = namedExternalTargets s := by
    unfold namedExternalTargets
    rw [List.map_map]
    apply List.map_congr_left
    intro e _
    exact externalTarget_stored e
  have hnodup : ((s.elems.filter (fun tfLink => tfLink.name ≠ "")).map
      storedExternalElem).Nodup := by
    apply List.Nodup.of_map externalTarget
    rw [hmap]
    exact hdistinct
  have helems : (SchemaSet.ofSlice ord ((s.elems.filter
      (fun tfLink => tfLink.name ≠ "")).map storedExternalElem)).elems =
      ord.arrange ((s.elems.filter (fun tfLink => tfLink.name ≠ "")).map
        storedExternalElem) := by
    show ord.arrange (List.dedup _) = _
    rw [List.dedup_eq_self.mpr hnodup]
  have hfilter : (ord.arrange ((s.elems.filter (fun tfLink => tfLink.name ≠ "")).map
      storedExternalElem)).filter (fun tfLink => tfLink.name ≠ "") =
      ord.arrange ((s.elems.filter (fun tfLink => tfLink.name ≠ "")).map
        storedExternalElem) := by
    rw [List.filter_eq_self]
    intro x hx
    rw [(ord.perm _).mem_iff] at hx
    obtain ⟨e, he, rfl⟩ := List.mem_map.mp hx
    have := (List.mem_filter.mp he).2
    simpa [storedExternalElem] using this
  have hperm : (namedExternalTargets (SchemaSet.ofSlice ord ((s.elems.filter
      (fun tfLink => tfLink.name ≠ "")).map storedExternalElem))).Perm
      (((s.elems.filter (fun tfLink => tfLink.name ≠ "")).map storedExternalElem).map
        externalTarget) := by
    unfold namedExternalTargets
    rw [helems, hfilter]
    exact (ord.perm _).map externalTarget
  rw [hmap] at hperm
  exact hperm

/-- The named external URL elements of a state that passes the schema's `time_format`
check build pairwise different targets. -/
theorem timeFormatsValid_distinct (d : DataLinkResourceData) (hvalid : timeFormatsValid d) :
    (namedExternalTargets d.target_external_url).Nodup := by
  unfold namedExternalTargets
  refine List.Nodup.map_on ?_ (d.target_external_url.nodup.filter _)
  intro x hx y hy hxy
  have hx2 := List.mem_filter.mp hx
  have hy2 := List.mem_filter.mp hy
  have vx := storedExternalElem_valid (hvalid x hx2.1 (by simpa using hx2.2))
  have vy := storedExternalElem_valid (hvalid y hy2.1 (by simpa using hy2.2))
  have h1 : x.name = y.name := congrArg Target.Name hxy
  have h2 : x.minimum_time_window = y.minimum_time_window :=
    congrArg Target.MinimumTimeWindow hxy
  have h3 : x.url = y.url := congrArg Target.URL hxy
  have h4 : externalTimeFormat x.time_format = externalTimeFormat y.time_format :=
    congrArg Target.TimeFormat hxy
  have h5 : some x.property_key_mapping.copy = some y.property_key_mapping.copy :=
    congrArg Target.PropertyKeyMapping hxy
  rw [GoMap.copy_eq, GoMap.copy_eq] at h5
  have h6 := Option.some.inj h5
  have h7 : (storedExternalElem x).time_format = (storedExternalElem y).time_format := h4
  rw [vx, vy] at h7
  cases x
  cases y
  simp only [ExternalURLElem.mk.injEq]
  exact ⟨h1, h7, h3, h6, h2⟩

/-- The kinds of the targets of a state: a kind without elements has no target. -/
theorem payloadTargets_kinds (d : DataLinkResourceData) :
    (d.target_signalfx_dashboard.elems = [] →
      ∀ t ∈ payloadTargets d, t.Type_ ≠ INTERNAL_LINK) ∧
    (d.target_splunk.elems = [] → ∀ t ∈ payloadTargets d, t.Type_ ≠ SPLUNK_LINK) ∧
    (d.target_appd_url.elems = [] → ∀ t ∈ payloadTargets d, t.Type_ ≠ APPD_LINK) ∧
    (namedExternalTargets d.target_external_url = [] →
      ∀ t ∈ payloadTargets d, t.Type_ ≠ EXTERNAL_LINK) := by
  refine ⟨?_, ?_, ?_, ?_⟩
  · intro hnil t ht
    rw [payloadTargets_eq, hnil] at ht
    simp only [List.map_nil, List.nil_append, List.mem_append, List.mem_map,
      namedExternalTargets] at ht
    rcases ht with (⟨e, _, rfl⟩ | ⟨e, _, rfl⟩) | ⟨e, _, rfl⟩
    · simp [splunkTarget, SPLUNK_LINK, INTERNAL_LINK]
    · simp [appdTarget, APPD_LINK, INTERNAL_LINK]
    · simp [externalTarget, EXTERNAL_LINK, INTERNAL_LINK]
  · intro hnil t ht
    rw [payloadTargets_eq, hnil] at ht
    simp only [List.map_nil, List.append_nil, List.mem_append, List.mem_map,
      namedExternalTargets] at ht
    rcases ht with (⟨e, _, rfl⟩ | ⟨e, _, rfl⟩) | ⟨e, _, rfl⟩
    · simp [sfxDashboardTarget, SfxDashboardElem.lookupOther, SPLUNK_LINK, INTERNAL_LINK]
    · simp [appdTarget, APPD_LINK, SPLUNK_LINK]
    · simp [externalTarget, EXTERNAL_LINK, SPLUNK_LINK]
  · intro hnil t ht
    rw [payloadTargets_eq, hnil] at ht
    simp only [List.map_nil, List.append_nil, List.mem_append, List.mem_map,
      namedExternalTargets] at ht
    rcases ht with (⟨e, _, rfl⟩ | ⟨e, _, rfl⟩) | ⟨e, _, rfl⟩
    · simp [sfxDashboardTarget, SfxDashboardElem.lookupOther, APPD_LINK, INTERNAL_LINK]
    · simp [splunkTarget, APPD_LINK, SPLUNK_LINK]
    · simp [externalTarget, EXTERNAL_LINK, APPD_LINK]
  · intro hnil t ht
    rw [payloadTargets_eq, hnil] at ht
    simp only [List.append_nil, List.mem_append, List.mem_map] at ht
    rcases ht with (⟨e, _, rfl⟩ | ⟨e, _, rfl⟩) | ⟨e, _, rfl⟩
    · simp [sfxDashboardTarget, SfxDashboardElem.lookupOther, EXTERNAL_LINK, INTERNAL_LINK]
    · simp [splunkTarget, EXTERNAL_LINK, SPLUNK_LINK]
    · simp [appdTarget, APPD_LINK, EXTERNAL_LINK]

/-- A new state holds no stale targets, and neither does the state a payload came
from. -/
theorem noStaleTargets_new_and_own (d : DataLinkResourceData)
    (p : CreateUpdateDataLinkRequest) (h : getPayloadDataLink d = Except.ok p) :
    noStaleTargets {} p ∧ noStaleTargets d p := by
  obtain ⟨_, _, _, _, rfl⟩ := getPayloadDataLink_ok h
  refine ⟨⟨fun _ => rfl, fun _ => rfl, fun _ => rfl, fun _ e he => by cases he⟩, ?_, ?_, ?_, ?_⟩
  · intro hno
    by_contra hne
    obtain ⟨e, he⟩ := List.exists_mem_of_ne_nil _ hne
    refine hno (sfxDashboardTarget e) ?_ (by simp [sfxDashboardTarget,
      SfxDashboardElem.lookupOther])
    show _ ∈ payloadTargets d
    rw [payloadTargets_eq]
    simp only [List.mem_append, List.mem_map]
    exact Or.inl (Or.inl (Or.inl ⟨e, he, rfl⟩))
  · intro hno
    by_contra hne
    obtain ⟨e, he⟩ := List.exists_mem_of_ne_nil _ hne
    refine hno (splunkTarget e) ?_ (by simp [splunkTarget])
    show _ ∈ payloadTargets d
    rw [payloadTargets_eq]
    simp only [List.mem_append, List.mem_map]
    exact Or.inl (Or.inl (Or.inr ⟨e, he, rfl⟩))
  · intro hno
    by_contra hne
    obtain ⟨e, he⟩ := List.exists_mem_of_ne_nil _ hne
    refine hno (appdTarget e) ?_ (by simp [appdTarget])
    show _ ∈ payloadTargets d
    rw [payloadTargets_eq]
    simp only [List.mem_append, List.mem_map]
    exact Or.inl (Or.inr ⟨e, he, rfl⟩)
  · intro hno e he
    by_contra hne
    refine hno (externalTarget e) ?_ (by simp [externalTarget])
    show _ ∈ payloadTargets d
    rw [payloadTargets_eq]
    simp only [List.mem_append, List.mem_map, namedExternalTargets, List.mem_filter]
    exact Or.inr ⟨e, ⟨he, by simpa using hne⟩, rfl⟩

/-- A target set after `dataLinkAPIToTF`: the written elements, or the old ones when
there was nothing to write and the state held none. -/
theorem writtenSet_perm {α : Type} [DecidableEq α] (ord : HashOrder) (s0 s : SchemaSet α)
    (hstale : s.elems = [] → s0.elems = []) :
    (if s.elems.length > 0 then SchemaSet.ofSlice ord s.elems else s0).elems.Perm
      s.elems := by
  split_ifs with hlen
  · show (ord.arrange s.elems.dedup).Perm s.elems
    rw [List.dedup_eq_self.mpr s.nodup]
    exact ord.perm s.elems
  · have hnil : s.elems = [] := List.length_eq_zero.mp (by omega)
    rw [hstale hnil, hnil]

/-- C3, as stated, fails: two named external URL elements that differ only in a time
format outside the schema's list build equal targets, which the written-back set holds
once, so a payload with two targets comes back with one, for the state the payload came
from and for a new state; and a payload with one AppD target, written into a state that
holds a Splunk target, comes back with both. -/
theorem dataLink_round_trip_fails :
    (getPayloadDataLink sampleUnlistedFormats).toOption.map
      (fun p => p.Targets.length) = some 2 ∧
    (getPayloadDataLink (dataLinkAPIToTF sliceOrder noSetErrors sampleUnlistedFormats
      (dataLinkOfRequest "dl1"
        ⟨"", "", "", payloadTargets sampleUnlistedFormats⟩)).1).toOption.map
      (fun p => p.Targets.length) = some 1 ∧
    (getPayloadDataLink (dataLinkAPIToTF sliceOrder noSetErrors {}
      (dataLinkOfRequest "dl1"
        ⟨"", "", "", payloadTargets sampleUnlistedFormats⟩)).1).toOption.map
      (fun p => p.Targets.length) = some 1 ∧
    (getPayloadDataLink sampleAppd).toOption.map
      (fun p => p.Targets.map (fun t => t.Name)) = some ["appd"] ∧
    (getPayloadDataLink (dataLinkAPIToTF sliceOrder noSetErrors sampleSplunkOnly
      (dataLinkOfRequest "dl1" ⟨"", "", "", payloadTargets sampleAppd⟩)).1).toOption.map
      (fun p => p.Targets.map (fun t => t.Name)) = some ["logs", "appd"] := by
  refine ⟨by rfl, by rfl, by rfl, by rfl, by rfl⟩

/-- C3, amended: when `getPayloadDataLink` succeeds on a state with payload `p` whose
named external URL elements build pairwise different targets, writing the data link that
carries `p` with `dataLinkAPIToTF`, every write succeeding, into a state that holds no
target of a kind that `p` has none of, succeeds, and `getPayloadDataLink` on the new
state succeeds with the same property name, property value and context id and with a
target list that is a rearrangement of the targets of `p`. -/
theorem dataLink_round_trip (ord : HashOrder) (setErr : SetErrors)
    (hset : ∀ key, setErr key = none) (id : String) (d0 d : DataLinkResourceData)
    (p : CreateUpdateDataLinkRequest) (h : getPayloadDataLink d = Except.ok p)
    (hdistinct : (namedExternalTargets d.target_external_url).Nodup)
    (hstale : noStaleTargets d0 p) :
    ∃ d2 p2, dataLinkAPIToTF ord setErr d0 (dataLinkOfRequest id p) = (d2, none) ∧
      getPayloadDataLink d2 = Except.ok p2 ∧
      p2.PropertyName = p.PropertyName ∧ p2.PropertyValue = p.PropertyValue ∧
      p2.ContextId = p.ContextId ∧
      p2.Targets.Perm p.Targets := by
  have hp := (getPayloadDataLink_ok h).2.2.2.2
  have hTargets : p.Targets = payloadTargets d := by rw [hp]
  obtain ⟨k1, k2, k3, k4⟩ := payloadTargets_kinds d
  rw [← hTargets] at k1 k2 k3 k4
  obtain ⟨s1, s2, s3, s4⟩ := hstale
  have hcl : classifyTargets (dataLinkOfRequest id p).Targets {} = .ok
      ⟨d.target_signalfx_dashboard.elems,
       (d.target_external_url.elems.filter (fun tfLink => tfLink.name ≠ "")).map
         storedExternalElem,
       d.target_splunk.elems, d.target_appd_url.elems⟩ := by
    show classifyTargets p.Targets {} = _
    rw [hTargets]
    exact classifyTargets_payload d
  have hstate : dataLinkAPIToTF ord setErr d0 (dataLinkOfRequest id p) =
      ((⟨p.PropertyName, p.PropertyValue, p.ContextId,
        if d.target_signalfx_dashboard.elems.length > 0 then
          SchemaSet.ofSlice ord d.target_signalfx_dashboard.elems
        else d0.target_signalfx_dashboard,
        if ((d.target_external_url.elems.filter (fun tfLink => tfLink.name ≠ "")).map
            storedExternalElem).length > 0 then
          SchemaSet.ofSlice ord ((d.target_external_url.elems.filter
            (fun tfLink => tfLink.name ≠ "")).map storedExternalElem)
        else d0.target_external_url,
        if d.target_splunk.elems.length > 0 then SchemaSet.ofSlice ord d.target_splunk.elems
        else d0.target_splunk,
        if d.target_appd_url.elems.length > 0 then
          SchemaSet.ofSlice ord d.target_appd_url.elems
        else d0.target_appd_url⟩ : DataLinkResourceData), none) :=
    dataLinkAPIToTF_eq ord setErr d0 (dataLinkOfRequest id p) _ hset hcl
  have hext : (namedExternalTargets
      (if ((d.target_external_url.elems.filter (fun tfLink => tfLink.name ≠ "")).map
          storedExternalElem).length > 0 then
        SchemaSet.ofSlice ord ((d.target_external_url.elems.filter
          (fun tfLink => tfLink.name ≠ "")).map storedExternalElem)
      else d0.target_external_url)).Perm
      (namedExternalTargets d.target_external_url) := by
    split_ifs with hlen
    · exact storedExternal_perm ord d.target_external_url hdistinct
    · have hnil : (d.target_external_url.elems.filter (fun tfLink => tfLink.name ≠ "")).map
          storedExternalElem = [] := List.length_eq_zero.mp (by omega)
      have hnamed : namedExternalTargets d.target_external_url = [] := by
        unfold namedExternalTargets
        rw [List.map_eq_nil_iff] at hnil ⊢
        exact hnil
      have hunnamed := s4 (k4 hnamed)
      have hold : namedExternalTargets d0.target_external_url = [] := by
        unfold namedExternalTargets
        rw [List.map_eq_nil_iff, List.filter_eq_nil_iff]
        intro e he
        simpa using hunnamed e he
      rw [hnamed, hold]
  obtain ⟨p2, hp2, e1, e2, e3, _, hperm⟩ := getPayloadDataLink_related d
    (dataLinkAPIToTF ord setErr d0 (dataLinkOfRequest id p)).1 p h
    (by rw [hstate]; show p.PropertyName = _; rw [hp])
    (by rw [hstate]; show p.PropertyValue = _; rw [hp])
    (by rw [hstate]; show p.ContextId = _; rw [hp])
    (by rw [hstate]
        exact writtenSet_perm ord d0.target_signalfx_dashboard d.target_signalfx_dashboard
          (fun hnil => s1 (k1 hnil)))
    (by rw [hstate]
        exact writtenSet_perm ord d0.target_splunk d.target_splunk
          (fun hnil => s2 (k2 hnil)))
    (by rw [hstate]
        exact writtenSet_perm ord d0.target_appd_url d.target_appd_url
          (fun hnil => s3 (k3 hnil)))
    (by rw [hstate]; exact fun t => hext.mem_iff)
  refine ⟨_, p2, Prod.ext rfl ?_, hp2, e1, e2, e3, hperm ?_⟩
  · rw [hstate]
  · rw [hstate]; exact hext

theorem dataLink_round_trip_witness :
    (∃ d2 p2, dataLinkAPIToTF reverseOrder noSetErrors {}
        (dataLinkOfRequest "dl1" sampleMixedPayload) = (d2, none) ∧
      getPayloadDataLink d2 = Except.ok p2 ∧
      p2.PropertyName = "host" ∧ p2.Targets.Perm sampleMixedPayload.Targets) ∧
    (∃ d2 p2, dataLinkAPIToTF reverseOrder noSetErrors sampleMixedExternal
        (dataLinkOfRequest "dl1" sampleMixedPayload) = (d2, none) ∧
      getPayloadDataLink d2 = Except.ok p2 ∧
      p2.PropertyName = "host" ∧ p2.Targets.Perm sampleMixedPayload.Targets) := by
  have hp : getPayloadDataLink sampleMixedExternal = Except.ok sampleMixedPayload := by rfl
  have hdistinct := timeFormatsValid_distinct sampleMixedExternal
    (by unfold timeFormatsValid; decide)
  have hstale := noStaleTargets_new_and_own sampleMixedExternal sampleMixedPayload hp
  obtain ⟨d2, p2, h1, h2, h3, _, _, h6⟩ :=
    dataLink_round_trip reverseOrder noSetErrors (fun _ => rfl) "dl1" {}
      sampleMixedExternal sampleMixedPayload hp hdistinct hstale.1
  obtain ⟨d3, p3, g1, g2, g3, _, _, g6⟩ :=
    dataLink_round_trip reverseOrder noSetErrors (fun _ => rfl) "dl1" sampleMixedExternal
      sampleMixedExternal sampleMixedPayload hp hdistinct hstale.2
  exact ⟨⟨d2, p2, h1, h2, h3, h6⟩, ⟨d3, p3, g1, g2, g3, g6⟩⟩

/-! ## Claims about the webhook integration -/

theorem stringsContains_iff (s sub : String) :
    stringsContains s sub = true ↔ ∃ a b : String, s = a ++ sub ++ b := by
  unfold stringsContains
  rw [List.any_eq_true]
  constructor
  · rintro ⟨t, ht, hp⟩
    rw [List.mem_tails] at ht
    rw [List.isPrefixOf_iff_prefix] at hp
    obtain ⟨a, ha⟩ := ht
    obtain ⟨b, hb⟩ := hp
    refine ⟨⟨a⟩, ⟨b⟩, ?_⟩
    apply String.ext
    simp only [String.data_append]
    rw [← ha, ← hb, List.append_assoc]
  · rintro ⟨a, b, rfl⟩
    refine ⟨sub.data ++ b.data, ?_, ?_⟩
    · rw [List.mem_tails]
      exact ⟨a.data, by simp [String.data_append, List.append_assoc]⟩
    · rw [List.isPrefixOf_iff_prefix]
      exact ⟨b.data, rfl⟩

/-- C8: when the client's create or update call fails with error `e`,
`integrationWebhookCreate` and `integrationWebhookUpdate` return `e` itself if its
message does not contain `40`, and otherwise `e`'s message followed by the admin-token
hint; the state, and with it the resource id, is left as it was. -/
theorem integrationWebhook_client_error (ord : HashOrder) (setErr : SetErrors)
    (client : WebhookClient) (d : WebhookResourceData) (e : String) :
    (client.CreateWebhookIntegration (getWebhookPayloadIntegration d) = .error e →
      ((¬ ∃ a b : String, e = a ++ "40" ++ b) →
        integrationWebhookCreate ord setErr client d = (d, some e)) ∧
      ((∃ a b : String, e = a ++ "40" ++ b) →
        integrationWebhookCreate ord setErr client d = (d, some (e ++
          "\nPlease verify you are using an admin token when working with integrations"))) ∧
      (integrationWebhookCreate ord setErr client d).1.id = d.id) ∧
    (client.UpdateWebhookIntegration d.id (getWebhookPayloadIntegration d) = .error e →
      ((¬ ∃ a b : String, e = a ++ "40" ++ b) →
        integrationWebhookUpdate ord setErr client d = (d, some e)) ∧
      ((∃ a b : String, e = a ++ "40" ++ b) →
        integrationWebhookUpdate ord setErr client d = (d, some (e ++
          "\nPlease verify you are using an admin token when working with integrations"))) ∧
      (integrationWebhookUpdate ord setErr client d).1.id = d.id) := by
  constructor
  · intro hc
    have hres : integrationWebhookCreate ord setErr client d =
        (d, some (if stringsContains e "40" then e ++ adminTokenHint else e)) := by
      unfold integrationWebhookCreate
      simp only [hc]
    refine ⟨?_, ?_, ?_⟩
    · intro hno
      rw [← stringsContains_iff] at hno
      rw [hres, if_neg hno]
    · intro hyes
      rw [← stringsContains_iff] at hyes
      rw [hres, if_pos hyes]
      rfl
    · rw [hres]
  · intro hc
    have hres : integrationWebhookUpdate ord setErr client d =
        (d, some (if stringsContains e "40" then e ++ adminTokenHint else e)) := by
      unfold integrationWebhookUpdate
      simp only [hc]
    refine ⟨?_, ?_, ?_⟩
    · intro hno
      rw [← stringsContains_iff] at hno
      rw [hres, if_neg hno]
    · intro hyes
      rw [← stringsContains_iff] at hyes
      rw [hres, if_pos hyes]
      rfl
    · rw [hres]

theorem integrationWebhook_client_error_witness :
    integrationWebhookCreate sliceOrder noSetErrors sampleClient500 sampleWebhookState =
      (sampleWebhookState, some "Bad status 500: internal") ∧
    integrationWebhookUpdate sliceOrder noSetErrors sampleClient401 sampleWebhookState =
      (sampleWebhookState, some ("Bad status 401: unauthorized" ++
        "\nPlease verify you are using an admin token when working with integrations")) :=
  ⟨((integrationWebhook_client_error sliceOrder noSetErrors sampleClient500
      sampleWebhookState "Bad status 500: internal").1 rfl).1
      (fun h => by
        rw [← stringsContains_iff] at h
        exact absurd h (by decide)),
   ((integrationWebhook_client_error sliceOrder noSetErrors sampleClient401
      sampleWebhookState "Bad status 401: unauthorized").2 rfl).2.1
      ((stringsContains_iff _ _).mp (by decide))⟩

theorem kvInsert_find (k v q : String) (l : List (String × String)) :
    (kvInsert k v l).find? (fun e => e.1 == q) =
      if q = k then some (k, v) else l.find? (fun e => e.1 == q) := by
  induction l with
  | nil =>
    by_cases hq : q = k
    · subst hq; simp [kvInsert]
    · have : ¬ k = q := fun h => hq h.symm
      simp [kvInsert, hq, this]
  | cons e rest ih =>
    by_cases hk : e.1 = k
    · by_cases hq : q = k
      · subst hq; simp [kvInsert, hk]
      · have h1 : ¬ k = q := fun h => hq h.symm
        have h2 : ¬ e.1 = q := fun h => hq (h.symm.trans hk)
        simp [kvInsert, hk, hq, h1, List.find?_cons, h2]
    · by_cases hq : q = k
      · subst hq
        simp [kvInsert, hk, List.find?_cons, ih]
      · by_cases he : e.1 = q
        · simp [kvInsert, hk, List.find?_cons, he, hq]
        · simp [kvInsert, hk, List.find?_cons, he, hq, ih]

theorem kvInsert_keys (k v q : String) (l : List (String × String)) :
    q ∈ (kvInsert k v l).map Prod.fst ↔ q = k ∨ q ∈ l.map Prod.fst := by
  induction l with
  | nil => simp [kvInsert]
  | cons e rest ih =>
    by_cases hk : e.1 = k
    · simp only [kvInsert, hk, if_true, List.map_cons, List.mem_cons]
      tauto
    · simp only [kvInsert, hk, if_false, List.map_cons, List.mem_cons, ih]
      tauto

theorem GoMap.lookup_insert (m : GoMap) (k v q : String) :
    (m.insert k v).lookup q = if q = k then some v else m.lookup q := by
  unfold GoMap.lookup
  show ((kvInsert k v m.entries).find? _).map Prod.snd = _
  rw [kvInsert_find]
  split_ifs <;> rfl

theorem GoMap.keys_insert (m : GoMap) (k v q : String) :
    q ∈ (m.insert k v).keys ↔ q = k ∨ q ∈ m.keys :=
  kvInsert_keys k v q m.entries

theorem headers_foldl_keep (k : String) (l : List HeaderElem) (n : GoMap)
    (hno : ¬ ∃ y ∈ l, y.header_key = k) :
    (l.foldl (fun headers v => headers.insert v.header_key v.header_value) n).lookup k =
      n.lookup k := by
  induction l generalizing n with
  | nil => rfl
  | cons y ys ihy =>
    rw [List.foldl_cons, ihy]
    · rw [GoMap.lookup_insert, if_neg]
      intro hky
      exact hno ⟨y, List.mem_cons_self _ _, hky.symm⟩
    · rintro ⟨z, hz, hzk⟩
      exact hno ⟨z, List.mem_cons_of_mem _ hz, hzk⟩

/-- The header map built by the loop of `getWebhookPayloadIntegration`: its keys are the
keys of the start map and of the elements. -/
theorem headers_foldl_keys (hs : List HeaderElem) (m0 : GoMap) (k : String) :
    k ∈ (hs.foldl (fun headers v => headers.insert v.header_key v.header_value) m0).keys ↔
      k ∈ m0.keys ∨ ∃ e ∈ hs, e.header_key = k := by
  induction hs generalizing m0 with
  | nil => simp
  | cons x rest ih =>
    rw [List.foldl_cons, ih, GoMap.keys_insert]
    constructor
    · rintro ((h | h) | ⟨e, he, hk⟩)
      · exact Or.inr ⟨x, List.mem_cons_self _ _, h.symm⟩
      · exact Or.inl h
      · exact Or.inr ⟨e, List.mem_cons_of_mem _ he, hk⟩
    · rintro (h | ⟨e, he, hk⟩)
      · exact Or.inl (Or.inr h)
      · rcases List.mem_cons.mp he with rfl | he
        · exact Or.inl (Or.inl hk.symm)
        · exact Or.inr ⟨e, he, hk⟩

/-- Each key that comes from an element is mapped to the value of an element with that
key. -/
theorem headers_foldl_lookup (hs : List HeaderElem) (m0 : GoMap) (k : String)
    (hk : ∃ e ∈ hs, e.header_key = k) :
    ∃ e ∈ hs, e.header_key = k ∧
      (hs.foldl (fun headers v => headers.insert v.header_key v.header_value) m0).lookup k =
        some e.header_value := by
  induction hs generalizing m0 with
  | nil => obtain ⟨e, he, _⟩ := hk; cases he
  | cons x rest ih =>
    by_cases hrest : ∃ e ∈ rest, e.header_key = k
    · obtain ⟨e, he, hek, hl⟩ := ih (m0.insert x.header_key x.header_value) hrest
      exact ⟨e, List.mem_cons_of_mem _ he, hek, hl⟩
    · obtain ⟨e, he, hek⟩ := hk
      rcases List.mem_cons.mp he with rfl | he
      · refine ⟨e, List.mem_cons_self _ _, hek, ?_⟩
        rw [List.foldl_cons, headers_foldl_keep k rest _ hrest, GoMap.lookup_insert,
          if_pos hek.symm]
      · exact absurd ⟨e, he, hek⟩ hrest

/-- The function `getWebhookPayloadIntegration` in closed form. -/
theorem getWebhookPayloadIntegration_eq (d : WebhookResourceData) :
    getWebhookPayloadIntegration d =
      { Type_ := "Webhook", Name := d.name, Enabled := d.enabled, Url := d.url,
        Method := d.method, PayloadTemplate := d.payload_template,
        SharedSecret := d.shared_secret,
        Headers := if d.headers.elems = [] then none else
          some (d.headers.elems.foldl
            (fun headers v => headers.insert v.header_key v.header_value) GoMap.empty) } := by
  by_cases hs : d.shared_secret = ""
  · cases hh : d.headers.elems with
    | nil => simp [getWebhookPayloadIntegration, getOkString, getOkSet, hs, hh]
    | cons x xs => simp [getWebhookPayloadIntegration, getOkString, getOkSet, hs, hh]
  · cases hh : d.headers.elems with
    | nil => simp [getWebhookPayloadIntegration, getOkString, getOkSet, hs, hh]
    | cons x xs => simp [getWebhookPayloadIntegration, getOkString, getOkSet, hs, hh]

/-- C9: the payload of `getWebhookPayloadIntegration` has type `Webhook`, the configured
name, enabled flag, url, method, payload template and shared secret; its headers are nil
when the state has no header element, and otherwise a map whose keys are exactly the
configured header keys, each mapped to the value of a configured element with that
key. -/
theorem getWebhookPayloadIntegration_fields (d : WebhookResourceData) :
    (getWebhookPayloadIntegration d).Type_ = "Webhook" ∧
    (getWebhookPayloadIntegration d).Name = d.name ∧
    (getWebhookPayloadIntegration d).Enabled = d.enabled ∧
    (getWebhookPayloadIntegration d).Url = d.url ∧
    (getWebhookPayloadIntegration d).Method = d.method ∧
    (getWebhookPayloadIntegration d).PayloadTemplate = d.payload_template ∧
    (getWebhookPayloadIntegration d).SharedSecret = d.shared_secret ∧
    (d.headers.elems = [] → (getWebhookPayloadIntegration d).Headers = none) ∧
    (d.headers.elems ≠ [] → ∃ m, (getWebhookPayloadIntegration d).Headers = some m ∧
      (∀ k, k ∈ m.keys ↔ ∃ e ∈ d.headers.elems, e.header_key = k) ∧
      (∀ k ∈ m.keys, ∃ e ∈ d.headers.elems,
        e.header_key = k ∧ m.lookup k = some e.header_value)) := by
  rw [getWebhookPayloadIntegration_eq]
  refine ⟨rfl, rfl, rfl, rfl, rfl, rfl, rfl, fun h => if_pos h, fun hne => ?_⟩
  have hkeys : ∀ k, k ∈ (d.headers.elems.foldl
      (fun headers v => headers.insert v.header_key v.header_value) GoMap.empty).keys ↔
      ∃ e ∈ d.headers.elems, e.header_key = k := by
    intro k
    rw [headers_foldl_keys]
    constructor
    · rintro (h | h)
      · cases h
      · exact h
    · exact Or.inr
  exact ⟨_, if_neg hne, hkeys,
    fun k hk => headers_foldl_lookup d.headers.elems GoMap.empty k ((hkeys k).mp hk)⟩

theorem getWebhookPayloadIntegration_fields_witness :
    ∃ m, (getWebhookPayloadIntegration sampleWebhookState).Headers = some m ∧
      (∀ k, k ∈ m.keys ↔ ∃ e ∈ sampleWebhookState.headers.elems, e.header_key = k) ∧
      (∀ k ∈ m.keys, ∃ e ∈ sampleWebhookState.headers.elems,
        e.header_key = k ∧ m.lookup k = some e.header_value) :=
  (getWebhookPayloadIntegration_fields sampleWebhookState).2.2.2.2.2.2.2.2 (by decide)

theorem find_some_iff_mem (l : List (String × String)) (h : (l.map Prod.fst).Nodup)
    (k v : String) :
    (l.find? (fun e => e.1 == k)).map Prod.snd = some v ↔ (k, v) ∈ l := by
  induction l with
  | nil => simp
  | cons e rest ih =>
    rw [List.map_cons, List.nodup_cons] at h
    by_cases he : e.1 = k
    · have hfind : (e :: rest).find? (fun e => e.1 == k) = some e := by
        simp [List.find?_cons, he]
      rw [hfind]
      simp only [Option.map_some', Option.some.injEq, List.mem_cons]
      constructor
      · intro hv
        left
        rw [← he, ← hv]
      · rintro (h1 | h1)
        · rw [← h1]
        · exfalso
          apply h.1
          rw [he]
          exact List.mem_map.mpr ⟨(k, v), h1, rfl⟩
    · have hfind : (e :: rest).find? (fun e => e.1 == k) = rest.find? (fun e => e.1 == k) := by
        simp [List.find?_cons, he]
      rw [hfind, ih h.2, List.mem_cons]
      constructor
      · exact Or.inr
      · rintro (h1 | h1)
        · exact absurd (by rw [← h1]) he
        · exact h1

theorem GoMap.lookup_eq_of_perm (m n : GoMap) (h : m.entries.Perm n.entries) (k : String) :
    m.lookup k = n.lookup k := by
  apply Option.ext
  intro v
  unfold GoMap.lookup
  simp only [Option.mem_def]
  rw [find_some_iff_mem _ m.nodupKeys, find_some_iff_mem _ n.nodupKeys, h.mem_iff]

theorem headerSlice_keys (m : GoMap) :
    (headerSlice m).map (fun e => e.header_key) = m.keys := by
  simp [headerSlice, GoMap.keys, List.map_map, Function.comp_def]

theorem headerSlice_nodup (m : GoMap) : (headerSlice m).Nodup := by
  apply List.Nodup.of_map (fun e => e.header_key)
  rw [headerSlice_keys]
  exact m.nodupKeys

theorem headers_foldl_entries (hs : List HeaderElem)
    (h : (hs.map (fun e => e.header_key)).Nodup) :
    (hs.foldl (fun headers v => headers.insert v.header_key v.header_value)
      GoMap.empty).entries = hs.map (fun e => (e.header_key, e.header_value)) := by
  have h1 := GoMap.foldl_insert_entries
    (hs.map (fun e => (e.header_key, e.header_value))) GoMap.empty
    (by simpa [GoMap.empty, List.map_map, Function.comp_def] using h)
  rw [List.foldl_map] at h1
  simpa [GoMap.empty] using h1

/-- The state that `webhookIntegrationAPIToTF` leaves behind when no write fails. -/
theorem webhookIntegrationAPIToTF_eq (ord : HashOrder) (setErr : SetErrors)
    (d : WebhookResourceData) (og : WebhookIntegration) (hset : ∀ key, setErr key = none) :
    webhookIntegrationAPIToTF ord setErr d og =
      ({ id := d.id, name := og.Name, enabled := og.Enabled, url := og.Url,
         shared_secret := og.SharedSecret, method := og.Method,
         payload_template := og.PayloadTemplate,
         headers := if headersLen og.Headers > 0 then
             SchemaSet.ofSlice ord (headerSlice (og.Headers.getD GoMap.empty))
           else d.headers }, none) := by
  unfold webhookIntegrationAPIToTF
  simp only [hset]
  split_ifs <;> rfl

/-- C10: for an integration `og` of type `Webhook` with a non-empty headers map,
`webhookIntegrationAPIToTF` returns no error and stores one header element per key of
`og.Headers`, and `getWebhookPayloadIntegration` on the new state returns an integration
with the same type, name, enabled flag, url, shared secret, method and payload template
and with headers that have the entries of `og.Headers`, hence the same value at every
key. -/
theorem webhook_round_trip (ord : HashOrder) (d : WebhookResourceData)
    (og : WebhookIntegration) (m : GoMap)
    (htype : og.Type_ = "Webhook") (hh : og.Headers = some m) (hne : m.entries ≠ []) :
    (webhookIntegrationAPIToTF ord noSetErrors d og).2 = none ∧
    (webhookIntegrationAPIToTF ord noSetErrors d og).1.headers.elems.Perm (headerSlice m) ∧
    ((webhookIntegrationAPIToTF ord noSetErrors d og).1.headers.elems.map
      (fun e => e.header_key)).Perm m.keys ∧
    (getWebhookPayloadIntegration (webhookIntegrationAPIToTF ord noSetErrors d og).1).Type_
      = og.Type_ ∧
    (getWebhookPayloadIntegration (webhookIntegrationAPIToTF ord noSetErrors d og).1).Name
      = og.Name ∧
    (getWebhookPayloadIntegration (webhookIntegrationAPIToTF ord noSetErrors d og).1).Enabled
      = og.Enabled ∧
    (getWebhookPayloadIntegration (webhookIntegrationAPIToTF ord noSetErrors d og).1).Url
      = og.Url ∧
    (getWebhookPayloadIntegration
      (webhookIntegrationAPIToTF ord noSetErrors d og).1).SharedSecret = og.SharedSecret ∧
    (getWebhookPayloadIntegration (webhookIntegrationAPIToTF ord noSetErrors d og).1).Method
      = og.Method ∧
    (getWebhookPayloadIntegration
      (webhookIntegrationAPIToTF ord noSetErrors d og).1).PayloadTemplate
      = og.PayloadTemplate ∧
    ∃ m2, (getWebhookPayloadIntegration
        (webhookIntegrationAPIToTF ord noSetErrors d og).1).Headers = some m2 ∧
      m2.entries.Perm m.entries ∧ ∀ k, m2.lookup k = m.lookup k := by
  have hlen : headersLen og.Headers > 0 := by
    rw [hh]
    exact List.length_pos.mpr hne
  have hstate := webhookIntegrationAPIToTF_eq ord noSetErrors d og (fun _ => rfl)
  rw [if_pos hlen, hh] at hstate
  rw [hstate, getWebhookPayloadIntegration_eq]
  have helems : (SchemaSet.ofSlice ord (headerSlice m)).elems = ord.arrange (headerSlice m) := by
    show ord.arrange (headerSlice m).dedup = _
    rw [List.dedup_eq_self.mpr (headerSlice_nodup m)]
  have hperm : (SchemaSet.ofSlice ord (headerSlice m)).elems.Perm (headerSlice m) := by
    rw [helems]; exact ord.perm _
  have hkeys : ((SchemaSet.ofSlice ord (headerSlice m)).elems.map
      (fun e => e.header_key)).Perm m.keys := by
    rw [← headerSlice_keys]; exact hperm.map _
  have hnonempty : (SchemaSet.ofSlice ord (headerSlice m)).elems ≠ [] := by
    intro hnil
    rw [hnil] at hperm
    have h2 : headerSlice m = [] := hperm.symm.eq_nil
    exact hne (List.map_eq_nil_iff.mp h2)
  have hentries := headers_foldl_entries (SchemaSet.ofSlice ord (headerSlice m)).elems
    (hkeys.nodup_iff.mpr m.nodupKeys)
  have hmperm : ((SchemaSet.ofSlice ord (headerSlice m)).elems.foldl
      (fun headers v => headers.insert v.header_key v.header_value)
      GoMap.empty).entries.Perm m.entries := by
    rw [hentries]
    have h3 := hperm.map (fun e : HeaderElem => (e.header_key, e.header_value))
    have h4 : (headerSlice m).map (fun e : HeaderElem => (e.header_key, e.header_value))
        = m.entries := by
      simp [headerSlice, List.map_map, Function.comp_def]
    rw [h4] at h3
    exact h3
  refine ⟨rfl, hperm, hkeys, htype.symm, rfl, rfl, rfl, rfl, rfl, rfl, _, if_neg hnonempty,
    hmperm, fun k => GoMap.lookup_eq_of_perm _ _ hmperm k⟩

theorem webhook_round_trip_witness :
    (webhookIntegrationAPIToTF reverseOrder noSetErrors sampleWebhookState sampleWebhook).2
      = none ∧
    ∃ m2, (getWebhookPayloadIntegration (webhookIntegrationAPIToTF reverseOrder noSetErrors
        sampleWebhookState sampleWebhook).1).Headers = some m2 ∧
      ∀ k, m2.lookup k = ((GoMap.empty.insert "X-Token" "abc").insert "X-Env" "prod").lookup k :=
  have h := webhook_round_trip reverseOrder sampleWebhookState sampleWebhook
    ((GoMap.empty.insert "X-Token" "abc").insert "X-Env" "prod") rfl rfl (by decide)
  ⟨h.1, h.2.2.2.2.2.2.2.2.2.2.imp (fun _ hm => ⟨hm.1, hm.2.2⟩)⟩

/-! ## Claims about the time chart -/

/-- The payload of `getPayloadTimeChart` has nil tags, whatever the state holds. -/
theorem getPayloadTimeChart_tags_nil (h : ChartHelpers) (d : TimeChartResourceData) :
    (getPayloadTimeChart h d).Tags = none := rfl

/-- C11 fails on the code: for a state with the tags `prod` and `team-a` the payload of
`getPayloadTimeChart` has nil tags, while the tags of the configuration are that list. -/
theorem getPayloadTimeChart_drops_tags :
    (getPayloadTimeChart sampleHelpers sampleTaggedChart).Tags = none ∧
    tagsOfConfiguration sampleTaggedChart = some ["prod", "team-a"] := by
  constructor <;> rfl

theorem wordLoop_iff (value : String) (words : List String) :
    wordLoop value words = true ↔ value ∈ words := by
  induction words with
  | nil => simp [wordLoop]
  | cons w rest ih =>
    by_cases hw : value = w
    · simp [wordLoop, hw]
    · simp [wordLoop, hw, ih]

/-- C14: `validatePlotTypeTimeChart` returns no warnings, no errors exactly for the four
plot types, and exactly one error for every other value. -/
theorem validatePlotTypeTimeChart_accepts (v k : String) :
    (validatePlotTypeTimeChart v k).1 = [] ∧
    ((validatePlotTypeTimeChart v k).2 = [] ↔
      v ∈ ["LineChart", "AreaChart", "ColumnChart", "Histogram"]) ∧
    (v ∉ ["LineChart", "AreaChart", "ColumnChart", "Histogram"] →
      (validatePlotTypeTimeChart v k).2 = [v ++
        " not allowed; Must be \"LineChart\", \"AreaChart\", \"ColumnChart\", or \"Histogram\""]) := by
  unfold validatePlotTypeTimeChart
  by_cases hv : v ≠ "LineChart" ∧ v ≠ "AreaChart" ∧ v ≠ "ColumnChart" ∧ v ≠ "Histogram"
  · have hmem : v ∉ ["LineChart", "AreaChart", "ColumnChart", "Histogram"] := by
      simp only [List.mem_cons, List.mem_singleton, List.not_mem_nil, or_false, not_or]
      exact hv
    rw [if_pos hv]
    exact ⟨rfl, ⟨fun h => (by cases h), fun h => absurd h hmem⟩, fun _ => rfl⟩
  · have hmem : v ∈ ["LineChart", "AreaChart", "ColumnChart", "Histogram"] := by
      simp only [List.mem_cons, List.mem_singleton, List.not_mem_nil, or_false]
      by_contra hc
      simp only [not_or] at hc
      exact hv hc
    rw [if_neg hv]
    exact ⟨rfl, ⟨fun _ => hmem, fun _ => rfl⟩, fun h => absurd hmem h⟩

theorem validatePlotTypeTimeChart_accepts_witness :
    (validatePlotTypeTimeChart "PieChart" "plot_type").2 = ["PieChart" ++
      " not allowed; Must be \"LineChart\", \"AreaChart\", \"ColumnChart\", or \"Histogram\""] :=
  (validatePlotTypeTimeChart_accepts "PieChart" "plot_type").2.2 (by decide)

theorem allowedWords_joined : stringsJoin allowedWords ", " =
    "Bit, Kilobit, Megabit, Gigabit, Terabit, Petabit, Exabit, Zettabit, Yottabit, Byte, Kibibyte, Mebibyte, Gigibyte, Tebibyte, Pebibyte, Exbibyte, Zebibyte, Yobibyte, Nanosecond, Microsecond, Millisecond, Second, Minute, Hour, Day, Week" := by
  simp [stringsJoin, allowedWords, String.intercalate, String.intercalate.go]

/-- C15: `validateUnitTimeChart` knows 26 unit names; it returns no warnings, no errors
exactly for these names, and for every other value one error: the value, then
` not allowed; must be one of: `, then the names joined by a comma and a space. -/
theorem validateUnitTimeChart_accepts (v k : String) :
    allowedWords.length = 26 ∧
    (validateUnitTimeChart v k).1 = [] ∧
    ((validateUnitTimeChart v k).2 = [] ↔ v ∈ allowedWords) ∧
    (v ∉ allowedWords →
      (validateUnitTimeChart v k).2 = [v ++ " not allowed; must be one of: " ++
        "Bit, Kilobit, Megabit, Gigabit, Terabit, Petabit, Exabit, Zettabit, Yottabit, Byte, Kibibyte, Mebibyte, Gigibyte, Tebibyte, Pebibyte, Exbibyte, Zebibyte, Yobibyte, Nanosecond, Microsecond, Millisecond, Second, Minute, Hour, Day, Week"]) := by
  have hjoin := allowedWords_joined
  unfold validateUnitTimeChart
  by_cases hv : wordLoop v allowedWords = true
  · have hmem := (wordLoop_iff v allowedWords).mp hv
    rw [if_pos hv]
    exact ⟨rfl, rfl, ⟨fun _ => hmem, fun _ => rfl⟩, fun h => absurd hmem h⟩
  · have hmem : v ∉ allowedWords := fun h => hv ((wordLoop_iff v allowedWords).mpr h)
    rw [if_neg hv, hjoin]
    exact ⟨rfl, rfl, ⟨fun h => (by cases h), fun h => absurd h hmem⟩, fun _ => rfl⟩

theorem validateUnitTimeChart_accepts_witness :
    (validateUnitTimeChart "Gigabyte" "value_unit").2 =
      ["Gigabyte" ++ " not allowed; must be one of: " ++
        "Bit, Kilobit, Megabit, Gigabit, Terabit, Petabit, Exabit, Zettabit, Yottabit, Byte, Kibibyte, Mebibyte, Gigibyte, Tebibyte, Pebibyte, Exbibyte, Zebibyte, Yobibyte, Nanosecond, Microsecond, Millisecond, Second, Minute, Hour, Day, Week"] :=
  (validateUnitTimeChart_accepts "Gigabyte" "value_unit").2.2.2 (by decide)

/-- The block on the plot type touches only the three plot type options. -/
theorem plotTypeOptionsOf_other (d : TimeChartResourceData) (options : Options) :
    (plotTypeOptionsOf d options).ProgramOptions = options.ProgramOptions ∧
    (plotTypeOptionsOf d options).Time = options.Time ∧
    (plotTypeOptionsOf d options).Axes = options.Axes ∧
    (plotTypeOptionsOf d options).PublishLabelOptions = options.PublishLabelOptions ∧
    (plotTypeOptionsOf d options).LegendOptions = options.LegendOptions ∧
    (plotTypeOptionsOf d options).OnChartLegendOptions = options.OnChartLegendOptions ∧
    (plotTypeOptionsOf d options).Type_ = options.Type_ := by
  unfold plotTypeOptionsOf
  cases getOkString d.plot_type with
  | none => exact ⟨rfl, rfl, rfl, rfl, rfl, rfl, rfl⟩
  | some chartType =>
    simp only []
    split_ifs
    · exact ⟨rfl, rfl, rfl, rfl, rfl, rfl, rfl⟩
    · cases getOkSet d.histogram_options with
      | none => exact ⟨rfl, rfl, rfl, rfl, rfl, rfl, rfl⟩
      | some l =>
        cases l with
        | nil => exact ⟨rfl, rfl, rfl, rfl, rfl, rfl, rfl⟩
        | cons x xs =>
          simp only []
          cases FullPaletteColors.lookup x.color_theme with
          | none => exact ⟨rfl, rfl, rfl, rfl, rfl, rfl, rfl⟩
          | some e => exact ⟨rfl, rfl, rfl, rfl, rfl, rfl, rfl⟩
    · exact ⟨rfl, rfl, rfl, rfl, rfl, rfl, rfl⟩

/-- The plain options leave the pointers and slices nil. -/
theorem baseOptionsOf_parts (d : TimeChartResourceData) :
    (baseOptionsOf d).Axes = none ∧
    (baseOptionsOf d).PublishLabelOptions = none ∧
    (baseOptionsOf d).LegendOptions = none ∧
    (baseOptionsOf d).OnChartLegendOptions = none ∧
    (baseOptionsOf d).Type_ = "TimeSeriesChart" := by
  unfold baseOptionsOf
  cases getOkString d.unit_prefix <;> cases getOkString d.color_by <;>
    cases getOkBool d.show_event_lines <;> cases getOkString d.plot_type <;>
    cases getOkInt d.axes_precision <;> cases getOkBool d.axes_include_zero <;>
    exact ⟨rfl, rfl, rfl, rfl, rfl⟩

/-- The parts of the options that `getTimeChartOptions` takes from its blocks. -/
theorem getTimeChartOptions_parts (d : TimeChartResourceData) :
    (getTimeChartOptions d).ProgramOptions = programOptionsOf d ∧
    (getTimeChartOptions d).Time = timeOptionsOf d ∧
    (getTimeChartOptions d).Axes = none ∧
    (getTimeChartOptions d).PublishLabelOptions = none ∧
    (getTimeChartOptions d).LegendOptions = none ∧
    (getTimeChartOptions d).OnChartLegendOptions = none ∧
    (getTimeChartOptions d).Type_ = "TimeSeriesChart" := by
  obtain ⟨b1, b2, b3, b4, b5⟩ := baseOptionsOf_parts d
  obtain ⟨h1, h2, h3, h4, h5, h6, h7⟩ := plotTypeOptionsOf_other d
    { baseOptionsOf d with ProgramOptions := programOptionsOf d, Time := timeOptionsOf d }
  unfold getTimeChartOptions
  exact ⟨h1, h2, h3.trans b1, h4.trans b2, h5.trans b3, h6.trans b4, h7.trans b5⟩

/-- Before the on-chart legend block, the options of `getPayloadTimeChart` carry no
on-chart legend. -/
theorem getPayloadTimeChart_options (h : ChartHelpers) (d : TimeChartResourceData) :
    ∃ viz : Options, viz.OnChartLegendOptions = none ∧
      (getPayloadTimeChart h d).Options = onChartLegendOf d viz := by
  have h6 := (getTimeChartOptions_parts d).2.2.2.2.2.1
  refine ⟨_, ?_, rfl⟩
  split_ifs <;> cases h.getLegendOptions d <;> cases h.getLegendFieldOptions d <;> exact h6

/-- C16: the payload of `getPayloadTimeChart` has no on-chart legend options exactly when
`on_chart_legend_dimension` is empty; otherwise the legend is shown for the dimension
`sf_originatingMetric` for `metric`, `sf_metric` for `plot_label`, and the configured
value for any other dimension. -/
theorem getPayloadTimeChart_on_chart_legend (h : ChartHelpers) (d : TimeChartResourceData) :
    ((getPayloadTimeChart h d).Options.OnChartLegendOptions = none ↔
      d.on_chart_legend_dimension = "") ∧
    (d.on_chart_legend_dimension ≠ "" →
      (getPayloadTimeChart h d).Options.OnChartLegendOptions =
        some { ShowLegend := true,
               DimensionInLegend :=
                 if d.on_chart_legend_dimension = "metric" then "sf_originatingMetric"
                 else if d.on_chart_legend_dimension = "plot_label" then "sf_metric"
                 else d.on_chart_legend_dimension }) := by
  obtain ⟨viz, hviz, hopt⟩ := getPayloadTimeChart_options h d
  rw [hopt]
  unfold onChartLegendOf getOkString
  by_cases hd : d.on_chart_legend_dimension = ""
  · rw [if_pos hd]
    exact ⟨⟨fun _ => hd, fun _ => hviz⟩, fun hne => absurd hd hne⟩
  · rw [if_neg hd]
    exact ⟨⟨fun hc => (by cases hc), fun hc => absurd hc hd⟩, fun _ => rfl⟩

theorem getPayloadTimeChart_on_chart_legend_witness :
    (getPayloadTimeChart sampleHelpers sampleLegendChart).Options.OnChartLegendOptions =
      some { ShowLegend := true, DimensionInLegend := "sf_metric" } :=
  ((getPayloadTimeChart_on_chart_legend sampleHelpers sampleLegendChart).2
    (by decide)).trans (by rfl)

theorem wrapInt64_idem (x : Int) : wrapInt64 (wrapInt64 x) = wrapInt64 x := by
  unfold wrapInt64; omega

theorem wrapInt64_exact (v : Int) (h : inMillisRange v) : wrapInt64 (v * 1000) = v * 1000 := by
  unfold inMillisRange at h
  unfold wrapInt64; omega

/-- The time window of `getTimeChartOptions` in closed form: a start time makes the
window absolute, otherwise a time range makes it relative. -/
theorem timeOptionsOf_eq (d : TimeChartResourceData) :
    timeOptionsOf d =
      if d.start_time ≠ 0 then
        some { Start := wrapInt64 (d.start_time * 1000),
               End := wrapInt64 (d.end_time * 1000), Range := 0, Type_ := "absolute" }
      else if d.time_range ≠ 0 then
        some { Range := wrapInt64 (d.time_range * 1000), Start := 0, End := 0,
               Type_ := "relative" }
      else none := by
  unfold timeOptionsOf getOkInt
  by_cases hs : d.start_time = 0
  · by_cases hr : d.time_range = 0
    · simp [hs, hr]
    · simp [hs, hr, wrapInt64_idem]
  · by_cases he : d.end_time = 0
    · simp [hs, he, wrapInt64_idem]
      rfl
    · simp [hs, he, wrapInt64_idem]

/-- C13, as stated, fails: a time range of 9223372036854776 s gives a relative window
whose range is not the range times 1000. -/
theorem getTimeChartOptions_range_overflow :
    (getTimeChartOptions sampleLongRangeChart).Time =
      some { Range := -9223372036854775616, Start := 0, End := 0, Type_ := "relative" } ∧
    (-9223372036854775616 : Int) ≠ 9223372036854776 * 1000 := by
  constructor
  · rfl
  · decide

/-- C13, amended: `getTimeChartOptions` returns no time window exactly when neither
`time_range` nor `start_time` is set; a relative window with the range in milliseconds
and no start or end when `time_range` is set and `start_time` is not; an absolute window
with start and end in milliseconds and no range whenever `start_time` is set; so no
window has both a range and a start or end.  The milliseconds are the 64-bit product
with 1000, which is the exact product for values between -9223372036854775 and
9223372036854775. -/
theorem getTimeChartOptions_time_window (d : TimeChartResourceData) :
    ((getTimeChartOptions d).Time = none ↔ d.time_range = 0 ∧ d.start_time = 0) ∧
    (d.time_range ≠ 0 → d.start_time = 0 →
      (getTimeChartOptions d).Time =
        some { Type_ := "relative", Range := wrapInt64 (d.time_range * 1000),
               Start := 0, End := 0 }) ∧
    (d.start_time ≠ 0 →
      (getTimeChartOptions d).Time =
        some { Type_ := "absolute", Start := wrapInt64 (d.start_time * 1000),
               End := wrapInt64 (d.end_time * 1000), Range := 0 }) ∧
    (∀ t, (getTimeChartOptions d).Time = some t →
      ¬ (t.Range ≠ 0 ∧ (t.Start ≠ 0 ∨ t.End ≠ 0))) ∧
    (∀ v : Int, inMillisRange v → wrapInt64 (v * 1000) = v * 1000) ∧
    wrapInt64 (0 * 1000) = 0 := by
  rw [(getTimeChartOptions_parts d).2.1, timeOptionsOf_eq]
  refine ⟨?_, ?_, ?_, ?_, wrapInt64_exact, by decide⟩
  · by_cases hs : d.start_time = 0
    · by_cases hr : d.time_range = 0
      · simp [hs, hr]
      · simp [hs, hr]
    · simp [hs]
  · intro hr hs
    simp [hs, hr]
  · intro hs
    simp [hs]
  · intro t ht
    by_cases hs : d.start_time = 0
    · by_cases hr : d.time_range = 0
      · simp [hs, hr] at ht
      · simp [hs, hr] at ht
        subst ht
        simp
    · simp [hs] at ht
      subst ht
      simp

theorem getTimeChartOptions_time_window_witness :
    (getTimeChartOptions sampleRelativeChart).Time =
      some { Type_ := "relative", Range := 3600000, Start := 0, End := 0 } ∧
    (getTimeChartOptions sampleAbsoluteChart).Time =
      some { Type_ := "absolute", Start := 1700000000000, End := 1700003600000,
             Range := 0 } ∧
    wrapInt64 (3600 * 1000) = 3600 * 1000 :=
  ⟨((getTimeChartOptions_time_window sampleRelativeChart).2.1 (by decide) rfl).trans
      (by rfl),
   ((getTimeChartOptions_time_window sampleAbsoluteChart).2.2.1 (by decide)).trans (by rfl),
   (getTimeChartOptions_time_window sampleRelativeChart).2.2.2.2.1 3600
      ⟨by decide, by decide⟩⟩

theorem setField_ok {σ : Type} (setErr : SetErrors) (hset : ∀ key, setErr key = none)
    (key : String) (d written : σ) : setField setErr key d written = (written, none) := by
  unfold setField
  rw [hset]

theorem andThen_ok {σ : Type} (d : σ) (rest : σ → σ × Option String) :
    andThen (d, none) rest = rest d := rfl

theorem andThen_of_ok {σ : Type} (r : σ × Option String) (rest : σ → σ × Option String)
    (h : r.2 = none) : andThen r rest = rest r.1 := by
  unfold andThen
  rw [h]

theorem writePlainFields_ok (setErr : SetErrors) (hset : ∀ key, setErr key = none)
    (d : TimeChartResourceData) (c : Chart) : (writePlainFields setErr d c).2 = none := by
  unfold writePlainFields
  simp only [setField_ok setErr hset, andThen_ok]

theorem writePlotTypeOptions_ok (h : ChartHelpers) (setErr : SetErrors)
    (hset : ∀ key, setErr key = none) (d : TimeChartResourceData) (options : Options)
    (hhist : options.HistogramChartOptions = none) :
    (writePlotTypeOptions h setErr d options).2 = none := by
  unfold writePlotTypeOptions
  rw [hhist]
  cases ha : options.AreaChartOptions <;> cases hl : options.LineChartOptions <;>
    simp only [setField_ok setErr hset, andThen_ok]

theorem writeAxes_none (h : ChartHelpers) (ord : HashOrder) (setErr : SetErrors)
    (d : TimeChartResourceData) (options : Options) (hax : options.Axes = none) :
    writeAxes h ord setErr d options = (d, none) := by
  unfold writeAxes
  rw [hax]
  rfl

theorem writeProgramOptions_some (setErr : SetErrors) (hset : ∀ key, setErr key = none)
    (d : TimeChartResourceData) (options : Options) (po : GeneralOptions)
    (hpo : options.ProgramOptions = some po) :
    (writeProgramOptions setErr d options).2 = none ∧
    (writeProgramOptions setErr d options).1.minimum_resolution =
      Int.tdiv po.MinimumResolution 1000 ∧
    (writeProgramOptions setErr d options).1.max_delay = Int.tdiv po.MaxDelay 1000 := by
  unfold writeProgramOptions
  rw [hpo]
  simp only [setField_ok setErr hset, andThen_ok, and_self]

theorem writeTime_ok (setErr : SetErrors) (hset : ∀ key, setErr key = none)
    (d : TimeChartResourceData) (options : Options) :
    (writeTime setErr d options).2 = none ∧
    (writeTime setErr d options).1.minimum_resolution = d.minimum_resolution ∧
    (writeTime setErr d options).1.max_delay = d.max_delay := by
  unfold writeTime
  cases options.Time with
  | none => exact ⟨rfl, rfl, rfl⟩
  | some time =>
    simp only []
    split_ifs <;> simp only [setField_ok setErr hset, andThen_ok, and_self]

theorem writeLabelsAndLegends_none (h : ChartHelpers) (ord : HashOrder)
    (setErr : SetErrors) (d : TimeChartResourceData) (options : Options)
    (h1 : options.PublishLabelOptions = none) (h2 : options.LegendOptions = none)
    (h3 : options.OnChartLegendOptions = none) :
    writeLabelsAndLegends h ord setErr d options = (d, none) := by
  unfold writeLabelsAndLegends
  rw [h1, h2, h3]
  rfl

/-- The seconds that `timechartAPIToTF` writes for the program options of a chart
without axes, plot options and legends, when no write fails. -/
theorem timechartAPIToTF_program_options (h : ChartHelpers) (ord : HashOrder)
    (setErr : SetErrors) (hset : ∀ key, setErr key = none) (d : TimeChartResourceData)
    (c : Chart) (po : GeneralOptions) (hhist : c.Options.HistogramChartOptions = none)
    (hax : c.Options.Axes = none) (h1 : c.Options.PublishLabelOptions = none)
    (h2 : c.Options.LegendOptions = none) (h3 : c.Options.OnChartLegendOptions = none)
    (hpo : c.Options.ProgramOptions = some po) :
    (timechartAPIToTF h ord setErr d c).2 = none ∧
    (timechartAPIToTF h ord setErr d c).1.minimum_resolution =
      Int.tdiv po.MinimumResolution 1000 ∧
    (timechartAPIToTF h ord setErr d c).1.max_delay = Int.tdiv po.MaxDelay 1000 := by
  unfold timechartAPIToTF
  simp only []
  rw [andThen_of_ok _ _ (writePlainFields_ok setErr hset d c),
    andThen_of_ok _ _ (writePlotTypeOptions_ok h setErr hset _ c.Options hhist),
    writeAxes_none h ord setErr _ c.Options hax, andThen_ok]
  obtain ⟨p1, p2, p3⟩ := writeProgramOptions_some setErr hset
    (writePlotTypeOptions h setErr (writePlainFields setErr d c).1 c.Options).1
    c.Options po hpo
  rw [andThen_of_ok _ _ p1]
  obtain ⟨t1, t2, t3⟩ := writeTime_ok setErr hset
    (writeProgramOptions setErr
      (writePlotTypeOptions h setErr (writePlainFields setErr d c).1 c.Options).1
      c.Options).1 c.Options
  rw [andThen_of_ok _ _ t1, writeLabelsAndLegends_none h ord setErr _ c.Options h1 h2 h3]
  exact ⟨rfl, t2.trans p2, t3.trans p3⟩

theorem wrapInt32_millis (v : Int) (h : inInt32Millis v) :
    wrapInt32 (wrapInt64 (v * 1000)) = v * 1000 := by
  unfold inInt32Millis at h
  unfold wrapInt32 wrapInt64; omega

/-- The program options of `getTimeChartOptions` in closed form. -/
theorem programOptionsOf_eq (d : TimeChartResourceData) :
    programOptionsOf d =
      if d.minimum_resolution = 0 ∧ d.max_delay = 0 ∧ d.disable_sampling = false then none
      else some
        { MinimumResolution := wrapInt32 (wrapInt64 (d.minimum_resolution * 1000)),
          MaxDelay := wrapInt32 (wrapInt64 (d.max_delay * 1000)),
          DisableSampling := d.disable_sampling } := by
  unfold programOptionsOf getOkInt getOkBool
  by_cases h1 : d.minimum_resolution = 0 <;> by_cases h2 : d.max_delay = 0 <;>
    cases h3 : d.disable_sampling <;> simp [h1, h2, wrapInt32, wrapInt64]

/-- C12, as stated, fails: a minimum resolution of 2147484 s is sent as -2147483296 ms,
not as 2147484000 ms, and comes back as -2147483 s. -/
theorem timeChart_resolution_overflow :
    (getTimeChartOptions sampleLongResolutionChart).ProgramOptions =
      some { MinimumResolution := -2147483296 } ∧
    (-2147483296 : Int) ≠ 2147484 * 1000 ∧
    (timechartAPIToTF sampleHelpers sliceOrder noSetErrors {}
      { Options := getTimeChartOptions sampleLongResolutionChart }).1.minimum_resolution =
      -2147483 := by
  refine ⟨by rfl, by decide, by rfl⟩

/-- For a histogram chart with a known colour `timechartAPIToTF` stops at the write of
`histogram_options`: it does not return nil, and the minimum resolution of the options,
30 s, is not written into the state. -/
theorem timechartAPIToTF_histogram_stops :
    (getTimeChartOptions sampleHistogramResolutionChart).HistogramChartOptions =
      some { ColorThemeIndex := 1 } ∧
    (getTimeChartOptions sampleHistogramResolutionChart).ProgramOptions =
      some { MinimumResolution := 30000 } ∧
    (timechartAPIToTF sampleHelpers sliceOrder noSetErrors {}
      { Options := getTimeChartOptions sampleHistogramResolutionChart }).2 ≠ none ∧
    (timechartAPIToTF sampleHelpers sliceOrder noSetErrors {}
      { Options := getTimeChartOptions sampleHistogramResolutionChart }).1.minimum_resolution
      = 0 := by
  refine ⟨by rfl, by rfl, ?_, by rfl⟩
  intro hnone
  have hsome : (timechartAPIToTF sampleHelpers sliceOrder noSetErrors {}
      { Options := getTimeChartOptions sampleHistogramResolutionChart }).2 =
      some ("panic: interface conversion: interface {} is map[string]interface {}, " ++
        "not *schema.Set") := by rfl
  rw [hsome] at hnone
  cases hnone

/-- C12, amended: for a configured `minimum_resolution` (respectively `max_delay`) of `s`
seconds with `0 < s ≤ 2147483`, `getTimeChartOptions` sets the program option to
`s × 1000`, and `timechartAPIToTF` applied to a chart with those options sets
`minimum_resolution` (respectively `max_delay`) back to `s`, provided every write
succeeds and the options have no histogram options. -/
theorem timeChart_seconds_round_trip (h : ChartHelpers) (ord : HashOrder)
    (setErr : SetErrors) (hset : ∀ key, setErr key = none)
    (d0 d : TimeChartResourceData) (c : Chart) (hc : c.Options = getTimeChartOptions d)
    (hhist : (getTimeChartOptions d).HistogramChartOptions = none) :
    (inInt32Millis d.minimum_resolution →
      ∃ po, (getTimeChartOptions d).ProgramOptions = some po ∧
        po.MinimumResolution = d.minimum_resolution * 1000 ∧
        (timechartAPIToTF h ord setErr d0 c).2 = none ∧
        (timechartAPIToTF h ord setErr d0 c).1.minimum_resolution = d.minimum_resolution) ∧
    (inInt32Millis d.max_delay →
      ∃ po, (getTimeChartOptions d).ProgramOptions = some po ∧
        po.MaxDelay = d.max_delay * 1000 ∧
        (timechartAPIToTF h ord setErr d0 c).2 = none ∧
        (timechartAPIToTF h ord setErr d0 c).1.max_delay = d.max_delay) := by
  obtain ⟨g1, _, g3, g4, g5, g6, _⟩ := getTimeChartOptions_parts d
  have key : ∀ po, programOptionsOf d = some po →
      (timechartAPIToTF h ord setErr d0 c).2 = none ∧
      (timechartAPIToTF h ord setErr d0 c).1.minimum_resolution =
        Int.tdiv po.MinimumResolution 1000 ∧
      (timechartAPIToTF h ord setErr d0 c).1.max_delay = Int.tdiv po.MaxDelay 1000 := by
    intro po hpo
    exact timechartAPIToTF_program_options h ord setErr hset d0 c po
      (by rw [hc]; exact hhist) (by rw [hc]; exact g3) (by rw [hc]; exact g4) (by rw [hc]; exact g5)
      (by rw [hc]; exact g6) (by rw [hc, g1]; exact hpo)
  rw [g1, programOptionsOf_eq]
  constructor
  · intro hs
    have hne : ¬ (d.minimum_resolution = 0 ∧ d.max_delay = 0 ∧ d.disable_sampling = false) := by
      intro hz
      unfold inInt32Millis at hs
      omega
    rw [if_neg hne]
    have hpo := key _ (by rw [programOptionsOf_eq, if_neg hne])
    refine ⟨_, rfl, wrapInt32_millis _ hs, hpo.1, ?_⟩
    rw [hpo.2.1]
    show Int.tdiv (wrapInt32 (wrapInt64 (d.minimum_resolution * 1000))) 1000 = _
    rw [wrapInt32_millis _ hs]
    exact Int.mul_tdiv_cancel _ (by decide)
  · intro hs
    have hne : ¬ (d.minimum_resolution = 0 ∧ d.max_delay = 0 ∧ d.disable_sampling = false) := by
      intro hz
      unfold inInt32Millis at hs
      omega
    rw [if_neg hne]
    have hpo := key _ (by rw [programOptionsOf_eq, if_neg hne])
    refine ⟨_, rfl, wrapInt32_millis _ hs, hpo.1, ?_⟩
    rw [hpo.2.2]
    show Int.tdiv (wrapInt32 (wrapInt64 (d.max_delay * 1000))) 1000 = _
    rw [wrapInt32_millis _ hs]
    exact Int.mul_tdiv_cancel _ (by decide)

theorem timeChart_seconds_round_trip_witness :
    (∃ po, (getTimeChartOptions sampleResolutionChart).ProgramOptions = some po ∧
      po.MinimumResolution = 30 * 1000 ∧
      (timechartAPIToTF sampleHelpers reverseOrder noSetErrors sampleLongResolutionChart
        { Options := getTimeChartOptions sampleResolutionChart }).2 = none ∧
      (timechartAPIToTF sampleHelpers reverseOrder noSetErrors sampleLongResolutionChart
        { Options := getTimeChartOptions sampleResolutionChart }).1.minimum_resolution
        = 30) ∧
    (∃ po, (getTimeChartOptions sampleResolutionChart).ProgramOptions = some po ∧
      po.MaxDelay = 15 * 1000 ∧
      (timechartAPIToTF sampleHelpers reverseOrder noSetErrors sampleLongResolutionChart
        { Options := getTimeChartOptions sampleResolutionChart }).2 = none ∧
      (timechartAPIToTF sampleHelpers reverseOrder noSetErrors sampleLongResolutionChart
        { Options := getTimeChartOptions sampleResolutionChart }).1.max_delay = 15) :=
  have hthm := timeChart_seconds_round_trip sampleHelpers reverseOrder noSetErrors
    (fun _ => rfl) sampleLongResolutionChart sampleResolutionChart
    { Options := getTimeChartOptions sampleResolutionChart } rfl (by rfl)
  ⟨hthm.1 ⟨by decide, by decide⟩, hthm.2 ⟨by decide, by decide⟩⟩

/-! ## Claims about the provider configuration -/

theorem firstSupplied_nested (a : String) (l : List String) :
    firstSupplied [a, firstSupplied l] = firstSupplied (a :: l) := by
  by_cases ha : a = ""
  · simp only [firstSupplied, ha, if_true]
    split_ifs with h
    · exact h.symm
    · rfl
  · simp [firstSupplied, ha]

theorem firstSupplied_trailing (a : String) : firstSupplied [a, ""] = a := by
  by_cases ha : a = ""
  · simp [firstSupplied, ha]
  · simp [firstSupplied, ha]

theorem firstSupplied_single (a : String) : firstSupplied [a] = a := by
  by_cases ha : a = ""
  · simp [firstSupplied, ha]
  · simp [firstSupplied, ha]

theorem firstSupplied_skip (l : List String) : firstSupplied ("" :: l) = firstSupplied l := by
  simp [firstSupplied]

theorem firstSupplied_append (l m : List String) :
    firstSupplied (firstSupplied l :: m) = firstSupplied (l ++ m) := by
  induction l with
  | nil => simp [firstSupplied]
  | cons a l ih =>
    by_cases ha : a = ""
    · simpa [firstSupplied, ha] using ih
    · simp [firstSupplied, ha]

theorem overlaySettings_eq (config : signalfxConfig) (s : ProviderSettings) :
    overlaySettings config s =
      { AuthToken := firstSupplied [s.auth_token, config.AuthToken]
        APIURL := firstSupplied [s.api_url, config.APIURL]
        CustomAppURL := firstSupplied [s.custom_app_url, config.CustomAppURL] } := by
  unfold overlaySettings
  by_cases h1 : s.auth_token = "" <;> by_cases h2 : s.api_url = "" <;>
    by_cases h3 : s.custom_app_url = "" <;>
    by_cases h4 : config.AuthToken = "" <;> by_cases h5 : config.APIURL = "" <;>
    by_cases h6 : config.CustomAppURL = "" <;>
    simp [firstSupplied, h1, h2, h3, h4, h5, h6]

/-- The model of `Configure` answers what the tests of `provider_test.go` assert. -/
theorem Configure_passes_tests :
    (∃ diag rest, (Configure {}).2 = diag :: rest ∧
      stringsContains diag.Summary "missing auth token or email and password" = true) ∧
    (Configure testFromTerraform).1 =
      some { AuthToken := "XXX", APIURL := "https://api.eu0.signalfx.com",
             CustomAppURL := "https://myotherdomain.signalfx.com" } ∧
    (Configure testFromEnvironment).1 =
      some { AuthToken := "YYY", APIURL := "https://api.eu0.signalfx.com",
             CustomAppURL := "https://mydomain.signalfx.com" } ∧
    ((Configure testFromHomeFile).1.map (fun c => c.AuthToken)) = some "WWW" ∧
    (Configure testFromNetrcFile).1 =
      some { AuthToken := "WWW", APIURL := "https://api.signalfx.com",
             CustomAppURL := "https://app.signalfx.com" } ∧
    (Configure testFromSystemFileOnly).1 =
      some { AuthToken := "ZZZ", APIURL := "https://api.signalfx.com",
             CustomAppURL := "https://app.signalfx.com" } := by
  exact ⟨⟨_, _, rfl, by decide⟩, by rfl, by rfl, by rfl, by rfl, by rfl⟩

/-- C17, as stated, fails: in the run of `TestSignalFxConfigureFromNetrcFile` the system
config file supplies the token `ZZZ` and `.netrc` the token `WWW`; the order of the claim
resolves `ZZZ`, the test asserts `WWW`, and `WWW` is what `Configure` answers. -/
theorem spec_order_contradicts_netrc_test :
    specOrderToken testFromNetrcFile = "ZZZ" ∧
    (Configure testFromNetrcFile).1.map (fun c => c.AuthToken) = some "WWW" := by
  refine ⟨by rfl, by rfl⟩

/-- C17, amended: when some source supplies a token, `Configure` resolves each setting
from the highest source that supplies it, in the order Terraform provider block,
environment variables, home config file, `.netrc` credentials, system config file; the
URLs, which `.netrc` does not supply, fall back to their defaults. -/
theorem Configure_precedence (src : ProviderSources)
    (htoken : firstSupplied [src.terraform.auth_token, src.environment.auth_token,
      (src.homeFile.getD {}).auth_token, src.netrc.getD "",
      (src.systemFile.getD {}).auth_token] ≠ "") :
    Configure src =
      (some
        { AuthToken := firstSupplied [src.terraform.auth_token, src.environment.auth_token,
            (src.homeFile.getD {}).auth_token, src.netrc.getD "",
            (src.systemFile.getD {}).auth_token]
          APIURL := firstSupplied [src.terraform.api_url, src.environment.api_url,
            (src.homeFile.getD {}).api_url, (src.systemFile.getD {}).api_url,
            defaultAPIURL]
          CustomAppURL := firstSupplied [src.terraform.custom_app_url,
            src.environment.custom_app_url, (src.homeFile.getD {}).custom_app_url,
            (src.systemFile.getD {}).custom_app_url, defaultCustomAppURL] }, []) := by
  unfold Configure
  simp only [overlayNetrc, overlaySettings_eq,
    firstSupplied_nested, firstSupplied_trailing, firstSupplied_single,
    firstSupplied_skip, firstSupplied_append, List.cons_append, List.nil_append]
    at htoken ⊢
  rw [if_neg htoken]

theorem Configure_precedence_witness :
    Configure sampleHomeAndNetrc =
      (some { AuthToken := "HHH", APIURL := "https://api.signalfx.com",
              CustomAppURL := "https://app.signalfx.com" }, []) ∧
    Configure sampleNetrcAndSystem =
      (some { AuthToken := "NNN", APIURL := "https://api.us1.signalfx.com",
              CustomAppURL := "https://mydomain.signalfx.com" }, []) ∧
    Configure testFromTerraform =
      (some { AuthToken := "XXX", APIURL := "https://api.eu0.signalfx.com",
              CustomAppURL := "https://myotherdomain.signalfx.com" }, []) :=
  ⟨Configure_precedence sampleHomeAndNetrc (by decide),
   Configure_precedence sampleNetrcAndSystem (by decide),
   Configure_precedence testFromTerraform (by decide)⟩

/-- C18: when the Terraform block is empty, the environment has no token, and neither
the home config file, the system config file nor `.netrc` supplies a token, `Configure`
returns no configuration and a non-empty list of diagnostics whose first summary
contains "missing auth token or email and password". -/
theorem Configure_missing_credentials (src : ProviderSources)
    (hblock : src.terraform = {})
    (henv : src.environment.auth_token = "")
    (hhome : (src.homeFile.getD {}).auth_token = "")
    (hsystem : (src.systemFile.getD {}).auth_token = "")
    (hnetrc : src.netrc.getD "" = "") :
    (Configure src).1 = none ∧
    ∃ diag rest, (Configure src).2 = diag :: rest ∧
      stringsContains diag.Summary "missing auth token or email and password" = true := by
  have hterraform : src.terraform.auth_token = "" := by rw [hblock]
  have hnone : Configure src =
      (none, [{ Severity := Severity.Error, Summary := missingAuthSummary }]) := by
    unfold Configure
    simp only [if_true, overlayNetrc, overlaySettings_eq,
      firstSupplied_nested, firstSupplied_trailing, firstSupplied_single,
      firstSupplied_skip, firstSupplied_append, List.cons_append, List.nil_append,
      hterraform, henv, hhome, hsystem, hnetrc]
  rw [hnone]
  exact ⟨rfl, _, _, rfl, by decide⟩

theorem Configure_missing_credentials_witness :
    (Configure {}).1 = none ∧
    ∃ diag rest, (Configure {}).2 = diag :: rest ∧
      stringsContains diag.Summary "missing auth token or email and password" = true :=
  Configure_missing_credentials {} rfl rfl rfl rfl rfl

/-! ## Claims about the AWS CloudWatch integration -/

/-- The model of `decodeTerraform` answers what the rows of `TestIntegrationDecode`
expect, whichever auth method wins when both are set. -/
theorem decodeTerraform_passes_tests (externalFirst : Bool) :
    decodeTestData.map (decodeTerraform externalFirst) = decodeTestExpect := by
  cases externalFirst
  · rfl
  · rfl

/-- C19: `decodeTerraform` returns the error "requires either `external_id` or `token`
and `key`" when the configuration supplies neither `external_id` nor both `token` and
`key`; otherwise it returns an integration of type `AWSCloudWatch` whose auth method is
`EXTERNAL_ID`, with `ExternalId` and `RoleArn` copied, when `external_id` is set, or
`SECURITY_TOKEN`, with `Token` and `Key` copied, when `token` and `key` are set: the
former when only `external_id` is set, the latter when only `token` and `key` are. -/
theorem decodeTerraform_auth_method (externalFirst : Bool) (d : AwsIntegrationResourceData) :
    (d.external_id = "" → (d.token = "" ∨ d.key = "") →
      decodeTerraform externalFirst d =
        .error "requires either `external_id` or `token` and `key`") ∧
    ((d.external_id ≠ "" ∨ (d.token ≠ "" ∧ d.key ≠ "")) →
      ∃ i, decodeTerraform externalFirst d = .ok i ∧ i.Type_ = "AWSCloudWatch" ∧
        ((d.external_id ≠ "" ∧ i.AuthMethod = AwsAuthMethod.EXTERNAL_ID ∧
            i.ExternalId = d.external_id ∧ i.RoleArn = d.role_arn) ∨
         (d.token ≠ "" ∧ d.key ≠ "" ∧ i.AuthMethod = AwsAuthMethod.SECURITY_TOKEN ∧
            i.Token = d.token ∧ i.Key = d.key))) ∧
    (d.external_id ≠ "" → (d.token = "" ∨ d.key = "") →
      ∃ i, decodeTerraform externalFirst d = .ok i ∧ i.Type_ = "AWSCloudWatch" ∧
        i.AuthMethod = AwsAuthMethod.EXTERNAL_ID ∧
        i.ExternalId = d.external_id ∧ i.RoleArn = d.role_arn) ∧
    (d.external_id = "" → d.token ≠ "" → d.key ≠ "" →
      ∃ i, decodeTerraform externalFirst d = .ok i ∧ i.Type_ = "AWSCloudWatch" ∧
        i.AuthMethod = AwsAuthMethod.SECURITY_TOKEN ∧
        i.Token = d.token ∧ i.Key = d.key) := by
  refine ⟨?_, ?_, ?_, ?_⟩
  · intro he htk
    have h1 : ¬ (d.external_id ≠ "" ∧ d.token ≠ "" ∧ d.key ≠ "") := fun h => h.1 he
    have h2 : ¬ (d.external_id ≠ "") := fun h => h he
    have h3 : ¬ (d.token ≠ "" ∧ d.key ≠ "") := fun h => htk.elim h.1 h.2
    unfold decodeTerraform
    simp only [if_neg h1, if_neg h2, if_neg h3]
    rfl
  · intro h
    unfold decodeTerraform
    by_cases h1 : d.external_id ≠ "" ∧ d.token ≠ "" ∧ d.key ≠ ""
    · simp only [if_pos h1]
      cases externalFirst
      · exact ⟨_, rfl, rfl, Or.inr ⟨h1.2.1, h1.2.2, rfl, rfl, rfl⟩⟩
      · exact ⟨_, rfl, rfl, Or.inl ⟨h1.1, rfl, rfl, rfl⟩⟩
    · by_cases h2 : d.external_id ≠ ""
      · simp only [if_neg h1, if_pos h2]
        exact ⟨_, rfl, rfl, Or.inl ⟨h2, rfl, rfl, rfl⟩⟩
      · have h3 : d.token ≠ "" ∧ d.key ≠ "" := h.elim (fun h => absurd h h2) id
        simp only [if_neg h1, if_neg h2, if_pos h3]
        exact ⟨_, rfl, rfl, Or.inr ⟨h3.1, h3.2, rfl, rfl, rfl⟩⟩
  · intro he htk
    have h1 : ¬ (d.external_id ≠ "" ∧ d.token ≠ "" ∧ d.key ≠ "") :=
      fun h => htk.elim h.2.1 h.2.2
    unfold decodeTerraform
    simp only [if_neg h1, if_pos he]
    exact ⟨_, rfl, rfl, rfl, rfl, rfl⟩
  · intro he ht hk
    have h1 : ¬ (d.external_id ≠ "" ∧ d.token ≠ "" ∧ d.key ≠ "") := fun h => h.1 he
    have h2 : ¬ (d.external_id ≠ "") := fun h => h he
    have h3 : d.token ≠ "" ∧ d.key ≠ "" := ⟨ht, hk⟩
    unfold decodeTerraform
    simp only [if_neg h1, if_neg h2, if_pos h3]
    exact ⟨_, rfl, rfl, rfl, rfl, rfl⟩

theorem decodeTerraform_auth_method_witness :
    decodeTerraform true {} = .error "requires either `external_id` or `token` and `key`" ∧
    (∃ i, decodeTerraform true { external_id := "my-id", role_arn := "...." } = .ok i ∧
      i.Type_ = "AWSCloudWatch" ∧ i.AuthMethod = AwsAuthMethod.EXTERNAL_ID ∧
      i.ExternalId = "my-id" ∧ i.RoleArn = "....") ∧
    (∃ i, decodeTerraform true { token := "my-token", key := "my-key" } = .ok i ∧
      i.Type_ = "AWSCloudWatch" ∧ i.AuthMethod = AwsAuthMethod.SECURITY_TOKEN ∧
      i.Token = "my-token" ∧ i.Key = "my-key") :=
  ⟨(decodeTerraform_auth_method true {}).1 rfl (Or.inl rfl),
   (decodeTerraform_auth_method true { external_id := "my-id", role_arn := "...." }).2.2.1
     (by decide) (Or.inl rfl),
   (decodeTerraform_auth_method true { token := "my-token", key := "my-key" }).2.2.2
     rfl (by decide) (by decide)⟩

/-! ## Claims about the test harness for resource operations -/

/-- The model of the harness yields the diagnostics that the rows of the create and
delete tests expect. -/
theorem runOperation_passes_tests :
    createTestResources.map (fun r => runOperation Operation.create r () ()) =
      expectedCreateIssues ∧
    deleteTestResources.map (fun r => runOperation Operation.delete r () ()) =
      expectedDeleteIssues := by
  exact ⟨by rfl, by rfl⟩

/-- C20: for each operation, a resource that defines none of the legacy, context and
without-timeout variants yields exactly one diagnostic, of severity Error, with summary
"no <op> operation defined"; a legacy variant that returns an error yields one Error
diagnostic with the error's message; and the diagnostics of a context or
without-timeout variant, when that is the variant run, are passed through unchanged. -/
theorem runOperation_diagnostics {ρ μ : Type} (op : Operation) (r : SchemaResource ρ μ)
    (rd : ρ) (m : μ) :
    (r.legacy op = none → r.context op = none → r.withoutTimeout op = none →
      runOperation op r rd m =
        [{ Severity := Severity.Error,
           Summary := "no " ++ op.word ++ " operation defined" }]) ∧
    (∀ f e, r.legacy op = some f → f rd m = some e →
      runOperation op r rd m = [{ Severity := Severity.Error, Summary := e }]) ∧
    (∀ g, r.legacy op = none → r.context op = some g →
      runOperation op r rd m = g rd m) ∧
    (∀ g, r.legacy op = none → r.context op = none → r.withoutTimeout op = some g →
      runOperation op r rd m = g rd m) := by
  refine ⟨?_, ?_, ?_, ?_⟩
  · intro h1 h2 h3
    simp only [runOperation, h1, h2, h3]
  · intro f e h1 he
    simp only [runOperation, h1, he, diagFromErr]
  · intro g h1 h2
    simp only [runOperation, h1, h2]
  · intro g h1 h2 h3
    simp only [runOperation, h1, h2, h3]

theorem runOperation_diagnostics_witness :
    runOperation Operation.read ({} : SchemaResource Unit Unit) () () =
      [{ Severity := Severity.Error, Summary := "no read operation defined" }] ∧
    runOperation Operation.update
        ({ Update := some (fun _ _ => some "failed") } : SchemaResource Unit Unit) () () =
      [{ Severity := Severity.Error, Summary := "failed" }] ∧
    runOperation Operation.create
        ({ CreateContext := some (fun _ _ =>
            [{ Severity := Severity.Warning, Summary := "warn" }]) } :
          SchemaResource Unit Unit) () () =
      [{ Severity := Severity.Warning, Summary := "warn" }] ∧
    runOperation Operation.delete
        ({ DeleteWithoutTimeout := some (fun _ _ =>
            [{ Severity := Severity.Error, Summary := "failed" }]) } :
          SchemaResource Unit Unit) () () =
      [{ Severity := Severity.Error, Summary := "failed" }] :=
  ⟨(runOperation_diagnostics Operation.read ({} : SchemaResource Unit Unit) () ()).1
     rfl rfl rfl,
   (runOperation_diagnostics Operation.update
     ({ Update := some (fun _ _ => some "failed") } : SchemaResource Unit Unit) () ()).2.1
     _ _ rfl rfl,
   (runOperation_diagnostics Operation.create
     ({ CreateContext := some (fun _ _ =>
         [{ Severity := Severity.Warning, Summary := "warn" }]) } :
       SchemaResource Unit Unit) () ()).2.2.1 _ rfl rfl,
   (runOperation_diagnostics Operation.delete
     ({ DeleteWithoutTimeout := some (fun _ _ =>
         [{ Severity := Severity.Error, Summary := "failed" }]) } :
       SchemaResource Unit Unit) () ()).2.2.2 _ rfl rfl rfl⟩

/-! ## Further claims about the time chart -/

/-- C21, as stated, fails: an end time without a start time leaves the time window nil,
and with a start time an end time of 9223372036854776 s gives an end that is not the end
time times 1000. -/
theorem getTimeChartOptions_end_time_unused :
    (getTimeChartOptions sampleEndOnlyChart).Time = none ∧
    (getTimeChartOptions sampleLongEndChart).Time =
      some { Start := 1700000000000, End := -9223372036854775616, Range := 0,
             Type_ := "absolute" } ∧
    (-9223372036854775616 : Int) ≠ 9223372036854776 * 1000 := by
  refine ⟨by rfl, by rfl, by decide⟩

/-- C21, amended: when `start_time` is set and `end_time` is set to a value `e` between
-9223372036854775 and 9223372036854775, the options of `getTimeChartOptions` have an
absolute time window whose end is `e × 1000`; when `start_time` is not set, `end_time`
is not read, and a time window, if there is one, has the end 0. -/
theorem getTimeChartOptions_end_time (d : TimeChartResourceData) :
    (d.start_time ≠ 0 → d.end_time ≠ 0 → inMillisRange d.end_time →
      ∃ t, (getTimeChartOptions d).Time = some t ∧ t.Type_ = "absolute" ∧
        t.End = d.end_time * 1000) ∧
    (d.start_time = 0 → ∀ t, (getTimeChartOptions d).Time = some t → t.End = 0) := by
  rw [(getTimeChartOptions_parts d).2.1, timeOptionsOf_eq]
  constructor
  · intro hs _ hr
    rw [if_pos hs]
    exact ⟨_, rfl, rfl, wrapInt64_exact _ hr⟩
  · intro hs t ht
    rw [if_neg (not_not.mpr hs)] at ht
    by_cases hr : d.time_range = 0
    · rw [if_neg (not_not.mpr hr)] at ht
      cases ht
    · rw [if_pos hr] at ht
      cases ht
      rfl

theorem getTimeChartOptions_end_time_witness :
    (∃ t, (getTimeChartOptions sampleAbsoluteChart).Time = some t ∧ t.Type_ = "absolute" ∧
      t.End = 1700003600 * 1000) ∧
    (∀ t, (getTimeChartOptions sampleRelativeChart).Time = some t → t.End = 0) :=
  ⟨(getTimeChartOptions_end_time sampleAbsoluteChart).1 (by decide) (by decide)
     ⟨by decide, by decide⟩,
   (getTimeChartOptions_end_time sampleRelativeChart).2 rfl⟩

/-- The fields of the element of `vizList` that are not the colour. -/
theorem perSignalVizOption_fields (v : VizElem) :
    (perSignalVizOption v).Label = v.label ∧
    (perSignalVizOption v).PlotType = v.plot_type ∧
    (perSignalVizOption v).YAxis = (if v.axis = "right" then 1 else 0) ∧
    (perSignalVizOption v).ValueUnit = v.value_unit ∧
    (perSignalVizOption v).ValueSuffix = v.value_suffix ∧
    (perSignalVizOption v).ValuePrefix = v.value_prefix := by
  unfold perSignalVizOption
  cases PaletteColors.lookup v.color <;>
    by_cases h1 : v.plot_type = "" <;> by_cases h2 : v.axis = "" <;>
    by_cases h3 : v.axis = "right" <;> by_cases h4 : v.value_unit = "" <;>
    by_cases h5 : v.value_suffix = "" <;> by_cases h6 : v.value_prefix = "" <;>
    simp [h1, h2, h3, h4, h5, h6]

/-- C22: `validateAxisTimeChart` returns no errors exactly for `right` and `left`; for a
`viz_options` element with such an axis, the element of `getPerSignalVizOptions` at the
same position has `YAxis` 1 for `right` and 0 for `left`, and `publishLabelOptionsToMap`
turns it into a map with the element's axis, label, plot type, value unit, value suffix
and value prefix, provided the palette index lookup succeeds. -/
theorem vizOptions_axis_round_trip (h : ChartHelpers) (d : TimeChartResourceData)
    (k : String) (i : Nat) (v : VizElem)
    (hv : d.viz_options.elems[i]? = some v)
    (hvalid : (validateAxisTimeChart v.axis k).2 = [])
    (hpal : ∀ item, (getPerSignalVizOptions d)[i]? = some item →
      ∃ color, h.getNameFromPaletteColorsByIndex item.PaletteIndex = .ok color) :
    (∀ a : String, (validateAxisTimeChart a k).2 = [] ↔ a = "right" ∨ a = "left") ∧
    ∃ item m, (getPerSignalVizOptions d)[i]? = some item ∧
      (v.axis = "right" → item.YAxis = 1) ∧ (v.axis = "left" → item.YAxis = 0) ∧
      publishLabelOptionsToMap h item = .ok m ∧
      m.axis = v.axis ∧ m.label = v.label ∧ m.plot_type = v.plot_type ∧
      m.value_unit = v.value_unit ∧ m.value_suffix = v.value_suffix ∧
      m.value_prefix = v.value_prefix := by
  have hiff : ∀ a : String, (validateAxisTimeChart a k).2 = [] ↔ a = "right" ∨ a = "left" := by
    intro a
    unfold validateAxisTimeChart
    by_cases hr : a = "right"
    · simp [hr]
    · by_cases hl : a = "left"
      · simp [hl]
      · simp [hr, hl]
  have haxis := (hiff v.axis).mp hvalid
  have hitem : (getPerSignalVizOptions d)[i]? = some (perSignalVizOption v) := by
    unfold getPerSignalVizOptions
    rw [List.getElem?_map, hv]
    rfl
  obtain ⟨color, hcolor⟩ := hpal _ hitem
  obtain ⟨f1, f2, f3, f4, f5, f6⟩ := perSignalVizOption_fields v
  refine ⟨hiff, perSignalVizOption v,
    { label := v.label, color := color, axis := v.axis, plot_type := v.plot_type,
      value_unit := v.value_unit, value_suffix := v.value_suffix,
      value_prefix := v.value_prefix }, hitem, ?_, ?_, ?_, rfl, rfl, rfl, rfl, rfl, rfl⟩
  · intro hr
    rw [f3, if_pos hr]
  · intro hl
    rw [f3, if_neg (by rw [hl]; decide)]
  · unfold publishLabelOptionsToMap
    rw [hcolor]
    simp only [f1, f2, f3, f4, f5, f6]
    rcases haxis with hr | hl
    · simp [hr]
    · simp [hl]

theorem vizOptions_axis_round_trip_witness :
    ∃ item m, (getPerSignalVizOptions sampleVizChart)[0]? = some item ∧
      item.YAxis = 1 ∧ publishLabelOptionsToMap sampleHelpers item = .ok m ∧
      m.axis = "right" ∧ m.label = "A" ∧ m.plot_type = "AreaChart" ∧
      m.value_unit = "Byte" ∧ m.value_suffix = "/s" ∧ m.value_prefix = "~" :=
  have hthm := vizOptions_axis_round_trip sampleHelpers sampleVizChart "axis" 0
    sampleVizElem rfl (by decide)
    (fun item hitem => by
      have hsome : (getPerSignalVizOptions sampleVizChart)[0]? =
          some (perSignalVizOption sampleVizElem) := rfl
      rw [hsome] at hitem
      cases hitem
      exact ⟨"blue", by rfl⟩)
  hthm.2.imp (fun _ hm => hm.imp (fun _ hx =>
    ⟨hx.1, hx.2.1 rfl, hx.2.2.2.1, hx.2.2.2.2.1, hx.2.2.2.2.2.1, hx.2.2.2.2.2.2.1,
     hx.2.2.2.2.2.2.2.1, hx.2.2.2.2.2.2.2.2.1, hx.2.2.2.2.2.2.2.2.2⟩))

/-- The plain options have none of the three plot type options. -/
theorem baseOptionsOf_plot_options (d : TimeChartResourceData) :
    (baseOptionsOf d).AreaChartOptions = none ∧
    (baseOptionsOf d).LineChartOptions = none ∧
    (baseOptionsOf d).HistogramChartOptions = none := by
  unfold baseOptionsOf
  cases getOkString d.unit_prefix <;> cases getOkString d.color_by <;>
    cases getOkBool d.show_event_lines <;> cases getOkString d.plot_type <;>
    cases getOkInt d.axes_precision <;> cases getOkBool d.axes_include_zero <;>
    exact ⟨rfl, rfl, rfl⟩

theorem lookup_mem_values (k : String) (idx : Int) :
    ∀ l : List (String × Int), l.lookup k = some idx → idx ∈ l.map Prod.snd
  | [], hl => by simp at hl
  | (k1, v1) :: rest, hl => by
    by_cases hk : k = k1
    · subst hk
      simp only [List.lookup, beq_self_eq_true] at hl
      cases hl
      simp
    · have hb : (k == k1) = false := by simpa using hk
      simp only [List.lookup, hb] at hl
      exact List.mem_cons_of_mem _ (lookup_mem_values k idx rest hl)

/-- The indexes of `FullPaletteColors` are unchanged by the conversion to `int32`. -/
theorem fullPalette_index (k : String) (idx : Int)
    (hl : FullPaletteColors.lookup k = some idx) : wrapInt32 idx = idx := by
  have hall : ∀ v ∈ FullPaletteColors.map Prod.snd, wrapInt32 v = v := by decide
  exact hall idx (lookup_mem_values k idx _ hl)

/-- The three plot type options after the block on the plot type, for options that had
none of them. -/
theorem plotTypeOptionsOf_eq (d : TimeChartResourceData) (options : Options)
    (ha : options.AreaChartOptions = none) (hl : options.LineChartOptions = none)
    (hh : options.HistogramChartOptions = none) :
    (plotTypeOptionsOf d options).AreaChartOptions =
      (if d.plot_type = "AreaChart" then some { ShowDataMarkers := d.show_data_markers }
       else none) ∧
    (plotTypeOptionsOf d options).LineChartOptions =
      (if d.plot_type ≠ "" ∧ d.plot_type ≠ "AreaChart" ∧ d.plot_type ≠ "Histogram" then
        some { ShowDataMarkers := d.show_data_markers }
       else none) ∧
    (plotTypeOptionsOf d options).HistogramChartOptions =
      (if d.plot_type = "Histogram" then
        match d.histogram_options.elems with
        | hOptions :: _ =>
          (FullPaletteColors.lookup hOptions.color_theme).map
            (fun elem => { ColorThemeIndex := wrapInt32 elem })
        | [] => none
       else none) := by
  unfold plotTypeOptionsOf getOkString getOkSet
  by_cases h0 : d.plot_type = ""
  · simp [h0, ha, hl, hh]
  · by_cases h1 : d.plot_type = "AreaChart"
    · simp [h1, hl, hh]
    · by_cases h2 : d.plot_type = "Histogram"
      · cases hs : d.histogram_options.elems with
        | nil => simp [h2, ha, hl, hh]
        | cons x xs =>
          cases hx : FullPaletteColors.lookup x.color_theme with
          | none => simp [h2, hx, ha, hl, hh]
          | some elem => simp [h2, hx, ha, hl]
      · simp [h0, h1, h2, ha, hh]

/-- C23: the options of `getTimeChartOptions` have the type `TimeSeriesChart` and at most
one of the area, line and histogram options; the area options are set exactly for the
plot type `AreaChart`, the line options exactly for a non-empty plot type other than
`AreaChart` and `Histogram`, the histogram options only for the plot type `Histogram`
with a first `histogram_options` element whose colour theme is a key of
`FullPaletteColors`, whose index is then the colour theme index; and the area and line
options show data markers as `show_data_markers` says. -/
theorem getTimeChartOptions_plot_type_options (d : TimeChartResourceData) :
    (getTimeChartOptions d).Type_ = "TimeSeriesChart" ∧
    (¬ ((getTimeChartOptions d).AreaChartOptions ≠ none ∧
        (getTimeChartOptions d).LineChartOptions ≠ none) ∧
     ¬ ((getTimeChartOptions d).AreaChartOptions ≠ none ∧
        (getTimeChartOptions d).HistogramChartOptions ≠ none) ∧
     ¬ ((getTimeChartOptions d).LineChartOptions ≠ none ∧
        (getTimeChartOptions d).HistogramChartOptions ≠ none)) ∧
    ((getTimeChartOptions d).AreaChartOptions ≠ none ↔ d.plot_type = "AreaChart") ∧
    ((getTimeChartOptions d).LineChartOptions ≠ none ↔
      d.plot_type ≠ "" ∧ d.plot_type ≠ "AreaChart" ∧ d.plot_type ≠ "Histogram") ∧
    (∀ histogram, (getTimeChartOptions d).HistogramChartOptions = some histogram →
      d.plot_type = "Histogram" ∧
      ∃ hOptions rest idx, d.histogram_options.elems = hOptions :: rest ∧
        FullPaletteColors.lookup hOptions.color_theme = some idx ∧
        histogram.ColorThemeIndex = idx) ∧
    (∀ area, (getTimeChartOptions d).AreaChartOptions = some area →
      area.ShowDataMarkers = d.show_data_markers) ∧
    (∀ line, (getTimeChartOptions d).LineChartOptions = some line →
      line.ShowDataMarkers = d.show_data_markers) := by
  obtain ⟨b1, b2, b3⟩ := baseOptionsOf_plot_options d
  obtain ⟨ea, el, eh⟩ := plotTypeOptionsOf_eq d
    { baseOptionsOf d with ProgramOptions := programOptionsOf d, Time := timeOptionsOf d }
    b1 b2 b3
  have ea2 : (getTimeChartOptions d).AreaChartOptions = _ := ea
  have el2 : (getTimeChartOptions d).LineChartOptions = _ := el
  have eh2 : (getTimeChartOptions d).HistogramChartOptions = _ := eh
  rw [ea2, el2, eh2]
  refine ⟨(getTimeChartOptions_parts d).2.2.2.2.2.2, ?_, ?_, ?_, ?_, ?_, ?_⟩
  · refine ⟨?_, ?_, ?_⟩
    · rintro ⟨h1, h2⟩
      split_ifs at h1 h2 <;> simp_all
    · rintro ⟨h1, h2⟩
      split_ifs at h1 h2 <;> simp_all
    · rintro ⟨h1, h2⟩
      split_ifs at h1 h2 <;> simp_all
  · split_ifs with hp <;> simp [hp]
  · split_ifs with hp
    · simp [hp]
    · simpa using hp
  · intro histogram hsome
    split_ifs at hsome with hp
    refine ⟨hp, ?_⟩
    cases hs : d.histogram_options.elems with
    | nil => rw [hs] at hsome; cases hsome
    | cons x xs =>
      rw [hs] at hsome
      dsimp only at hsome
      cases hx : FullPaletteColors.lookup x.color_theme with
      | none => rw [hx] at hsome; cases hsome
      | some idx =>
        rw [hx] at hsome
        cases hsome
        exact ⟨x, xs, idx, rfl, hx, fullPalette_index _ _ hx⟩
  · intro area hsome
    split_ifs at hsome
    cases hsome
    rfl
  · intro line hsome
    split_ifs at hsome
    cases hsome
    rfl

theorem getTimeChartOptions_plot_type_options_witness :
    (getTimeChartOptions sampleAreaChart).AreaChartOptions ≠ none ∧
    (getTimeChartOptions sampleColumnChart).LineChartOptions ≠ none ∧
    (∀ area, (getTimeChartOptions sampleAreaChart).AreaChartOptions = some area →
      area.ShowDataMarkers = true) ∧
    (∀ histogram,
      (getTimeChartOptions sampleHistogramChart).HistogramChartOptions = some histogram →
      histogram.ColorThemeIndex = 16) :=
  ⟨(getTimeChartOptions_plot_type_options sampleAreaChart).2.2.1.mpr rfl,
   (getTimeChartOptions_plot_type_options sampleColumnChart).2.2.2.1.mpr
     ⟨by decide, by decide, by decide⟩,
   (getTimeChartOptions_plot_type_options sampleAreaChart).2.2.2.2.2.1,
   fun histogram hsome => by
     obtain ⟨_, x, xs, idx, he, hl, hi⟩ :=
       (getTimeChartOptions_plot_type_options sampleHistogramChart).2.2.2.2.1 histogram hsome
     have he2 : [({ color_theme := "red" } : HistogramElem)] = x :: xs := he
     cases he2
     have hred : FullPaletteColors.lookup "red" = some 16 := by rfl
     rw [hi]
     exact (Option.some.inj (hl.symm.trans hred))⟩

/-! ## The time format of external URL targets -/

/-- C24: for a `target_external_url` element with a non-empty name, `getPayloadDataLink`
returns a payload whenever the state passes the property name checks and the AppD URL
check, and a returned payload has the target built from the element: of type
`EXTERNAL_LINK`, with the element's name, url and minimum time window, and with the time
format `Epoch` for `Epoch`, `EpochSeconds` for `EpochSeconds` and `ISO8601` for every
other value; every `EXTERNAL_LINK` target of a returned payload has one of the three
formats. -/
theorem getPayloadDataLink_external_time_format (d : DataLinkResourceData)
    (tfLink : ExternalURLElem) (hmem : tfLink ∈ d.target_external_url.elems)
    (hname : tfLink.name ≠ "") :
    (passesPropertyNameChecks d →
      d.target_appd_url.elems.all (fun e => appdMatchString e.url) = true →
      ∃ p, getPayloadDataLink d = Except.ok p) ∧
    (∀ p, getPayloadDataLink d = Except.ok p →
      (∃ t ∈ p.Targets, t.Type_ = EXTERNAL_LINK ∧ t.Name = tfLink.name ∧
        t.URL = tfLink.url ∧ t.MinimumTimeWindow = tfLink.minimum_time_window ∧
        (tfLink.time_format = "Epoch" → t.TimeFormat = Epoch) ∧
        (tfLink.time_format = "EpochSeconds" → t.TimeFormat = EpochSeconds) ∧
        (tfLink.time_format ≠ "Epoch" → tfLink.time_format ≠ "EpochSeconds" →
          t.TimeFormat = ISO8601)) ∧
      (∀ t ∈ p.Targets, t.Type_ = EXTERNAL_LINK →
        t.TimeFormat = ISO8601 ∨ t.TimeFormat = Epoch ∨ t.TimeFormat = EpochSeconds)) := by
  have hbuilt : externalTarget tfLink ∈ payloadTargets d := by
    simp only [payloadTargets, List.mem_append, List.mem_map, List.mem_filter]
    exact Or.inr ⟨tfLink, ⟨hmem, by simpa using hname⟩, rfl⟩
  constructor
  · intro hchecks happd
    rw [getPayloadDataLink_eq]
    rw [if_neg (fun h => hchecks.1 h.1 h.2), if_neg (fun h => hchecks.2 h.1 h.2),
      if_neg (not_not.mpr happd), if_neg (List.ne_nil_of_mem hbuilt)]
    exact ⟨_, rfl⟩
  · intro p hp
    obtain ⟨_, _, _, _, rfl⟩ := getPayloadDataLink_ok hp
    constructor
    · refine ⟨externalTarget tfLink, hbuilt, rfl, rfl, rfl, rfl, ?_, ?_, ?_⟩
      · intro h
        simp [externalTarget, externalTimeFormat, h]
      · intro h
        simp [externalTarget, externalTimeFormat, h, Epoch, EpochSeconds]
      · intro h1 h2
        simp [externalTarget, externalTimeFormat, h1, h2]
    · intro t ht hty
      simp only [payloadTargets, List.mem_append, List.mem_map, List.mem_filter] at ht
      rcases ht with ((⟨e, _, rfl⟩ | ⟨e, _, rfl⟩) | ⟨e, he, rfl⟩) | ⟨e, he, rfl⟩
      · exact absurd hty (by simp [sfxDashboardTarget, SfxDashboardElem.lookupOther,
          INTERNAL_LINK, EXTERNAL_LINK])
      · exact absurd hty (by simp [splunkTarget, SPLUNK_LINK, EXTERNAL_LINK])
      · exact absurd hty (by simp [appdTarget, APPD_LINK, EXTERNAL_LINK])
      · simp only [externalTarget, externalTimeFormat]
        split_ifs
        · exact Or.inr (Or.inl rfl)
        · exact Or.inr (Or.inr rfl)
        · exact Or.inl rfl

theorem getPayloadDataLink_external_time_format_witness :
    (∃ p, getPayloadDataLink sampleMixedExternal = Except.ok p) ∧
    (∃ t ∈ sampleMixedPayload.Targets, t.Type_ = EXTERNAL_LINK ∧ t.Name = "wiki" ∧
      t.URL = "https://example.com" ∧ t.MinimumTimeWindow = "6000" ∧
      t.TimeFormat = Epoch) :=
  have hthm := getPayloadDataLink_external_time_format sampleMixedExternal sampleWikiElem
    (by decide) (by decide)
  ⟨hthm.1 ⟨fun _ => by decide, fun _ => by decide⟩ (by decide),
   ((hthm.2 sampleMixedPayload (by rfl)).1).imp
     (fun _ ht => ⟨ht.1, ht.2.1, ht.2.2.1, ht.2.2.2.1, ht.2.2.2.2.1,
       ht.2.2.2.2.2.1 rfl⟩)⟩

end SignalFx
